import Mathlib

/-!
Pointer-interaction dispatch of `UBBoardView`

A shallow embedding of the hit resolver, the tool policy and the event handlers
of `src/board/UBBoardView.cpp`:

* `determineItemToPress`, `determineItemToMove` (the hit resolver),
* `itemShouldReceiveMousePressEvent`, `itemShouldReceiveSuspendedMousePressEvent`,
  `itemShouldBeMoved` (the tool policy),
* `isUBItem`, `isCppTool`, `itemIsLocked`,
* `handleItemsSelection`, `handleItemMousePress`, `handleItemMouseMove`,
  `mousePressEvent`, `mouseMoveEvent`, `mouseReleaseEvent`, `tabletEvent`,
  `leaveEvent`, `longPressEvent` (the gesture state machine), over a board
  that holds the view's fields, the scene and the record of the calls made to
  the collaborators.

Items are addressed by handles (`ItemId`), a null pointer is `none`.  The scene
is a store from handles to item attributes.  The numeric type tags returned by
`QGraphicsItem::type()` are `Int`s; the tag constants, which are declared in
headers outside this translation unit, are collected in `ItemTypes` and every
function takes them as a parameter.  A C++ `switch` is an if-chain over its
case labels in source order.
-/

namespace OpenBoard

/-! ## Data model -/

/-- Handle of a graphics item (a non-null `QGraphicsItem*`). -/
abbrev ItemId := Nat

/-- Active input mode, `UBStylusTool::Enum`. -/
inductive UBStylusTool where
  | Pen
  | Eraser
  | Marker
  | Selector
  | Play
  | Hand
  | ZoomIn
  | ZoomOut
  | Pointer
  | Line
  | Text
  | Capture
  deriving DecidableEq, Repr

/-- The type-tag constants the view compares `item->type()` with.  They are
declared in headers that are not part of this translation unit, so they are
parameters of the embedding. -/
structure ItemTypes where
  /-- Tag `QGraphicsItem::UserType`. -/
  UserType : Int
  /-- Tag `UBGraphicsItemType::UserTypesCount`. -/
  UserTypesCount : Int
  /-- Tag `UBGraphicsProtractor::Type`. -/
  Protractor : Int
  /-- Tag `UBGraphicsRuler::Type`. -/
  Ruler : Int
  /-- Tag `UBGraphicsAxes::Type`. -/
  Axes : Int
  /-- Tag `UBGraphicsTriangle::Type`. -/
  Triangle : Int
  /-- Tag `UBGraphicsCompass::Type`. -/
  Compass : Int
  /-- Tag `UBGraphicsCache::Type`. -/
  Cache : Int
  /-- Tag `UBGraphicsDelegateFrame::Type`. -/
  DelegateFrame : Int
  /-- Tag `UBGraphicsPixmapItem::Type`. -/
  Pixmap : Int
  /-- Tag `UBGraphicsSvgItem::Type`. -/
  Svg : Int
  /-- Tag `DelegateButton::Type`. -/
  DelegateButton : Int
  /-- Tag `UBGraphicsMediaItem::Type`. -/
  Media : Int
  /-- Tag `UBGraphicsVideoItem::Type`. -/
  Video : Int
  /-- Tag `UBGraphicsAudioItem::Type`. -/
  Audio : Int
  /-- Tag `UBGraphicsTextItem::Type`. -/
  Text : Int
  /-- Tag `UBGraphicsItemType::StrokeItemType`. -/
  StrokeItemType : Int
  /-- Tag `UBGraphicsGroupContainerItem::Type`. -/
  GroupContainer : Int
  /-- Tag `QGraphicsProxyWidget::Type`. -/
  ProxyWidget : Int
  /-- Tag `UBGraphicsWidgetItem::Type`. -/
  Widget : Int
  /-- Tag `UBGraphicsCurtainItem::Type`. -/
  Curtain : Int
  /-- Tag `UBGraphicsStrokesGroup::Type`. -/
  StrokesGroup : Int
  /-- Tag `UBGraphicsItemType::CompassItemType`. -/
  CompassItemType : Int
  /-- Tag `UBGraphicsItemType::RulerItemType`. -/
  RulerItemType : Int
  /-- Tag `UBGraphicsItemType::AxesItemType`. -/
  AxesItemType : Int
  /-- Tag `UBGraphicsItemType::ProtractorItemType`. -/
  ProtractorItemType : Int
  /-- Tag `UBGraphicsItemType::TriangleItemType`. -/
  TriangleItemType : Int
  /-- Tag `UBGraphicsItemType::CurtainItemType`. -/
  CurtainItemType : Int
  /-- Tag `QGraphicsSvgItem::Type`. -/
  QGraphicsSvgItem : Int
  /-- Tag `UBGraphicsW3CWidgetItem::Type`. -/
  W3CWidget : Int
  /-- Tag `UBGraphicsItemType::PolygonItemType`. -/
  PolygonItemType : Int

/-- A point (`QPoint` / `QPointF`).  Coordinates are exact integers; the view
only adds, subtracts and compares them. -/
structure QPointF where
  /-- Horizontal coordinate. -/
  x : Int
  /-- Vertical coordinate. -/
  y : Int
  deriving DecidableEq, Repr

instance : Add QPointF := ⟨fun p q => ⟨p.x + q.x, p.y + q.y⟩⟩

instance : Sub QPointF := ⟨fun p q => ⟨p.x - q.x, p.y - q.y⟩⟩

/-- Value of `QPointF::manhattanLength()`. -/
def QPointF.manhattanLength (p : QPointF) : Int :=
  (p.x.natAbs + p.y.natAbs : Nat)

/-- A rectangle (`QRect`), kept by its corners as Qt does: the width is
`x2 - x1 + 1`. -/
structure QRect where
  /-- Left edge. -/
  x1 : Int
  /-- Top edge. -/
  y1 : Int
  /-- Right edge. -/
  x2 : Int
  /-- Bottom edge. -/
  y2 : Int
  deriving DecidableEq, Repr

/-- Value of `QRect::width()`. -/
def QRect.width (r : QRect) : Int := r.x2 - r.x1 + 1

/-- Value of `QRect::topLeft()`. -/
def QRect.topLeft (r : QRect) : QPointF := ⟨r.x1, r.y1⟩

/-- Value of `QRect::bottomRight()`. -/
def QRect.bottomRight (r : QRect) : QPointF := ⟨r.x2, r.y2⟩

/-- Rectangle `QRect(p, QSize())`: a default `QSize` is `(-1, -1)`. -/
def QRect.ofPointEmptySize (p : QPointF) : QRect := ⟨p.x, p.y, p.x - 2, p.y - 2⟩

/-- Rectangle `QRect(p, q).normalized()`: the corners are swapped along an axis
when the second lies more than one unit before the first. -/
def QRect.normalizedOfPoints (p q : QPointF) : QRect :=
  { x1 := if q.x < p.x - 1 then q.x else p.x
    x2 := if q.x < p.x - 1 then p.x else q.x
    y1 := if q.y < p.y - 1 then q.y else p.y
    y2 := if q.y < p.y - 1 then p.y else q.y }

/-- Value of `QEvent::type()` for the mouse events the view handles. -/
inductive QEventType where
  | MouseButtonPress
  | MouseButtonRelease
  | MouseButtonDblClick
  | MouseMove
  deriving DecidableEq, Repr

/-- A mouse button, `Qt::MouseButton`. -/
inductive MouseButton where
  | NoButton
  | LeftButton
  | RightButton
  | MiddleButton
  deriving DecidableEq, Repr

/-- The keyboard modifiers of an event, `Qt::KeyboardModifiers`, one flag per
modifier. -/
structure KeyboardModifiers where
  /-- Flag `Qt::ShiftModifier`. -/
  shift : Bool
  /-- Flag `Qt::ControlModifier`. -/
  control : Bool
  /-- Flag `Qt::AltModifier`. -/
  alt : Bool
  deriving DecidableEq, Repr

/-- A mouse event (`QMouseEvent`): what the view reads from it and what the
copy made for the suspended press keeps. -/
structure QMouseEvent where
  /-- Value of `event->type()`. -/
  type : QEventType
  /-- Value of `event->pos()` (also `position()` / `localPos()`). -/
  pos : QPointF
  /-- Value of `event->button()`. -/
  button : MouseButton
  /-- Value of `event->buttons()`. -/
  buttons : List MouseButton
  /-- Value of `event->modifiers()`. -/
  modifiers : KeyboardModifiers
  deriving DecidableEq, Repr

/-- Value of `QEvent::type()` for the tablet events the view handles. -/
inductive QTabletEventType where
  | TabletPress
  | TabletMove
  | TabletRelease
  | TabletEnterProximity
  | TabletLeaveProximity
  deriving DecidableEq, Repr

/-- A tablet event (`QTabletEvent`): what `tabletEvent` reads from it. -/
structure QTabletEvent where
  /-- Value of `event->type()`. -/
  type : QTabletEventType
  /-- Value of `event->position()` (also `posF()`). -/
  pos : QPointF
  /-- Whether `event->pointerType()` is the eraser end of the stylus. -/
  pointerIsEraser : Bool
  /-- Value of `event->pressure()`, in thousandths. -/
  pressure : Int
  /-- Value of `event->modifiers()`. -/
  modifiers : KeyboardModifiers
  deriving DecidableEq, Repr

/-- Attributes of one graphics item that the view reads. -/
structure QGraphicsItem where
  /-- Value of `item->type()`. -/
  type : Int
  /-- Value of `item->isSelected()`. -/
  isSelected : Bool
  /-- Value of `item->data(UBGraphicsItemData::ItemLocked).toBool()`. -/
  locked : Bool
  /-- Value of `item->parentItem()`, `none` for a null parent. -/
  parentItem : Option ItemId
  /-- Value of `item->pos()`. -/
  pos : QPointF := ⟨0, 0⟩

/-- The scene: a store of items and the background object. -/
structure UBGraphicsScene where
  /-- Attributes of the item behind a handle. -/
  item : ItemId → QGraphicsItem
  /-- Value of `scene()->backgroundObject()`, `none` for null. -/
  backgroundObject : Option ItemId

/-- The fields of the view that the hit resolver and the tool policy touch. -/
structure UBBoardView where
  /-- Field `_movingItem` (`getMovingItem()` / `setMovingItem()`). -/
  movingItem : Option ItemId
  /-- Field `mMouseButtonIsPressed`. -/
  mMouseButtonIsPressed : Bool
  /-- Field `mTabletStylusIsPressed`. -/
  mTabletStylusIsPressed : Bool
  /-- Field `mPendingStylusReleaseEvent`. -/
  mPendingStylusReleaseEvent : Bool := false
  /-- Field `mIsDragInProgress`. -/
  mIsDragInProgress : Bool := false
  /-- Field `mWidgetMoved`. -/
  mWidgetMoved : Bool := false
  /-- Field `mMultipleSelectionIsEnabled`. -/
  mMultipleSelectionIsEnabled : Bool := false
  /-- Field `bIsControl`. -/
  bIsControl : Bool := true
  /-- Field `bIsDesktop`. -/
  bIsDesktop : Bool := false
  /-- Value of `isInteractive()`. -/
  interactive : Bool := true
  /-- Field `mMouseDownPos`. -/
  mMouseDownPos : QPointF := ⟨0, 0⟩
  /-- Field `mLastPressedMousePos`. -/
  mLastPressedMousePos : QPointF := ⟨0, 0⟩
  /-- Field `mPreviousPoint`. -/
  mPreviousPoint : QPointF := ⟨0, 0⟩
  /-- Field `suspendedMousePressEvent`, `none` for null. -/
  suspendedMousePressEvent : Option QMouseEvent := none
  /-- Field `mRubberBand`: the geometry of the band, `none` for null. -/
  mRubberBand : Option QRect := none
  /-- Field `mUBRubberBand`: the geometry of the band, `none` for null. -/
  mUBRubberBand : Option QRect := none
  /-- Field `mIsCreatingTextZone`. -/
  mIsCreatingTextZone : Bool := false
  /-- Field `mIsCreatingSceneGrabZone`. -/
  mIsCreatingSceneGrabZone : Bool := false
  /-- Whether `mLongPressTimer` is running. -/
  longPressTimerActive : Bool := false
  /-- Number of connections from the timer's `timeout()` to `longPressEvent()`. -/
  longPressConnections : Nat := 0
  /-- Field `mJustSelectedItems`. -/
  mJustSelectedItems : List ItemId := []
  /-- Field `mRubberedItems`. -/
  mRubberedItems : List ItemId := []
  /-- Field `mUseHighResTabletEvent`, read from the settings. -/
  mUseHighResTabletEvent : Bool := false
  /-- Field `mPenPressureSensitive`, read from the settings. -/
  mPenPressureSensitive : Bool := false
  /-- Field `mMarkerPressureSensitive`, read from the settings. -/
  mMarkerPressureSensitive : Bool := false
  /-- Field `mUsingTabletEraser`. -/
  mUsingTabletEraser : Bool := false
  deriving DecidableEq, Repr

/-- Expression `item->parentItem() && item->parentItem()->isSelected()`. -/
def parentIsSelected (S : UBGraphicsScene) (item : ItemId) : Bool :=
  match (S.item item).parentItem with
  | none => false
  | some p => (S.item p).isSelected

/-- Expression `item->parentItem() && type == item->parentItem()->type()`. -/
def parentHasType (S : UBGraphicsScene) (item : ItemId) (type : Int) : Bool :=
  match (S.item item).parentItem with
  | none => false
  | some p => decide ((S.item p).type = type)

/-! ## Helpers of the view -/

/-- Embedding of `UBBoardView::itemIsLocked`. -/
def itemIsLocked (S : UBGraphicsScene) : Option ItemId → Bool
  | none => false
  | some item => (S.item item).locked

/-- Embedding of `UBBoardView::isUBItem`: the tag lies strictly between
`QGraphicsItem::UserType` and `UBGraphicsItemType::UserTypesCount`. -/
def isUBItem (T : ItemTypes) (S : UBGraphicsScene) (item : ItemId) : Bool :=
  decide (T.UserTypesCount > (S.item item).type) && decide ((S.item item).type > T.UserType)

/-- Embedding of `UBBoardView::isCppTool`. -/
def isCppTool (T : ItemTypes) (S : UBGraphicsScene) (item : ItemId) : Bool :=
  decide ((S.item item).type = T.CompassItemType)
    || decide ((S.item item).type = T.RulerItemType)
    || decide ((S.item item).type = T.AxesItemType)
    || decide ((S.item item).type = T.ProtractorItemType)
    || decide ((S.item item).type = T.TriangleItemType)
    || decide ((S.item item).type = T.CurtainItemType)

/-! ## Hit resolver -/

/-- Embedding of `UBBoardView::determineItemToPress`.  The first argument
bounds the number of nested calls; the outer `none` means the bound was
reached, the inner `none` is the null item. -/
def determineItemToPress (T : ItemTypes) (S : UBGraphicsScene) (currentTool : UBStylusTool) :
    Nat → Option ItemId → Option (Option ItemId)
  | _, none => some none
  | 0, some _ => none
  | fuel + 1, some item =>
    if currentTool = UBStylusTool.Selector
        ∧ parentHasType S item T.GroupContainer = true
        ∧ parentIsSelected S item = false then
      some (S.item item).parentItem
    else if parentHasType S item T.StrokesGroup = true then
      determineItemToPress T S currentTool fuel (S.item item).parentItem
    else
      some (some item)

/-- Embedding of `UBBoardView::determineItemToMove`, with the same call bound
as `determineItemToPress`. -/
def determineItemToMove (T : ItemTypes) (S : UBGraphicsScene) (currentTool : UBStylusTool) :
    Nat → Option ItemId → Option (Option ItemId)
  | _, none => some none
  | 0, some _ => none
  | fuel + 1, some item =>
    if currentTool = UBStylusTool.Play ∧ (S.item item).type = T.Widget then
      some (some item)
    else if parentHasType S item T.GroupContainer = true then
      if currentTool = UBStylusTool.Play ∧ parentIsSelected S item = true then
        some (S.item item).parentItem
      else if (S.item item).type = T.StrokesGroup then
        some (S.item item).parentItem
      else if parentIsSelected S item = true then
        some (some item)
      else if (S.item item).isSelected = true then
        some none
      else
        some (S.item item).parentItem
    else if parentHasType S item T.StrokesGroup = true then
      determineItemToMove T S currentTool fuel (S.item item).parentItem
    else
      some (some item)

/-! ## Tool policy -/

/-- Embedding of `UBBoardView::itemShouldReceiveMousePressEvent`.  The result
is the returned flag together with the view afterwards: the group-container
case under Play calls `setMovingItem(NULL)`. -/
def itemShouldReceiveMousePressEvent (T : ItemTypes) (S : UBGraphicsScene)
    (currentTool : UBStylusTool) (V : UBBoardView) : Option ItemId → Bool × UBBoardView
  | none => (true, V)
  | some item =>
    if some item = S.backgroundObject then (false, V)
    else
      let type := (S.item item).type
      if type = T.Protractor ∨ type = T.Ruler ∨ type = T.Axes ∨ type = T.Triangle
          ∨ type = T.Compass ∨ type = T.Cache then
        (true, V)
      else if type = T.DelegateFrame then
        if currentTool = UBStylusTool.Play then (false, V) else (true, V)
      else if type = T.Pixmap ∨ type = T.Svg then
        if currentTool = UBStylusTool.Play then (true, V)
        else if (S.item item).isSelected = true then (true, V)
        else (false, V)
      else if type = T.DelegateButton then
        (true, V)
      else if type = T.Media ∨ type = T.Video ∨ type = T.Audio then
        (false, V)
      else if type = T.Text then
        if currentTool = UBStylusTool.Play then (true, V)
        else if currentTool = UBStylusTool.Selector ∧ (S.item item).isSelected = true then
          (true, V)
        else if currentTool = UBStylusTool.Selector ∧ parentIsSelected S item = true then
          (true, V)
        else if currentTool ≠ UBStylusTool.Selector then (false, V)
        else (!isUBItem T S item, V)
      else if type = T.StrokeItemType then
        if currentTool = UBStylusTool.Play ∨ currentTool = UBStylusTool.Selector then (true, V)
        else (!isUBItem T S item, V)
      else if type = T.GroupContainer then
        if currentTool = UBStylusTool.Play then (true, { V with movingItem := none })
        else (false, V)
      else if type = T.ProxyWidget then
        (true, V)
      else if type = T.Widget then
        if currentTool = UBStylusTool.Selector ∧ parentIsSelected S item = true then (true, V)
        else if currentTool = UBStylusTool.Selector ∧ (S.item item).isSelected = true then
          (true, V)
        else if currentTool = UBStylusTool.Play then (true, V)
        else (false, V)
      else
        (!isUBItem T S item, V)

/-- Embedding of `UBBoardView::itemShouldReceiveSuspendedMousePressEvent`. -/
def itemShouldReceiveSuspendedMousePressEvent (T : ItemTypes) (S : UBGraphicsScene)
    (currentTool : UBStylusTool) : Option ItemId → Bool
  | none => false
  | some item =>
    if some item = S.backgroundObject then false
    else
      let type := (S.item item).type
      if type = T.Pixmap ∨ type = T.Svg ∨ type = T.Text ∨ type = T.Widget then
        if currentTool = UBStylusTool.Selector ∧ (S.item item).isSelected = false
            ∧ (S.item item).parentItem.isSome = true then true
        else if currentTool = UBStylusTool.Selector ∧ (S.item item).isSelected = true then true
        else false
      else if type = T.DelegateButton ∨ type = T.Media ∨ type = T.Video ∨ type = T.Audio then
        true
      else
        false

/-- The guard of `itemShouldBeMoved` on the moving item: `false` when the view
has a moving item that is locked, or that is an unselected child of a selected
group container; `true` otherwise (also when there is no moving item). -/
def movingItemGuard (T : ItemTypes) (S : UBGraphicsScene) (V : UBBoardView) : Bool :=
  match V.movingItem with
  | none => true
  | some m =>
    if (S.item m).locked = true then false
    else if parentHasType S m T.GroupContainer = true ∧ (S.item m).isSelected = false
        ∧ parentIsSelected S m = true then false
    else true

/-- Embedding of `UBBoardView::itemShouldBeMoved`. -/
def itemShouldBeMoved (T : ItemTypes) (S : UBGraphicsScene) (currentTool : UBStylusTool)
    (V : UBBoardView) : Option ItemId → Bool
  | none => false
  | some item =>
    if some item = S.backgroundObject then false
    else if (V.mMouseButtonIsPressed || V.mTabletStylusIsPressed) = false then false
    else if movingItemGuard T S V = false then false
    else
      let type := (S.item item).type
      if type = T.Curtain ∨ type = T.GroupContainer then true
      else if type = T.Widget then
        if currentTool = UBStylusTool.Selector ∧ (S.item item).isSelected = true then false
        else if currentTool = UBStylusTool.Play then false
        else if currentTool = UBStylusTool.Play ∨ (S.item item).isSelected = false then true
        else if (S.item item).isSelected = true then false
        else true
      else if type = T.Svg ∨ type = T.Pixmap then
        if currentTool = UBStylusTool.Play ∨ (S.item item).isSelected = false then true
        else if (S.item item).isSelected = true then false
        else true
      else if type = T.Media ∨ type = T.Video ∨ type = T.Audio ∨ type = T.StrokesGroup then
        true
      else if type = T.Text then
        if currentTool = UBStylusTool.Play then true
        else !(S.item item).isSelected
      else
        false

/-! ## Gesture state: board, collaborators, effects -/

/-- A call the view makes to a collaborator (scene, controller, palette
manager, item delegate, the event object, the base class).  The calls are
recorded in order. -/
inductive Effect where
  /-- Call `event->accept()`. -/
  | eventAccept
  /-- Call `event->ignore()`. -/
  | eventIgnore
  /-- Call `QGraphicsView::mousePressEvent(event)`. -/
  | viewMousePressEvent (event : QMouseEvent)
  /-- Call `QGraphicsView::mouseMoveEvent(event)`. -/
  | viewMouseMoveEvent (event : QMouseEvent)
  /-- Call `QGraphicsView::mouseReleaseEvent(event)`. -/
  | viewMouseReleaseEvent (event : QMouseEvent)
  /-- Call `scene()->inputDevicePress(scenePos, ...)`. -/
  | inputDevicePress (scenePos : QPointF)
  /-- Call `scene()->inputDeviceMove(scenePos, pressed, ...)`. -/
  | inputDeviceMove (scenePos : QPointF) (pressed : Bool)
  /-- Call `scene()->inputDeviceRelease(...)`. -/
  | inputDeviceRelease
  /-- Call `scene()->updateSelectionFrame()`. -/
  | updateSelectionFrame
  /-- Call `Delegate()->startUndoStep()` of an item. -/
  | startUndoStep (item : ItemId)
  /-- Call `Delegate()->commitUndoStep()` of an item. -/
  | commitUndoStep (item : ItemId)
  /-- Call `clearFocus()` of an item. -/
  | clearFocus (item : ItemId)
  /-- Call `updatePosition()` of a widget item. -/
  | updatePosition (item : ItemId)
  /-- Call `mController->zoomIn(scenePos)`. -/
  | zoomIn (scenePos : QPointF)
  /-- Call `mController->zoomOut(scenePos)`. -/
  | zoomOut (scenePos : QPointF)
  /-- Call `mController->handScroll(dx, dy)`. -/
  | handScroll (dx dy : Int)
  /-- Call `viewport()->setCursor(...)`. -/
  | setCursor
  /-- Call `setToolCursor(tool)`. -/
  | setToolCursor (tool : UBStylusTool)
  /-- Call `paletteManager()->toggleErasePalette(checked)`. -/
  | toggleErasePalette (checked : Bool)
  /-- Call `mController->grabScene(QRectF(topLeft, bottomRight))`. -/
  | grabScene (topLeft bottomRight : QPointF)
  /-- Call `setTextWidth(width)` of a text item. -/
  | setTextWidth (item : ItemId) (width : Int)
  /-- Call `setTextInteractionFlags(Qt::TextEditorInteraction)` of a text item. -/
  | setTextInteractionFlags (item : ItemId)
  /-- Call `setFocus()` of an item. -/
  | setFocus (item : ItemId)
  /-- Call `scene()->invalidate(rect)`. -/
  | invalidate
  /-- Call `scene()->inputDevicePress(scenePos, pressure, ...)` of `tabletEvent`. -/
  | inputDevicePressWithPressure (scenePos : QPointF) (pressure : Int)
  /-- Call `scene()->inputDeviceMove(scenePos, pressure, ...)` of `tabletEvent`. -/
  | inputDeviceMoveWithPressure (scenePos : QPointF) (pressure : Int)
  /-- Call `scene()->setToolCursor(tool)`. -/
  | sceneSetToolCursor (tool : UBStylusTool)
  /-- Call `scene()->leaveEvent(event)`. -/
  | sceneLeaveEvent
  /-- Call `QGraphicsView::leaveEvent(event)`. -/
  | viewLeaveEvent
  deriving DecidableEq, Repr

/-- Everything the handlers of the view read and write: the fields of the
view, the scene, the active tool of the drawing controller and the record of
the calls made to collaborators. -/
structure Board where
  /-- The fields of the view. -/
  view : UBBoardView
  /-- The scene shown by the view. -/
  scene : UBGraphicsScene
  /-- Value of `UBDrawingController::drawingController()->stylusTool()`. -/
  stylusTool : UBStylusTool
  /-- The calls made to collaborators so far, oldest first. -/
  effects : List Effect := []

/-- What the view asks of code outside this translation unit: geometry and
scene queries, and the event handlers of the base class `QGraphicsView`, which
deliver the event to the items and may come back into the view. -/
structure Collaborators where
  /-- Value of `mapToScene(point)`. -/
  mapToScene : QPointF → QPointF
  /-- Value of `scene()->itemAt(scenePos, transform)`. -/
  itemAt : UBGraphicsScene → QPointF → Option ItemId
  /-- Value of `items(rect)`. -/
  itemsInRect : UBGraphicsScene → QRect → List ItemId
  /-- Value of `item->childItems()`. -/
  childItems : UBGraphicsScene → ItemId → List ItemId
  /-- Value of `item->parentObject()`. -/
  parentObject : UBGraphicsScene → ItemId → Option ItemId
  /-- Value of `item->boundingRect().size().height()`. -/
  boundingHeight : UBGraphicsScene → ItemId → Int
  /-- Value of `isAbsurdPoint(point)`. -/
  isAbsurdPoint : QPointF → Bool
  /-- Value of `QApplication::startDragDistance()`. -/
  startDragDistance : Int
  /-- Value of `UBGeometryUtils::pointConstrainedInRect(point, rect())`. -/
  pointConstrainedInRect : QPointF → QPointF
  /-- Value of `scene()->isSnapping()`. -/
  isSnapping : UBGraphicsScene → Bool
  /-- Offset returned by `scene()->snap(UBGraphicsScene::itemRect(item), &corner)`. -/
  snap : UBGraphicsScene → ItemId → QPointF
  /-- Value of `mController->cacheIsVisible()`. -/
  cacheIsVisible : Bool
  /-- Value of `UBDrawingController::drawingController()->isDrawingTool()`. -/
  isDrawingTool : UBStylusTool → Bool
  /-- Whether `UBDrawingController::drawingController()->activeRuler()` is null. -/
  activeRulerIsNull : Bool
  /-- Whether `dynamic_cast<UBGraphicsItem*>(item)` is non-null. -/
  isUBGraphicsItem : UBGraphicsScene → ItemId → Bool
  /-- Whether `dynamic_cast<UBGraphicsTextItem*>(item)` is non-null. -/
  isTextItem : UBGraphicsScene → ItemId → Bool
  /-- Scene and new item returned by `scene()->addTextHtml("", scenePos)`. -/
  addTextHtml : UBGraphicsScene → QPointF → UBGraphicsScene × ItemId
  /-- Whether the delegate of a text item is a `UBGraphicsTextItemDelegate`. -/
  hasTextItemDelegate : UBGraphicsScene → ItemId → Bool
  /-- Value of `scene()->nominalSize().width() / mController->currentZoom() / 4.`. -/
  defaultTextWidth : Int
  /-- Value of `textItemDelegate->titleBarWidth()`. -/
  titleBarWidth : Int
  /-- Value of `textItemDelegate->titleBarWidth() * mController->currentZoom()`. -/
  titleBarWidthZoomed : Int
  /-- Value of `mapToScene(rect).boundingRect().width()`. -/
  mappedWidth : QRect → Int
  /-- What `QGraphicsView::mousePressEvent(event)` does to the board. -/
  viewMousePressEvent : Board → QMouseEvent → Board
  /-- What `QGraphicsView::mouseMoveEvent(event)` does to the board. -/
  viewMouseMoveEvent : Board → QMouseEvent → Board
  /-- What `QGraphicsView::mouseReleaseEvent(event)` does to the board. -/
  viewMouseReleaseEvent : Board → QMouseEvent → Board
  /-- Value of `UBDrawingController::drawingController()->latestDrawingTool()`. -/
  latestDrawingTool : UBStylusTool := UBStylusTool.Pen

/-- Record a call to a collaborator. -/
def Board.log (B : Board) (e : Effect) : Board :=
  { B with effects := B.effects ++ [e] }

/-- Replace the fields of the view. -/
def Board.withView (B : Board) (V : UBBoardView) : Board :=
  { B with view := V }

/-- Replace the scene. -/
def Board.withScene (B : Board) (S : UBGraphicsScene) : Board :=
  { B with scene := S }

/-- Call `setMovingItem(item)`. -/
def Board.setMovingItem (B : Board) (item : Option ItemId) : Board :=
  { B with view := { B.view with movingItem := item } }

/-- Call `item->setPos(p)`. -/
def setPos (S : UBGraphicsScene) (item : ItemId) (p : QPointF) : UBGraphicsScene :=
  { S with item := fun i => if i = item then { S.item i with pos := p } else S.item i }

/-- Call `item->setSelected(selected)`: the flag of that item is set. -/
def setSelected (S : UBGraphicsScene) (item : ItemId) (selected : Bool) : UBGraphicsScene :=
  { S with item := fun i => if i = item then { S.item i with isSelected := selected }
      else S.item i }

/-- Modelled from the spec: `UBGraphicsScene::deselectAllItems`, which is not
among the sources; every item is deselected. -/
def deselectAllItems (S : UBGraphicsScene) : UBGraphicsScene :=
  { S with item := fun i => { S.item i with isSelected := false } }

/-- Modelled from the spec: `UBGraphicsScene::deselectAllItemsExcept`, which is
not among the sources; every item other than `item` is deselected. -/
def deselectAllItemsExcept (S : UBGraphicsScene) (item : ItemId) : UBGraphicsScene :=
  { S with item := fun i => if i = item then S.item i
      else { S.item i with isSelected := false } }

/-- Call `QGraphicsView::mousePressEvent(event)`: recorded, then the base class
acts. -/
def Board.callViewMousePressEvent (X : Collaborators) (B : Board) (event : QMouseEvent) :
    Board :=
  X.viewMousePressEvent (B.log (Effect.viewMousePressEvent event)) event

/-- Call `QGraphicsView::mouseMoveEvent(event)`: recorded, then the base class
acts. -/
def Board.callViewMouseMoveEvent (X : Collaborators) (B : Board) (event : QMouseEvent) :
    Board :=
  X.viewMouseMoveEvent (B.log (Effect.viewMouseMoveEvent event)) event

/-- Call `QGraphicsView::mouseReleaseEvent(event)`: recorded, then the
base class acts. -/
def Board.callViewMouseReleaseEvent (X : Collaborators) (B : Board) (event : QMouseEvent) :
    Board :=
  X.viewMouseReleaseEvent (B.log (Effect.viewMouseReleaseEvent event)) event

/-- Value of `mMouseButtonIsPressed || mTabletStylusIsPressed`. -/
def UBBoardView.pointerIsPressed (V : UBBoardView) : Bool :=
  V.mMouseButtonIsPressed || V.mTabletStylusIsPressed

/-! ## Selection and press handling -/

/-- Embedding of `UBBoardView::handleItemsSelection`. -/
def handleItemsSelection (T : ItemTypes) (B : Board) : Option ItemId → Board
  | none => B
  | some item =>
    let type := (B.scene.item item).type
    if (match B.view.movingItem with
        | none => false
        | some m => (B.scene.item item).parentItem.isSome
            && parentHasType B.scene m T.GroupContainer) = true then B
    else if type = T.DelegateButton then B
    else if type = T.QGraphicsSvgItem then B
    else if type = T.DelegateFrame then B
    else if B.view.mMultipleSelectionIsEnabled = false then
      if T.UserTypesCount > type ∧ type > T.UserType then
        ((B.withScene (deselectAllItemsExcept B.scene item)).log
          Effect.updateSelectionFrame)
      else B
    else B

/-- The block of `handleItemMousePress` that cleans up the children of a proxy
widget under the pointer: a child with a negative coordinate is put at
`(0, height of the item)`. -/
def cleanUpProxyChildren (T : ItemTypes) (X : Collaborators) (S : UBGraphicsScene) :
    Option ItemId → UBGraphicsScene
  | none => S
  | some item =>
    if (decide ((S.item item).type = T.ProxyWidget)
        && (match X.parentObject S item with
            | none => false
            | some po => decide ((S.item po).type ≠ T.ProxyWidget))) = true then
      (X.childItems S item).foldl
        (fun acc c =>
          if (acc.item c).pos.x < 0 ∨ (acc.item c).pos.y < 0 then
            setPos acc c ⟨0, X.boundingHeight S item⟩
          else acc)
        S
    else S

/-- Embedding of `UBBoardView::handleItemMousePress`; `fuel` bounds the calls
of `determineItemToPress`. -/
def handleItemMousePress (T : ItemTypes) (X : Collaborators) (fuel : Nat) (B : Board)
    (event : QMouseEvent) : Option Board :=
  let B1 := B.withView { B.view with mLastPressedMousePos := X.mapToScene event.pos }
  match determineItemToPress T B1.scene B1.stylusTool fuel B1.view.movingItem with
  | none => none
  | some target =>
    let B2 := B1.setMovingItem target
    let B3 := handleItemsSelection T B2 B2.view.movingItem
    if B3.view.mMultipleSelectionIsEnabled = true then some B3
    else
      let r := itemShouldReceiveMousePressEvent T B3.scene B3.stylusTool B3.view
        B3.view.movingItem
      let B4 := B3.withView r.2
      if r.1 = true then
        let B5 := B4.callViewMousePressEvent X event
        match determineItemToPress T B5.scene B5.stylusTool fuel
            (X.itemAt B5.scene (X.mapToScene event.pos)) with
        | none => none
        | some item => some (B5.withScene (cleanUpProxyChildren T X B5.scene item))
      else
        let B5 :=
          match B4.view.movingItem with
          | none => B4
          | some m =>
            (if X.isUBGraphicsItem B4.scene m = true then B4.log (Effect.startUndoStep m)
              else B4).log (Effect.clearFocus m)
        let B6 := B5.withView { B5.view with suspendedMousePressEvent := none }
        if itemShouldReceiveSuspendedMousePressEvent T B6.scene B6.stylusTool
            B6.view.movingItem = true then
          some (B6.withView { B6.view with suspendedMousePressEvent := some event })
        else some B6

/-! ## Drag handling -/

/-- Embedding of `UBBoardView::handleItemMouseMove`; `fuel` bounds the calls
of `determineItemToMove`. -/
def handleItemMouseMove (T : ItemTypes) (X : Collaborators) (fuel : Nat) (B : Board)
    (event : QMouseEvent) : Option Board :=
  match determineItemToMove T B.scene B.stylusTool fuel B.view.movingItem with
  | none => none
  | some mover =>
    let B1 := B.setMovingItem mover
    match B1.view.movingItem with
    | some m =>
      if (itemShouldBeMoved T B1.scene B1.stylusTool B1.view (some m)
          && B1.view.pointerIsPressed) = true then
        let scenePos := X.mapToScene event.pos
        let newPos := (B1.scene.item m).pos + scenePos - B1.view.mLastPressedMousePos
        let S1 := setPos B1.scene m newPos
        let B2 :=
          if X.isSnapping S1 = true then
            let offset := X.snap S1 m
            (B1.withScene (setPos S1 m (newPos + offset))).withView
              { B1.view with mLastPressedMousePos := scenePos + offset }
          else
            (B1.withScene S1).withView { B1.view with mLastPressedMousePos := scenePos }
        some ((B2.withView { B2.view with mWidgetMoved := true }).log Effect.eventAccept)
      else
        let posBeforeMove := (B1.scene.item m).pos
        let B2 := B1.callViewMouseMoveEvent X event
        let posAfterMove : QPointF :=
          match B2.view.movingItem with
          | some m2 => (B2.scene.item m2).pos
          | none => ⟨0, 0⟩
        let moved := decide ((posAfterMove - posBeforeMove).manhattanLength ≠ 0)
        let B3 := B2.withView { B2.view with mWidgetMoved := moved }
        match B3.view.movingItem with
        | some m3 =>
          if (moved && decide ((B3.scene.item m3).type = T.W3CWidget)) = true then
            some (B3.withScene (setPos B3.scene m3 posBeforeMove))
          else some B3
        | none => some B3
    | none =>
      let B2 := if B1.view.mMouseButtonIsPressed = false then
          B1.callViewMouseMoveEvent X event
        else B1
      some (B2.withView { B2.view with mWidgetMoved := false })

/-- Embedding of `UBBoardView::rubberItems`. -/
def rubberItems (T : ItemTypes) (X : Collaborators) (B : Board) : Board :=
  let listed :=
    match B.view.mUBRubberBand with
    | some geometry => X.itemsInRect B.scene geometry
    | none => B.view.mRubberedItems
  let kept := listed.foldl
    (fun acc item =>
      if parentHasType B.scene item T.GroupContainer = true then acc.erase item else acc)
    listed
  B.withView { B.view with mRubberedItems := kept }

/-- Embedding of `UBBoardView::moveRubberedItems`. -/
def moveRubberedItems (T : ItemTypes) (B : Board) (movingVector : QPointF) : Board :=
  let S := B.view.mRubberedItems.foldl
    (fun acc item =>
      let type := (acc.item item).type
      if type = T.W3CWidget ∨ type = T.Pixmap ∨ type = T.Media ∨ type = T.Video
          ∨ type = T.Audio ∨ type = T.Svg ∨ type = T.Text ∨ type = T.StrokesGroup
          ∨ type = T.GroupContainer then
        setPos acc item ((acc.item item).pos + movingVector)
      else acc)
    B.scene
  (B.withScene S).log Effect.invalidate

/-- Embedding of `UBBoardView::longPressEvent`. -/
def longPressEvent (B : Board) : Board :=
  let B1 := B.withView { B.view with longPressConnections := 0 }
  if B1.stylusTool = UBStylusTool.Selector then
    { B1 with stylusTool := UBStylusTool.Play }
  else if B1.stylusTool = UBStylusTool.Play then
    { B1 with stylusTool := UBStylusTool.Selector }
  else if B1.stylusTool = UBStylusTool.Eraser then
    B1.log (Effect.toggleErasePalette true)
  else B1

/-! ## Mouse event handlers -/

/-- The rubber band of the Text and Capture tools at a press: created when
null, then given the geometry `QRect(mMouseDownPos, QSize())` and shown. -/
def UBBoardView.startRubberBand (V : UBBoardView) : UBBoardView :=
  { V with mRubberBand := some (QRect.ofPointEmptySize V.mMouseDownPos) }

/-- The case `Selector` / `Play` of the left-button `switch` of
`mousePressEvent`. -/
def pressSelectorOrPlay (T : ItemTypes) (X : Collaborators) (fuel : Nat) (B : Board)
    (event : QMouseEvent) : Option Board :=
  if B.view.bIsDesktop = true then some (B.log Effect.eventIgnore)
  else
    let B5 := if B.scene.backgroundObject = B.view.movingItem then B.setMovingItem none
      else B
    let B6 := B5.withView { B5.view with
      longPressConnections := B5.view.longPressConnections + 1 }
    let B7 := if B6.view.movingItem = none ∧ X.cacheIsVisible = false then
        B6.withView { B6.view with longPressTimerActive := true }
      else B6
    match handleItemMousePress T X fuel B7 event with
    | none => none
    | some B8 => some (B8.log Effect.eventAccept)

/-- Embedding of `UBBoardView::mousePressEvent`; `fuel` bounds the calls of
`determineItemToPress`. -/
def mousePressEvent (T : ItemTypes) (X : Collaborators) (fuel : Nat) (B : Board)
    (event : QMouseEvent) : Option Board :=
  if (!B.view.bIsControl && !B.view.bIsDesktop) = true then some (B.log Effect.eventIgnore)
  else
    let B1 := B.withView { B.view with mIsDragInProgress := false }
    if X.isAbsurdPoint event.pos = true then some (B1.log Effect.eventAccept)
    else
      let B2 := B1.withView { B1.view with
        mMultipleSelectionIsEnabled := event.modifiers.control
        mMouseDownPos := event.pos }
      let B3 := B2.setMovingItem (X.itemAt B2.scene (X.mapToScene event.pos))
      if event.button = MouseButton.LeftButton ∧ B3.view.interactive = true then
        let currentTool := B3.stylusTool
        let B4 := if B3.view.mTabletStylusIsPressed = false then
            B3.withView { B3.view with mMouseButtonIsPressed := true }
          else B3
        match currentTool with
        | UBStylusTool.ZoomIn =>
          some ((B4.log (Effect.zoomIn (X.mapToScene event.pos))).log Effect.eventAccept)
        | UBStylusTool.ZoomOut =>
          some ((B4.log (Effect.zoomOut (X.mapToScene event.pos))).log Effect.eventAccept)
        | UBStylusTool.Hand =>
          some (((B4.log Effect.setCursor).withView
            { B4.view with mPreviousPoint := event.pos }).log Effect.eventAccept)
        | UBStylusTool.Selector | UBStylusTool.Play =>
          pressSelectorOrPlay T X fuel B4 event
        | UBStylusTool.Text =>
          if (match B4.view.movingItem with
              | none => false
              | some m => X.isTextItem B4.scene m) = true then
            let B5 := B4.withView { B4.view with mIsCreatingTextZone := false }
            let B6 := { B5 with stylusTool := UBStylusTool.Selector }
            some (B6.callViewMousePressEvent X event)
          else
            let B5 := B4.withScene (deselectAllItems B4.scene)
            let B6 := B5.withView { B5.view.startRubberBand with mIsCreatingTextZone := true }
            some (B6.log Effect.eventAccept)
        | UBStylusTool.Capture =>
          let B5 := B4.withScene (deselectAllItems B4.scene)
          let B6 := B5.withView { B5.view.startRubberBand with
            mIsCreatingSceneGrabZone := true }
          some (B6.log Effect.eventAccept)
        | _ =>
          let B5 := if X.activeRulerIsNull = true then B4.log Effect.setCursor else B4
          let B6 := if B5.view.mTabletStylusIsPressed = false then
              let B5a := if currentTool = UBStylusTool.Eraser then
                  B5.withView { B5.view with
                    longPressConnections := B5.view.longPressConnections + 1
                    longPressTimerActive := true }
                else B5
              B5a.log (Effect.inputDevicePress
                (X.mapToScene (X.pointConstrainedInRect event.pos)))
            else B5
          some (B6.log Effect.eventAccept)
      else if event.button = MouseButton.RightButton ∧ B3.view.interactive = true then
        match B3.stylusTool with
        | UBStylusTool.Selector | UBStylusTool.Play =>
          if B3.view.bIsDesktop = true then some (B3.log Effect.eventIgnore)
          else if (match B3.view.movingItem with
              | none => false
              | some m => X.isTextItem B3.scene m) = true then some B3
          else
            match handleItemMousePress T X fuel B3 event with
            | none => none
            | some B4 => some (B4.log Effect.eventAccept)
        | _ => some B3
      else some B3

/-- The rubber-band selection update of `mouseMoveEvent` (the `rubberMove`
block): the band gets the rectangle between the press point and the pointer,
items selected by the band that left it are deselected, and under the Selector
tool the eligible items inside are selected. -/
def rubberBandSelect (T : ItemTypes) (X : Collaborators) (currentTool : UBStylusTool)
    (B : Board) (event : QMouseEvent) : Board :=
  let bandRect := QRect.normalizedOfPoints B.view.mMouseDownPos event.pos
  let B1 := B.withView { B.view with mUBRubberBand := some bandRect }
  let rubberItems := X.itemsInRect B1.scene bandRect
  let B2 := B1.view.mJustSelectedItems.foldl
    (fun (acc : Board) item =>
      if rubberItems.contains item = false then
        (acc.withScene (setSelected acc.scene item false)).withView
          { acc.view with mJustSelectedItems := acc.view.mJustSelectedItems.erase item }
      else acc)
    B1
  if currentTool = UBStylusTool.Selector then
    (X.itemsInRect B2.scene bandRect).foldl
      (fun (acc : Board) item0 =>
        let item :=
          match (acc.scene.item item0).parentItem with
          | some p => if (acc.scene.item item0).type = T.PolygonItemType then p else item0
          | none => item0
        let type := (acc.scene.item item).type
        if type = T.W3CWidget ∨ type = T.Pixmap ∨ type = T.Video ∨ type = T.Audio
            ∨ type = T.Svg ∨ type = T.Text ∨ type = T.StrokesGroup
            ∨ type = T.GroupContainer then
          if acc.view.mJustSelectedItems.contains item = false then
            (acc.withScene (setSelected acc.scene item true)).withView
              { acc.view with mJustSelectedItems := item :: acc.view.mJustSelectedItems }
          else acc
        else acc)
      B2
  else B2

/-- Embedding of `UBBoardView::mouseMoveEvent`; `fuel` bounds the calls of
`determineItemToMove`. -/
def mouseMoveEvent (T : ItemTypes) (X : Collaborators) (fuel : Nat) (B : Board)
    (event : QMouseEvent) : Option Board :=
  if B.view.mIsDragInProgress = false
      ∧ (X.mapToScene event.pos - B.view.mLastPressedMousePos).manhattanLength
          < X.startDragDistance then some B
  else
    let B1 := B.withView { B.view with
      mIsDragInProgress := true
      mWidgetMoved := true
      longPressTimerActive := false }
    if X.isAbsurdPoint event.pos = true then some (B1.log Effect.eventAccept)
    else
      let B2 := if X.isDrawingTool B1.stylusTool = true
          ∧ B1.view.mMouseButtonIsPressed = false then
          B1.callViewMouseMoveEvent X event
        else B1
      let currentTool := B2.stylusTool
      match currentTool with
      | UBStylusTool.Hand =>
        if B2.view.mMouseButtonIsPressed = false ∧ B2.view.mTabletStylusIsPressed = false then
          some B2
        else
          some (((B2.log (Effect.handScroll (event.pos.x - B2.view.mPreviousPoint.x)
            (event.pos.y - B2.view.mPreviousPoint.y))).withView
            { B2.view with mPreviousPoint := event.pos }).log Effect.eventAccept)
      | UBStylusTool.Selector | UBStylusTool.Play =>
        if B2.view.bIsDesktop = true then some (B2.log Effect.eventIgnore)
        else
          let rubberMove := decide (currentTool ≠ UBStylusTool.Play)
            && B2.view.pointerIsPressed && B2.view.movingItem.isNone
          let B3 := if rubberMove = true then rubberBandSelect T X currentTool B2 event else B2
          handleItemMouseMove T X fuel B3 event
      | UBStylusTool.Text | UBStylusTool.Capture =>
        if B2.view.mRubberBand.isSome = true
            ∧ (B2.view.mIsCreatingTextZone || B2.view.mIsCreatingSceneGrabZone) = true then
          some ((B2.withView { B2.view with
            mRubberBand := some (QRect.normalizedOfPoints B2.view.mMouseDownPos event.pos) }).log
            Effect.eventAccept)
        else some (B2.callViewMouseMoveEvent X event)
      | _ =>
        let B3 := if B2.view.mTabletStylusIsPressed = false then
            B2.log (Effect.inputDeviceMove
              (X.mapToScene (X.pointConstrainedInRect event.pos)) B2.view.mMouseButtonIsPressed)
          else B2
        some (B3.log Effect.eventAccept)

/-- Embedding of `UBBoardView::movingItemDestroyed`. -/
def movingItemDestroyed (B : Board) : Board :=
  B.setMovingItem none

/-- The selection toggle of the release handlers, reached when there is no
suspended press and the moving item `m` passes the type tests: the result is
the board and the value of `bReleaseIsNeed`. -/
def releaseToggleSelection (B : Board) (m : ItemId) : Board × Bool :=
  if (B.scene.item m).isSelected = true ∧ B.view.mMultipleSelectionIsEnabled = true then
    (B.withScene (setSelected B.scene m false), false)
  else
    match (if parentIsSelected B.scene m = true ∧ B.view.mMultipleSelectionIsEnabled = true
        then (B.scene.item m).parentItem else none) with
    | some p => (B.withScene (setSelected B.scene p false), false)
    | none => (B.withScene (setSelected B.scene m true), (B.scene.item m).isSelected)

/-- The test `!(!isMultipleSelectionEnabled() && parentItem() && Widget == type
&& GroupContainer == parentItem()->type())` of the release handlers. -/
def notWidgetInGroupSingleSelection (T : ItemTypes) (B : Board) (m : ItemId) : Bool :=
  !(!B.view.mMultipleSelectionIsEnabled && decide ((B.scene.item m).type = T.Widget)
    && parentHasType B.scene m T.GroupContainer)

/-- The replay of the suspended press in the release handlers: the buffered
event goes to `QGraphicsView::mousePressEvent`, then the moving item and the
buffer are cleared. -/
def replaySuspendedPress (X : Collaborators) (B : Board) (suspended : QMouseEvent) : Board :=
  let B1 := B.callViewMousePressEvent X suspended
  B1.withView { B1.view with movingItem := none, suspendedMousePressEvent := none }

/-- The text zone created at a release of the Text tool after a drag. -/
def createTextZone (X : Collaborators) (B : Board) (rubberRect : QRect) : Board :=
  let created := X.addTextHtml B.scene (X.mapToScene rubberRect.topLeft)
  let textItem := created.2
  let B1 := (B.withScene created.1).log Effect.eventAccept
  let B2 := { B1 with stylusTool := UBStylusTool.Selector }
  let B3 := B2.log (Effect.setTextInteractionFlags textItem)
  let B4 := B3.withScene (setSelected B3.scene textItem true)
  let width :=
    if X.hasTextItemDelegate B4.scene textItem = true then
      if rubberRect.width = 0 then X.defaultTextWidth
      else if rubberRect.width ≤ X.titleBarWidthZoomed then X.titleBarWidth
      else X.mappedWidth rubberRect
    else X.defaultTextWidth
  (B4.log (Effect.setTextWidth textItem width)).log (Effect.setFocus textItem)

/-- The end of `mouseReleaseEvent`, common to the branches that reach it: both
rubber bands are deleted, the pressed flags and the moving item are cleared,
the long-press timer is stopped and the selection frame is updated. -/
def releaseTeardown (B : Board) : Board :=
  (B.withView { B.view with
    mUBRubberBand := none
    mRubberBand := none
    mMouseButtonIsPressed := false
    mPendingStylusReleaseEvent := false
    mTabletStylusIsPressed := false
    movingItem := none
    longPressTimerActive := false }).log Effect.updateSelectionFrame

/-- The statements `graphicsItem = dynamic_cast<UBGraphicsItem*>(getMovingItem());
if (graphicsItem) graphicsItem->Delegate()->commitUndoStep();` of the release
handlers. -/
def commitUndoStepOfMovingItem (X : Collaborators) (B : Board) : Board :=
  match B.view.movingItem with
  | some m => if X.isUBGraphicsItem B.scene m = true then B.log (Effect.commitUndoStep m)
      else B
  | none => B

/-- The Selector branch of `mouseReleaseEvent` up to the teardown; `none` in
the result's second component means the handler returned early. -/
def releaseSelector (T : ItemTypes) (X : Collaborators) (fuel : Nat) (B : Board)
    (event : QMouseEvent) : Option (Board × Bool) :=
  if B.view.bIsDesktop = true then some (B.log Effect.eventIgnore, false)
  else
    let B1 := commitUndoStepOfMovingItem X B
    match determineItemToPress T B1.scene B1.stylusTool fuel
        (X.itemAt B1.scene (X.mapToScene event.pos)) with
    | none => none
    | some underPointer =>
      let changed := decide (B1.view.movingItem ≠ underPointer)
      let B2 := if changed = true then B1.setMovingItem none else B1
      let bReleaseIsNeed0 := !changed
      let r : Board × Bool :=
        if B2.view.mWidgetMoved = true then
          let B3 :=
            match B2.view.movingItem with
            | some item => if (B2.scene.item item).type = T.Widget then
                B2.log (Effect.updatePosition item) else B2
            | none => B2
          (B3.withView { B3.view with mWidgetMoved := false, movingItem := none },
            bReleaseIsNeed0)
        else
          match B2.view.movingItem with
          | some m =>
            if (!isCppTool T B2.scene m || decide ((B2.scene.item m).type = T.Curtain))
                = true then
              match B2.view.suspendedMousePressEvent with
              | some suspended => (replaySuspendedPress X B2 suspended, true)
              | none =>
                if (isUBItem T B2.scene m
                    && decide ((B2.scene.item m).type ≠ T.DelegateButton)
                    && decide ((B2.scene.item m).type ≠ T.DelegateFrame)
                    && decide ((B2.scene.item m).type ≠ T.Cache)
                    && notWidgetInGroupSingleSelection T B2 m) = true then
                  releaseToggleSelection B2 m
                else (B2, bReleaseIsNeed0)
            else (B2, true)
          | none => (B2, true)
      some (if r.2 = true then r.1.callViewMouseReleaseEvent X event else r.1, true)

/-- The Text branch of `mouseReleaseEvent` up to the teardown. -/
def releaseText (T : ItemTypes) (X : Collaborators) (fuel : Nat) (B : Board)
    (event : QMouseEvent) : Option Board :=
  match determineItemToPress T B.scene B.stylusTool fuel
      (X.itemAt B.scene (X.mapToScene event.pos)) with
  | none => none
  | some underPointer =>
    let changed := decide (B.view.movingItem ≠ underPointer)
    let B1 := if changed = true then B.setMovingItem none else B
    let bReleaseIsNeed0 := !changed
    let B2 := commitUndoStepOfMovingItem X B1
    let r : Board × Bool :=
      if B2.view.mWidgetMoved = true then
        let B3 := B2.withView { B2.view with mWidgetMoved := false, movingItem := none }
        match (if B3.view.mIsCreatingTextZone = true then B3.view.mRubberBand else none) with
        | some geometry => (createTextZone X B3 geometry, bReleaseIsNeed0)
        | none => (B3, bReleaseIsNeed0)
      else
        match B2.view.movingItem with
        | some m =>
          if (!isCppTool T B2.scene m || decide ((B2.scene.item m).type = T.Curtain))
              = true then
            match B2.view.suspendedMousePressEvent with
            | some suspended => (replaySuspendedPress X B2 suspended, true)
            | none =>
              if (isUBItem T B2.scene m
                  && decide ((B2.scene.item m).type ≠ T.DelegateButton)
                  && decide ((B2.scene.item m).type ≠ T.QGraphicsSvgItem)
                  && decide ((B2.scene.item m).type ≠ T.DelegateFrame)
                  && decide ((B2.scene.item m).type ≠ T.Cache)
                  && notWidgetInGroupSingleSelection T B2 m) = true then
                releaseToggleSelection B2 m
              else (B2, bReleaseIsNeed0)
          else (B2, true)
        | none => (B2, true)
    some (if r.2 = true then r.1.callViewMouseReleaseEvent X event else r.1)

/-- The Play branch of `mouseReleaseEvent` up to the teardown; the second
component tells whether the teardown is reached. -/
def releasePlay (X : Collaborators) (B : Board) (event : QMouseEvent) : Board × Bool :=
  if B.view.bIsDesktop = true then (B.log Effect.eventIgnore, false)
  else
    let B1 :=
      if B.view.mWidgetMoved = true then
        let B0 :=
          match B.view.movingItem with
          | some m => (B.withScene (setSelected B.scene m false)).setMovingItem none
          | none => B
        B0.withView { B0.view with mWidgetMoved := false }
      else
        match B.view.suspendedMousePressEvent with
        | some suspended => replaySuspendedPress X B suspended
        | none => B
    (B1.callViewMouseReleaseEvent X event, true)

/-- The Capture branch of `mouseReleaseEvent` up to the teardown. -/
def releaseCapture (X : Collaborators) (B : Board) (event : QMouseEvent) : Board :=
  let B1 :=
    match (if B.view.mIsCreatingSceneGrabZone = true then B.view.mRubberBand else none) with
    | some rect =>
      if rect.width > 16 then
        (B.log (Effect.grabScene (X.mapToScene rect.topLeft)
          (X.mapToScene rect.bottomRight))).log Effect.eventAccept
      else B.callViewMouseReleaseEvent X event
    | none => B.callViewMouseReleaseEvent X event
  B1.withView { B1.view with mIsCreatingSceneGrabZone := false }

/-- Embedding of `UBBoardView::mouseReleaseEvent`; `fuel` bounds the calls of
`determineItemToPress`. -/
def mouseReleaseEvent (T : ItemTypes) (X : Collaborators) (fuel : Nat) (B : Board)
    (event : QMouseEvent) : Option Board :=
  let currentTool := B.stylusTool
  let B0 := (B.log (Effect.setToolCursor currentTool)).log Effect.inputDeviceRelease
  match currentTool with
  | UBStylusTool.Selector =>
    match releaseSelector T X fuel B0 event with
    | none => none
    | some (B1, reachesEnd) => some (if reachesEnd = true then releaseTeardown B1 else B1)
  | UBStylusTool.Text =>
    match releaseText T X fuel B0 event with
    | none => none
    | some B1 => some (releaseTeardown B1)
  | UBStylusTool.Play =>
    let r := releasePlay X B0 event
    some (if r.2 = true then releaseTeardown r.1 else r.1)
  | UBStylusTool.Capture => some (releaseTeardown (releaseCapture X B0 event))
  | _ =>
    let B1 := if (B0.view.mPendingStylusReleaseEvent || B0.view.mMouseButtonIsPressed) = true
        then B0.log Effect.eventAccept else B0
    some (releaseTeardown B1)

/-! ## Tablet and leave events -/

/-- Embedding of `UBBoardView::tabletEvent` (the build without `Q_OS_OSX`).
`event->setAccepted(false)` is recorded as `event->ignore()`; the scene position
`viewportTransform().inverted().map(tabletPos)` is the value of `mapToScene`.
The tool tested for pressure sensitivity is the one read at the start, before
the eraser end of the stylus may change it. -/
def tabletEvent (X : Collaborators) (B : Board) (event : QTabletEvent) : Board :=
  if B.view.mUseHighResTabletEvent = false then B.log Effect.eventIgnore
  else
    let currentTool := B.stylusTool
    let B1 :=
      if event.type = QTabletEventType.TabletPress
          ∨ event.type = QTabletEventType.TabletEnterProximity then
        if event.pointerIsEraser = true then
          ({ B with stylusTool := UBStylusTool.Eraser }).withView
            { B.view with mUsingTabletEraser := true }
        else
          let B0 := if B.view.mUsingTabletEraser = true ∧ currentTool = UBStylusTool.Eraser then
              { B with stylusTool := X.latestDrawingTool }
            else B
          B0.withView { B0.view with mUsingTabletEraser := false }
      else B
    let scenePos := X.mapToScene event.pos
    if ((currentTool = UBStylusTool.Pen ∨ currentTool = UBStylusTool.Line)
          ∧ B1.view.mPenPressureSensitive = true)
        ∨ (currentTool = UBStylusTool.Marker ∧ B1.view.mMarkerPressureSensitive = true) then
      let pressure := event.pressure
      match event.type with
      | QTabletEventType.TabletPress =>
        ((B1.withView { B1.view with mTabletStylusIsPressed := true }).log
          (Effect.inputDevicePressWithPressure scenePos pressure)).log Effect.eventAccept
      | QTabletEventType.TabletMove =>
        (if B1.view.mTabletStylusIsPressed = true then
            B1.log (Effect.inputDeviceMoveWithPressure scenePos pressure)
          else B1).log Effect.eventIgnore
      | QTabletEventType.TabletRelease =>
        let releaseTool := B1.stylusTool
        let B2 := ((B1.log (Effect.sceneSetToolCursor releaseTool)).log
          (Effect.setToolCursor releaseTool)).log Effect.inputDeviceRelease
        (B2.withView { B2.view with
          mPendingStylusReleaseEvent := false
          mTabletStylusIsPressed := false
          mMouseButtonIsPressed := false }).log Effect.eventAccept
      | _ => B1.log Effect.eventAccept
    else B1.log Effect.eventIgnore

/-- Embedding of `UBBoardView::leaveEvent`. -/
def leaveEvent (B : Board) : Board :=
  let B1 := B.log Effect.sceneLeaveEvent
  (B1.withView { B1.view with mJustSelectedItems := [] }).log Effect.viewLeaveEvent

/-! ## Case labels, parent chains, sample data -/

/-- Case labels of the `switch` in `itemShouldReceiveMousePressEvent`, in
source order.  C++ rejects a `switch` with two equal labels. -/
def ItemTypes.pressCaseLabels (T : ItemTypes) : List Int :=
  [T.Protractor, T.Ruler, T.Axes, T.Triangle, T.Compass, T.Cache, T.DelegateFrame,
   T.Pixmap, T.Svg, T.DelegateButton, T.Media, T.Video, T.Audio, T.Text,
   T.StrokeItemType, T.GroupContainer, T.ProxyWidget, T.Widget]

/-- Case labels of the `switch` in `itemShouldReceiveSuspendedMousePressEvent`. -/
def ItemTypes.suspendedCaseLabels (T : ItemTypes) : List Int :=
  [T.Pixmap, T.Svg, T.Text, T.Widget, T.DelegateButton, T.Media, T.Video, T.Audio]

/-- Case labels of the `switch` in `itemShouldBeMoved`. -/
def ItemTypes.moveCaseLabels (T : ItemTypes) : List Int :=
  [T.Curtain, T.GroupContainer, T.Widget, T.Svg, T.Pixmap, T.Media, T.Video, T.Audio,
   T.StrokesGroup, T.Text]

/-- A tag is in the whiteboard-domain range tested by `isUBItem`. -/
def ItemTypes.inUBRange (T : ItemTypes) (type : Int) : Bool :=
  decide (T.UserTypesCount > type) && decide (type > T.UserType)

/-- The parent chain of `item` reaches an item without parent after at most
`n` links. -/
def parentChainWithin (S : UBGraphicsScene) : Nat → ItemId → Bool
  | 0, item => (S.item item).parentItem.isNone
  | n + 1, item =>
    match (S.item item).parentItem with
    | none => true
    | some p => parentChainWithin S n p

/-- Item `p` is the parent of item `c`. -/
def IsParentOf (S : UBGraphicsScene) (p c : ItemId) : Prop :=
  (S.item c).parentItem = some p

/-- Item `a` is a proper ancestor of item `i`: it is reached from `i` by one
or more parent links. -/
def IsAncestor (S : UBGraphicsScene) (a i : ItemId) : Prop :=
  Relation.TransGen (IsParentOf S) a i

/-- Modelled from the spec: a concrete assignment of the type tags, whose
declaring headers are not among the sources.  The application's own kinds get
consecutive tags strictly between `QGraphicsItem::UserType` (65536) and
`UserTypesCount` (the whiteboard-domain range of the glossary); the proxy
widget of the graphics framework keeps its framework tag 12, below the range. -/
def sampleTypes : ItemTypes where
  UserType := 65536
  Pixmap := 65538
  Svg := 65539
  DelegateButton := 65540
  Media := 65541
  Video := 65542
  Audio := 65543
  Text := 65545
  Curtain := 65546
  CurtainItemType := 65546
  Ruler := 65547
  RulerItemType := 65547
  Compass := 65548
  CompassItemType := 65548
  Protractor := 65549
  ProtractorItemType := 65549
  StrokeItemType := 65550
  StrokesGroup := 65550
  Triangle := 65551
  TriangleItemType := 65551
  Cache := 65553
  GroupContainer := 65554
  Widget := 65556
  Axes := 65557
  AxesItemType := 65557
  DelegateFrame := 65558
  UserTypesCount := 65560
  ProxyWidget := 12
  QGraphicsSvgItem := 13
  W3CWidget := 65559
  PolygonItemType := 65537

/-- An item without parent, not selected, not locked. -/
def plainItem (type : Int) : QGraphicsItem :=
  { type := type, isSelected := false, locked := false, parentItem := none }

/-- Sample scene: item 0 is a pixmap used as background; item 1 is a text item
inside the group container 2, neither selected; item 3 is a polygon inside the
strokes group 4, which sits in the group container 2. -/
def sceneUnselectedGroup : UBGraphicsScene where
  item := fun i =>
    if i = 1 then { plainItem sampleTypes.Text with parentItem := some 2 }
    else if i = 2 then plainItem sampleTypes.GroupContainer
    else if i = 3 then { plainItem 65537 with parentItem := some 4 }
    else if i = 4 then { plainItem sampleTypes.StrokesGroup with parentItem := some 2 }
    else plainItem sampleTypes.Pixmap
  backgroundObject := some 0

/-- Sample scene: as `sceneUnselectedGroup`, but the group container 2 is
selected; item 5 is a widget inside the group as well. -/
def sceneSelectedGroup : UBGraphicsScene where
  item := fun i =>
    if i = 1 then { plainItem sampleTypes.Text with parentItem := some 2 }
    else if i = 2 then { plainItem sampleTypes.GroupContainer with isSelected := true }
    else if i = 3 then { plainItem 65537 with parentItem := some 4 }
    else if i = 4 then { plainItem sampleTypes.StrokesGroup with parentItem := some 2 }
    else if i = 5 then { plainItem sampleTypes.Widget with parentItem := some 2 }
    else plainItem sampleTypes.Pixmap
  backgroundObject := some 0

/-- Sample scene of top-level items: 1 an unselected widget, 2 a selected
pixmap, 3 a curtain, 4 a ruler, 5 a media item, 6 a delegate button, 7 a
selected text item, 8 an unselected pixmap with the unselected pixmap 9 as
parent; item 0 is the background. -/
def sceneFlat : UBGraphicsScene where
  item := fun i =>
    if i = 1 then plainItem sampleTypes.Widget
    else if i = 2 then { plainItem sampleTypes.Pixmap with isSelected := true }
    else if i = 3 then plainItem sampleTypes.Curtain
    else if i = 4 then plainItem sampleTypes.Ruler
    else if i = 5 then plainItem sampleTypes.Media
    else if i = 6 then plainItem sampleTypes.DelegateButton
    else if i = 7 then { plainItem sampleTypes.Text with isSelected := true }
    else if i = 8 then { plainItem sampleTypes.Pixmap with parentItem := some 9 }
    else plainItem sampleTypes.Pixmap
  backgroundObject := some 0

/-- Sample scene: `sceneFlat` with the ruler 4 installed as background object. -/
def sceneRulerBackground : UBGraphicsScene :=
  { sceneFlat with backgroundObject := some 4 }

/-- A view with the mouse button pressed and the given moving item. -/
def pressedView (movingItem : Option ItemId) : UBBoardView :=
  { movingItem := movingItem, mMouseButtonIsPressed := true, mTabletStylusIsPressed := false }

/-- Sample collaborators over the listed handles: the view is not scrolled or
zoomed (`mapToScene` is the identity), every listed item covers the square of
side 100 at its position, the hit test returns the first listed item under the
point and the background object elsewhere, the drag distance is 10, snapping is
off, and the handlers of the base class leave the board as it is. -/
def sampleCollaborators (handles : List ItemId) : Collaborators where
  mapToScene := fun p => p
  itemAt := fun S p =>
    match handles.find? (fun i =>
        decide ((S.item i).pos.x ≤ p.x) && decide (p.x < (S.item i).pos.x + 100)
          && decide ((S.item i).pos.y ≤ p.y) && decide (p.y < (S.item i).pos.y + 100)) with
    | some i => some i
    | none => S.backgroundObject
  itemsInRect := fun S r =>
    handles.filter (fun i =>
      decide (r.x1 ≤ (S.item i).pos.x) && decide ((S.item i).pos.x + 99 ≤ r.x2)
        && decide (r.y1 ≤ (S.item i).pos.y) && decide ((S.item i).pos.y + 99 ≤ r.y2))
  childItems := fun _ _ => []
  parentObject := fun S i => (S.item i).parentItem
  boundingHeight := fun _ _ => 100
  isAbsurdPoint := fun _ => false
  startDragDistance := 10
  pointConstrainedInRect := fun p => p
  isSnapping := fun _ => false
  snap := fun _ _ => ⟨0, 0⟩
  cacheIsVisible := false
  isDrawingTool := fun tool =>
    decide (tool = UBStylusTool.Pen ∨ tool = UBStylusTool.Marker ∨ tool = UBStylusTool.Line)
  activeRulerIsNull := true
  isUBGraphicsItem := fun _ _ => true
  isTextItem := fun S i => decide ((S.item i).type = sampleTypes.Text)
  addTextHtml := fun S p =>
    ({ S with item := fun i => if i = 100 then { plainItem sampleTypes.Text with pos := p }
        else S.item i }, 100)
  hasTextItemDelegate := fun _ _ => true
  defaultTextWidth := 320
  titleBarWidth := 200
  titleBarWidthZoomed := 200
  mappedWidth := fun r => r.width
  viewMousePressEvent := fun B _ => B
  viewMouseMoveEvent := fun B _ => B
  viewMouseReleaseEvent := fun B _ => B

/-- Sample collaborators with snapping on: the snap offset brings the item's
position down to the grid of step 10. -/
def snappingCollaborators (handles : List ItemId) : Collaborators :=
  { sampleCollaborators handles with
    isSnapping := fun _ => true
    snap := fun S i => ⟨-((S.item i).pos.x % 10), -((S.item i).pos.y % 10)⟩ }

/-- An idle view of the control kind: nothing pressed, no moving item. -/
def idleView : UBBoardView :=
  { movingItem := none, mMouseButtonIsPressed := false, mTabletStylusIsPressed := false }

/-- A left-button press at a point, without modifiers. -/
def leftPressAt (p : QPointF) : QMouseEvent :=
  { type := QEventType.MouseButtonPress, pos := p, button := MouseButton.LeftButton,
    buttons := [MouseButton.LeftButton], modifiers := ⟨false, false, false⟩ }

/-- A left-button press at a point with the Control key held. -/
def ctrlPressAt (p : QPointF) : QMouseEvent :=
  { leftPressAt p with modifiers := ⟨false, true, false⟩ }

/-- A right-button press at a point, without modifiers. -/
def rightPressAt (p : QPointF) : QMouseEvent :=
  { type := QEventType.MouseButtonPress, pos := p, button := MouseButton.RightButton,
    buttons := [MouseButton.RightButton], modifiers := ⟨false, false, false⟩ }

/-- A move to a point with the left button held. -/
def moveTo (p : QPointF) : QMouseEvent :=
  { type := QEventType.MouseMove, pos := p, button := MouseButton.NoButton,
    buttons := [MouseButton.LeftButton], modifiers := ⟨false, false, false⟩ }

/-- A left-button release at a point. -/
def releaseAt (p : QPointF) : QMouseEvent :=
  { type := QEventType.MouseButtonRelease, pos := p, button := MouseButton.LeftButton,
    buttons := [], modifiers := ⟨false, false, false⟩ }

/-- Sample scene with positions: item 1 is a media item at the origin, item 2
a locked pixmap at (200, 0), item 3 an unselected pixmap at (400, 0); item 0 is
the background. -/
def sceneDesk : UBGraphicsScene where
  item := fun i =>
    if i = 1 then plainItem sampleTypes.Media
    else if i = 2 then { plainItem sampleTypes.Pixmap with locked := true, pos := ⟨200, 0⟩ }
    else if i = 3 then { plainItem sampleTypes.Pixmap with pos := ⟨400, 0⟩ }
    else plainItem sampleTypes.Pixmap
  backgroundObject := some 0

/-- The collaborators of `sceneDesk`: the handles 1, 2, 3 are on the page. -/
def deskCollaborators : Collaborators := sampleCollaborators [1, 2, 3]

/-- The idle board over `sceneDesk` with the given tool. -/
def deskBoard (tool : UBStylusTool) : Board :=
  { view := idleView, scene := sceneDesk, stylusTool := tool }

/-- Sample scene of the image scenario: the unselected, unlocked pixmap 1 at
the scene origin; item 0 is the background. -/
def sceneImage : UBGraphicsScene where
  item := fun _ => plainItem sampleTypes.Pixmap
  backgroundObject := some 0

/-- The idle board over `sceneImage` under the Selector tool. -/
def imageBoard : Board :=
  { view := idleView, scene := sceneImage, stylusTool := UBStylusTool.Selector }

/-- The idle board over `sceneSelectedGroup` (the text item 1 inside the
selected group 2) under the Selector tool. -/
def groupBoard : Board :=
  { view := idleView, scene := sceneSelectedGroup, stylusTool := UBStylusTool.Selector }

/-- Run a list of handlers in order; `none` as soon as one does not return. -/
def runHandlers (B : Board) : List (Board → Option Board) → Option Board
  | [] => some B
  | h :: rest =>
    match h B with
    | none => none
    | some B1 => runHandlers B1 rest

/-- A sequence of drag steps: `handleItemMouseMove` for each move event. -/
def dragSteps (T : ItemTypes) (X : Collaborators) (fuel : Nat) (B : Board) :
    List QMouseEvent → Option Board
  | [] => some B
  | e :: rest =>
    match handleItemMouseMove T X fuel B e with
    | none => none
    | some B1 => dragSteps T X fuel B1 rest

/-- The snap offset of one drag step of the moving item `m`: the answer of the
snap assistant for the translated item when snapping is on, zero otherwise. -/
def dragSnapOffset (X : Collaborators) (B : Board) (m : ItemId) (event : QMouseEvent) :
    QPointF :=
  let translated := setPos B.scene m
    ((B.scene.item m).pos + X.mapToScene event.pos - B.view.mLastPressedMousePos)
  if X.isSnapping translated = true then X.snap translated m else ⟨0, 0⟩

/-- Outcome of one rule of the decision list for the mover. -/
inductive MoveRule where
  /-- The item itself is the mover. -/
  | itemItself
  /-- The parent is the mover. -/
  | parent
  /-- There is no mover. -/
  | noMover
  /-- The mover is the one resolved for the parent. -/
  | resolveParent
  deriving DecidableEq, Repr

/-- First rule of a decision list whose guard holds, `dflt` when none does. -/
def firstRule : List (Bool × MoveRule) → MoveRule → MoveRule
  | [], dflt => dflt
  | (guard, rule) :: rest, dflt => if guard then rule else firstRule rest dflt

/-- The decision list of the specification for `resolveForMove` on a non-null
item, written from the specification's words, in its order of precedence:
under Play a widget is moved as itself; with a group-container parent: the
parent (Play and parent selected), the parent (item is a stroke-group), the
item itself (parent selected), no mover (item selected), else the parent; with
a stroke-group parent: what the parent resolves to; otherwise the item. -/
def resolveForMoveRules (T : ItemTypes) (S : UBGraphicsScene) (tool : UBStylusTool)
    (item : ItemId) : List (Bool × MoveRule) :=
  let inGroup := parentHasType S item T.GroupContainer
  [ (decide (tool = UBStylusTool.Play) && decide ((S.item item).type = T.Widget),
      MoveRule.itemItself),
    (inGroup && (decide (tool = UBStylusTool.Play) && parentIsSelected S item), MoveRule.parent),
    (inGroup && decide ((S.item item).type = T.StrokesGroup), MoveRule.parent),
    (inGroup && parentIsSelected S item, MoveRule.itemItself),
    (inGroup && (S.item item).isSelected, MoveRule.noMover),
    (inGroup, MoveRule.parent),
    (parentHasType S item T.StrokesGroup, MoveRule.resolveParent) ]

/-- The mover a rule denotes for `item`; `viaParent` is the resolution of the
parent. -/
def MoveRule.mover (S : UBGraphicsScene) (item : ItemId)
    (viaParent : Option (Option ItemId)) : MoveRule → Option (Option ItemId)
  | MoveRule.itemItself => some (some item)
  | MoveRule.parent => some (S.item item).parentItem
  | MoveRule.noMover => some none
  | MoveRule.resolveParent => viaParent

/-- The specification's `resolveForMove` on a non-null item: the first rule of
the decision list that applies, the item itself when none does. -/
def resolveForMoveSpec (T : ItemTypes) (S : UBGraphicsScene) (tool : UBStylusTool)
    (item : ItemId) (viaParent : Option (Option ItemId)) : Option (Option ItemId) :=
  (firstRule (resolveForMoveRules T S tool item) MoveRule.itemItself).mover S item viaParent

/-- The board over `sceneDesk` with the multi-selection band spanning the
three items. -/
def rubberBandBoard : Board :=
  { deskBoard UBStylusTool.Selector with
    view := { idleView with mUBRubberBand := some ⟨0, 0, 700, 200⟩ } }

/-- The board over `sceneDesk` in a drag of the locked pixmap 2: the mouse
button is pressed, the moving item is 2 and the reference point is (250, 50). -/
def lockedDragBoard : Board :=
  { deskBoard UBStylusTool.Selector with
    view := { pressedView (some 2) with mLastPressedMousePos := ⟨250, 50⟩ } }

/-- The board over `sceneDesk` of a view of the desktop kind, in a press on the
pixmap 3 under the given tool. -/
def desktopPressedBoard (tool : UBStylusTool) : Board :=
  { deskBoard tool with
    view := { pressedView (some 3) with
      bIsDesktop := true
      bIsControl := false
      mUBRubberBand := some ⟨0, 0, 10, 10⟩
      longPressTimerActive := true } }

/-- The idle board over `sceneDesk` of a view of the desktop kind. -/
def desktopIdleBoard (tool : UBStylusTool) : Board :=
  { deskBoard tool with view := { idleView with bIsDesktop := true, bIsControl := false } }

/-- The handlers of the view over `sceneDesk` with call bound 3. -/
def deskPress (event : QMouseEvent) (B : Board) : Option Board :=
  mousePressEvent sampleTypes deskCollaborators 3 B event

/-- The move handler of the view over `sceneDesk` with call bound 3. -/
def deskMove (event : QMouseEvent) (B : Board) : Option Board :=
  mouseMoveEvent sampleTypes deskCollaborators 3 B event

/-- The release handler of the view over `sceneDesk` with call bound 3. -/
def deskRelease (event : QMouseEvent) (B : Board) : Option Board :=
  mouseReleaseEvent sampleTypes deskCollaborators 3 B event

/-- The tool is changed from outside the view. -/
def setStylusTool (tool : UBStylusTool) (B : Board) : Option Board :=
  some { B with stylusTool := tool }

/-- A first session under the Selector tool over `sceneDesk`: the media item 1
is pressed at (50, 50), dragged to (100, 50) and released there. -/
def mediaDragRun : Option Board :=
  runHandlers (deskBoard UBStylusTool.Selector)
    [deskPress (leftPressAt ⟨50, 50⟩), deskMove (moveTo ⟨100, 50⟩),
     deskRelease (releaseAt ⟨100, 50⟩)]

/-- The first session `mediaDragRun` followed by a press on the pixmap 3 with
the Control key held. -/
def mediaDragThenCtrlPress : Option Board :=
  mediaDragRun.bind (deskPress (ctrlPressAt ⟨450, 50⟩))

/-- The first session `mediaDragRun` followed by a plain press on the empty
page. -/
def mediaDragThenPagePress : Option Board :=
  mediaDragRun.bind (deskPress (leftPressAt ⟨1000, 1000⟩))

/-- A stroke of the Pen tool over `sceneDesk` from (600, 300) to (700, 300),
after which the tool is changed to Selector and the pixmap 3 is pressed at
(450, 50). -/
def penStrokeThenSelectorPress : Option Board :=
  runHandlers (deskBoard UBStylusTool.Pen)
    [deskPress (leftPressAt ⟨600, 300⟩), deskMove (moveTo ⟨700, 300⟩),
     deskRelease (releaseAt ⟨700, 300⟩), setStylusTool UBStylusTool.Selector,
     deskPress (leftPressAt ⟨450, 50⟩)]

/-- A click on the pixmap 3 of `sceneDesk` under the Selector tool from the
idle board: press and release at (450, 50), no move. -/
def plainClickRun : Option Board :=
  runHandlers (deskBoard UBStylusTool.Selector)
    [deskPress (leftPressAt ⟨450, 50⟩), deskRelease (releaseAt ⟨450, 50⟩)]

/-- The collaborators of `sceneImage`: the handle 1 is on the page. -/
def imageCollaborators : Collaborators := sampleCollaborators [1]

/-- The board of the image scenario after the press at (50, 50) on the
image. -/
def imagePressed : Board :=
  (mousePressEvent sampleTypes imageCollaborators 3 imageBoard (leftPressAt ⟨50, 50⟩)).getD
    imageBoard

/-- The board of the image scenario after the same press with snapping on. -/
def imagePressedSnapping : Board :=
  (mousePressEvent sampleTypes (snappingCollaborators [1]) 3 imageBoard
    (leftPressAt ⟨50, 50⟩)).getD imageBoard

/-- The collaborators of `groupBoard`: the text item 1 is under the pointer
over the square of side 100 at the origin. -/
def groupCollaborators : Collaborators := sampleCollaborators [1]

/-- The board over `sceneSelectedGroup` in a press on the text item 1 inside
the selected group 2: single selection, the moving item is 1. -/
def groupPressedBoard : Board :=
  { groupBoard with view := pressedView (some 1) }

/-- The board over `sceneSelectedGroup` in a drag whose moving item is the
polygon 3, inside the strokes group 4 of the group container 2. -/
def polygonDragBoard : Board :=
  { groupBoard with view := pressedView (some 3) }

/-- The board at the point where `handleItemMousePress` asks whether the press
is delivered at once: the reference point is recorded, the moving item is the
press-resolved `target` and `handleItemsSelection` has run. -/
def pressDecisionBoard (T : ItemTypes) (X : Collaborators) (B : Board) (event : QMouseEvent)
    (target : Option ItemId) : Board :=
  let B1 := B.withView { B.view with mLastPressedMousePos := X.mapToScene event.pos }
  let B2 := B1.setMovingItem target
  handleItemsSelection T B2 B2.view.movingItem

/-- The board over `sceneDesk` under the Selector tool in a press on the media
item 1: the mouse button is pressed and the moving item is 1. -/
def mediaPressedBoard : Board :=
  { deskBoard UBStylusTool.Selector with view := pressedView (some 1) }

/-- The board over `sceneDesk` after the press at (450, 50) on the pixmap 3
under the Selector tool. -/
def pixmapPressedBoard : Board :=
  (deskPress (leftPressAt ⟨450, 50⟩) (deskBoard UBStylusTool.Selector)).getD
    (deskBoard UBStylusTool.Selector)

/-- The board over `sceneSelectedGroup` after the press at (50, 50) on the
widget 5, which sits in the selected group container 2, under the Selector
tool; the widget is the only item under the pointer. -/
def widgetInGroupPressedBoard : Board :=
  (mousePressEvent sampleTypes (sampleCollaborators [5]) 3 groupBoard
    (leftPressAt ⟨50, 50⟩)).getD groupBoard

/-- The board over `sceneFlat` after the press at (50, 50) on the ruler 4 under
the Selector tool; the ruler is the only item under the pointer. -/
def rulerPressedBoard : Board :=
  (mousePressEvent sampleTypes (sampleCollaborators [4]) 3
    { view := idleView, scene := sceneFlat, stylusTool := UBStylusTool.Selector }
    (leftPressAt ⟨50, 50⟩)).getD
    { view := idleView, scene := sceneFlat, stylusTool := UBStylusTool.Selector }

/-- The idle board over `sceneDesk` under the Pen tool, with high-resolution
tablet events and pen pressure switched on in the settings. -/
def penTabletBoard : Board :=
  { deskBoard UBStylusTool.Pen with
    view := { idleView with mUseHighResTabletEvent := true, mPenPressureSensitive := true } }

/-- A press of the tip of the stylus at a point, with full pressure. -/
def tabletPressAt (p : QPointF) : QTabletEvent :=
  { type := QTabletEventType.TabletPress, pos := p, pointerIsEraser := false,
    pressure := 1000, modifiers := ⟨false, false, false⟩ }

/-- The tablet handler of the view over `sceneDesk`. -/
def deskTablet (event : QTabletEvent) (B : Board) : Option Board :=
  some (tabletEvent deskCollaborators B event)

/-- The idle board over `sceneDesk` under the Selector tool where the pixmap 3
is selected. -/
def selectedDeskBoard : Board :=
  { deskBoard UBStylusTool.Selector with scene := setSelected sceneDesk 3 true }

/-- A rubber-band gesture over `selectedDeskBoard`: a press with the Control
key on the empty page at (390, 110), a move to (510, -10), which puts the
pixmap 3 inside the band, and a move back to (450, 50), which leaves it
outside. -/
def bandOverSelectedRun : Option Board :=
  runHandlers selectedDeskBoard
    [deskPress (ctrlPressAt ⟨390, 110⟩), deskMove (moveTo ⟨510, -10⟩),
     deskMove (moveTo ⟨450, 50⟩)]

/-- Two rubber-band gestures over `sceneDesk`: the first (press at (390, 110),
move to (510, -10), release) selects the pixmap 3; the second starts with a
press with the Control key at (-10, 110) and a move to (110, -10) over the media
item 1. -/
def twoBandsRun : Option Board :=
  runHandlers (deskBoard UBStylusTool.Selector)
    [deskPress (ctrlPressAt ⟨390, 110⟩), deskMove (moveTo ⟨510, -10⟩),
     deskRelease (releaseAt ⟨510, -10⟩),
     deskPress (ctrlPressAt ⟨-10, 110⟩), deskMove (moveTo ⟨110, -10⟩)]

/-- The item that the rubber-band update selects for an item of the band: the
parent for a polygon that has one, the item itself otherwise. -/
def rubberTarget (T : ItemTypes) (S : UBGraphicsScene) (item0 : ItemId) : ItemId :=
  match (S.item item0).parentItem with
  | some p => if (S.item item0).type = T.PolygonItemType then p else item0
  | none => item0

/-- The type test of the rubber-band update. -/
def rubberEligible (T : ItemTypes) (S : UBGraphicsScene) (item : ItemId) : Bool :=
  decide ((S.item item).type = T.W3CWidget ∨ (S.item item).type = T.Pixmap
    ∨ (S.item item).type = T.Video ∨ (S.item item).type = T.Audio
    ∨ (S.item item).type = T.Svg ∨ (S.item item).type = T.Text
    ∨ (S.item item).type = T.StrokesGroup ∨ (S.item item).type = T.GroupContainer)

/-- The items that one rubber-band update selects for a rectangle: the targets
of the items that `items(bandRect)` returns which pass the type test. -/
def rubberTargets (T : ItemTypes) (X : Collaborators) (S : UBGraphicsScene) (rect : QRect) :
    List ItemId :=
  ((X.itemsInRect S rect).map (rubberTarget T S)).filter (rubberEligible T S)

/-- The body of the first loop of the rubber-band update: a tracked item that
is not among the items of the band is deselected and no longer tracked. -/
def rubberDeselectStep (rubberItems : List ItemId) (acc : Board) (item : ItemId) : Board :=
  if rubberItems.contains item = false then
    (acc.withScene (setSelected acc.scene item false)).withView
      { acc.view with mJustSelectedItems := acc.view.mJustSelectedItems.erase item }
  else acc

/-- The body of the second loop of the rubber-band update: the target of an
item of the band that passes the type test and is not tracked is selected and
tracked. -/
def rubberSelectStep (T : ItemTypes) (acc : Board) (item0 : ItemId) : Board :=
  let item :=
    match (acc.scene.item item0).parentItem with
    | some p => if (acc.scene.item item0).type = T.PolygonItemType then p else item0
    | none => item0
  let type := (acc.scene.item item).type
  if type = T.W3CWidget ∨ type = T.Pixmap ∨ type = T.Video ∨ type = T.Audio
      ∨ type = T.Svg ∨ type = T.Text ∨ type = T.StrokesGroup
      ∨ type = T.GroupContainer then
    if acc.view.mJustSelectedItems.contains item = false then
      (acc.withScene (setSelected acc.scene item true)).withView
        { acc.view with mJustSelectedItems := item :: acc.view.mJustSelectedItems }
    else acc
  else acc

/-- A sequence of rubber-band updates under the Selector tool, one for each
move event. -/
def rubberSteps (T : ItemTypes) (X : Collaborators) (B : Board) : List QMouseEvent → Board
  | [] => B
  | e :: rest => rubberSteps T X (rubberBandSelect T X UBStylusTool.Selector B e) rest

/-- The tags that pass the type test of the rubber-band update. -/
def ItemTypes.rubberTypes (T : ItemTypes) : List Int :=
  [T.W3CWidget, T.Pixmap, T.Video, T.Audio, T.Svg, T.Text, T.StrokesGroup, T.GroupContainer]

/-- Two scenes hold the same items up to the selection flags. -/
def SameItemsButSelection (S S' : UBGraphicsScene) : Prop :=
  S'.backgroundObject = S.backgroundObject
    ∧ ∀ i, (S'.item i).type = (S.item i).type ∧ (S'.item i).parentItem = (S.item i).parentItem
      ∧ (S'.item i).pos = (S.item i).pos ∧ (S'.item i).locked = (S.item i).locked

/-- The state of a rubber-band gesture `A` agrees with the board `B0` at its
start: same items up to the selection flags, same press point, the selected
items are those selected at the start and the tracked ones, and the tracked
items are without duplicates, pass the type test and were not selected at the
start. -/
def RubberInv (T : ItemTypes) (B0 A : Board) : Prop :=
  SameItemsButSelection B0.scene A.scene
    ∧ A.view.mMouseDownPos = B0.view.mMouseDownPos
    ∧ (∀ i, (A.scene.item i).isSelected = true
        ↔ (B0.scene.item i).isSelected = true ∨ i ∈ A.view.mJustSelectedItems)
    ∧ (∀ i ∈ A.view.mJustSelectedItems,
        (B0.scene.item i).isSelected = false ∧ rubberEligible T B0.scene i = true)
    ∧ A.view.mJustSelectedItems.Nodup

/-- The board over `sceneDesk` in a rubber-band gesture: the mouse button is
pressed at (390, 110) on the empty page, there is no moving item and no tracked
item. -/
def bandStartBoard : Board :=
  { deskBoard UBStylusTool.Selector with
    view := { pressedView none with mMouseDownPos := ⟨390, 110⟩ } }

/-- The idle board over `sceneUnselectedGroup` under the Selector tool. -/
def unselectedGroupBoard : Board :=
  { view := idleView, scene := sceneUnselectedGroup, stylusTool := UBStylusTool.Selector }

/-- A rubber-band gesture over `sceneUnselectedGroup`, where only the polygon 3
is on the page for the hit test: press on the empty page at (-10, 110) and move
to (110, -10), which puts the polygon inside the band. -/
def bandOverPolygonRun : Option Board :=
  runHandlers unselectedGroupBoard
    [fun B => mousePressEvent sampleTypes (sampleCollaborators [3]) 3 B
        (leftPressAt ⟨-10, 110⟩),
     fun B => mouseMoveEvent sampleTypes (sampleCollaborators [3]) 3 B (moveTo ⟨110, -10⟩)]

/-- Whether a recorded call is `scene()->inputDevicePress(...)` or
`scene()->inputDeviceMove(...)` of the mouse handlers. -/
def Effect.isInputDevicePressOrMove : Effect → Bool
  | Effect.inputDevicePress _ => true
  | Effect.inputDeviceMove _ _ => true
  | _ => false

/-- Whether a recorded call is `QGraphicsView::mousePressEvent(...)`. -/
def Effect.isViewMousePressEvent : Effect → Bool
  | Effect.viewMousePressEvent _ => true
  | _ => false

/-- From `B` to `B'` the record of calls has only grown, and by no call of the
kind `p`. -/
def Board.addsNone (p : Effect → Bool) (B B' : Board) : Prop :=
  ∃ l, B'.effects = B.effects ++ l ∧ ∀ e ∈ l, p e = false

/-- The part of `handleItemMousePress` after the selection step, from the board
`D` at the question about immediate delivery. -/
def pressAfterSelection (T : ItemTypes) (X : Collaborators) (fuel : Nat) (D : Board)
    (event : QMouseEvent) : Option Board :=
  if D.view.mMultipleSelectionIsEnabled = true then some D
  else
    let r := itemShouldReceiveMousePressEvent T D.scene D.stylusTool D.view D.view.movingItem
    let B4 := D.withView r.2
    if r.1 = true then
      let B5 := B4.callViewMousePressEvent X event
      match determineItemToPress T B5.scene B5.stylusTool fuel
          (X.itemAt B5.scene (X.mapToScene event.pos)) with
      | none => none
      | some item => some (B5.withScene (cleanUpProxyChildren T X B5.scene item))
    else
      let B5 :=
        match B4.view.movingItem with
        | none => B4
        | some m =>
          (if X.isUBGraphicsItem B4.scene m = true then B4.log (Effect.startUndoStep m)
            else B4).log (Effect.clearFocus m)
      let B6 := B5.withView { B5.view with suspendedMousePressEvent := none }
      if itemShouldReceiveSuspendedMousePressEvent T B6.scene B6.stylusTool
          B6.view.movingItem = true then
        some (B6.withView { B6.view with suspendedMousePressEvent := some event })
      else some B6

/-- From `B` to `B'` the pressed flags are unchanged and no call of
`inputDevicePress` or `inputDeviceMove` has been made. -/
def MouseFrame (B B' : Board) : Prop :=
  B'.view.mMouseButtonIsPressed = B.view.mMouseButtonIsPressed
    ∧ B'.view.mTabletStylusIsPressed = B.view.mTabletStylusIsPressed
    ∧ B.addsNone Effect.isInputDevicePressOrMove B'

/-- The board of `mousePressEvent` before the test of the button: the drag flag
is cleared, the multi-selection flag and the press point are taken from the
event, and the moving item is the item under the pointer. -/
def pressStartBoard (X : Collaborators) (B : Board) (event : QMouseEvent) : Board :=
  let B1 := B.withView { B.view with mIsDragInProgress := false }
  let B2 := B1.withView { B1.view with
    mMultipleSelectionIsEnabled := event.modifiers.control
    mMouseDownPos := event.pos }
  B2.setMovingItem (X.itemAt B2.scene (X.mapToScene event.pos))

/-- The left-button branch of `mousePressEvent`, from the board `B3` before the
test of the button. -/
def pressLeftButton (T : ItemTypes) (X : Collaborators) (fuel : Nat) (B3 : Board)
    (event : QMouseEvent) : Option Board :=
  let currentTool := B3.stylusTool
  let B4 := if B3.view.mTabletStylusIsPressed = false then
      B3.withView { B3.view with mMouseButtonIsPressed := true }
    else B3
  match currentTool with
  | UBStylusTool.ZoomIn =>
    some ((B4.log (Effect.zoomIn (X.mapToScene event.pos))).log Effect.eventAccept)
  | UBStylusTool.ZoomOut =>
    some ((B4.log (Effect.zoomOut (X.mapToScene event.pos))).log Effect.eventAccept)
  | UBStylusTool.Hand =>
    some (((B4.log Effect.setCursor).withView
      { B4.view with mPreviousPoint := event.pos }).log Effect.eventAccept)
  | UBStylusTool.Selector | UBStylusTool.Play =>
    pressSelectorOrPlay T X fuel B4 event
  | UBStylusTool.Text =>
    if (match B4.view.movingItem with
        | none => false
        | some m => X.isTextItem B4.scene m) = true then
      let B5 := B4.withView { B4.view with mIsCreatingTextZone := false }
      let B6 := { B5 with stylusTool := UBStylusTool.Selector }
      some (B6.callViewMousePressEvent X event)
    else
      let B5 := B4.withScene (deselectAllItems B4.scene)
      let B6 := B5.withView { B5.view.startRubberBand with mIsCreatingTextZone := true }
      some (B6.log Effect.eventAccept)
  | UBStylusTool.Capture =>
    let B5 := B4.withScene (deselectAllItems B4.scene)
    let B6 := B5.withView { B5.view.startRubberBand with
      mIsCreatingSceneGrabZone := true }
    some (B6.log Effect.eventAccept)
  | _ =>
    let B5 := if X.activeRulerIsNull = true then B4.log Effect.setCursor else B4
    let B6 := if B5.view.mTabletStylusIsPressed = false then
        let B5a := if currentTool = UBStylusTool.Eraser then
            B5.withView { B5.view with
              longPressConnections := B5.view.longPressConnections + 1
              longPressTimerActive := true }
          else B5
        B5a.log (Effect.inputDevicePress
          (X.mapToScene (X.pointConstrainedInRect event.pos)))
      else B5
    some (B6.log Effect.eventAccept)

/-- The right-button branch of `mousePressEvent`, from the board `B3` before
the test of the button. -/
def pressRightButton (T : ItemTypes) (X : Collaborators) (fuel : Nat) (B3 : Board)
    (event : QMouseEvent) : Option Board :=
  match B3.stylusTool with
  | UBStylusTool.Selector | UBStylusTool.Play =>
    if B3.view.bIsDesktop = true then some (B3.log Effect.eventIgnore)
    else if (match B3.view.movingItem with
        | none => false
        | some m => X.isTextItem B3.scene m) = true then some B3
    else
      match handleItemMousePress T X fuel B3 event with
      | none => none
      | some B4 => some (B4.log Effect.eventAccept)
  | _ => some B3

/-- The board of `mouseMoveEvent` before the `switch` on the tool: the drag
flags are set, the long-press timer is stopped, and under a drawing tool with
the mouse button up the base class has seen the move. -/
def moveStartBoard (X : Collaborators) (B : Board) (event : QMouseEvent) : Board :=
  let B1 := B.withView { B.view with
    mIsDragInProgress := true
    mWidgetMoved := true
    longPressTimerActive := false }
  if X.isDrawingTool B1.stylusTool = true ∧ B1.view.mMouseButtonIsPressed = false then
    B1.callViewMouseMoveEvent X event
  else B1

/-- The `switch` on the tool of `mouseMoveEvent`, from the board `B2` before
it. -/
def moveToolSwitch (T : ItemTypes) (X : Collaborators) (fuel : Nat) (B2 : Board)
    (event : QMouseEvent) : Option Board :=
  let currentTool := B2.stylusTool
  match currentTool with
  | UBStylusTool.Hand =>
    if B2.view.mMouseButtonIsPressed = false ∧ B2.view.mTabletStylusIsPressed = false then
      some B2
    else
      some (((B2.log (Effect.handScroll (event.pos.x - B2.view.mPreviousPoint.x)
        (event.pos.y - B2.view.mPreviousPoint.y))).withView
        { B2.view with mPreviousPoint := event.pos }).log Effect.eventAccept)
  | UBStylusTool.Selector | UBStylusTool.Play =>
    if B2.view.bIsDesktop = true then some (B2.log Effect.eventIgnore)
    else
      let rubberMove := decide (currentTool ≠ UBStylusTool.Play)
        && B2.view.pointerIsPressed && B2.view.movingItem.isNone
      let B3 := if rubberMove = true then rubberBandSelect T X currentTool B2 event else B2
      handleItemMouseMove T X fuel B3 event
  | UBStylusTool.Text | UBStylusTool.Capture =>
    if B2.view.mRubberBand.isSome = true
        ∧ (B2.view.mIsCreatingTextZone || B2.view.mIsCreatingSceneGrabZone) = true then
      some ((B2.withView { B2.view with
        mRubberBand := some (QRect.normalizedOfPoints B2.view.mMouseDownPos event.pos) }).log
        Effect.eventAccept)
    else some (B2.callViewMouseMoveEvent X event)
  | _ =>
    let B3 := if B2.view.mTabletStylusIsPressed = false then
        B2.log (Effect.inputDeviceMove
          (X.mapToScene (X.pointConstrainedInRect event.pos)) B2.view.mMouseButtonIsPressed)
      else B2
    some (B3.log Effect.eventAccept)

/-- The board over `sceneDesk` after a press of the stylus at (450, 50) under
the Pen tool: the stylus-pressed flag is latched. -/
def stylusPressedBoard : Board :=
  tabletEvent deskCollaborators penTabletBoard (tabletPressAt ⟨450, 50⟩)

/-- The stylus is pressed under the Pen tool, the tool is changed to the
Selector, and a mouse press arrives at (450, 50), over the pixmap 3. -/
def stylusThenMousePressRun : Option Board :=
  runHandlers penTabletBoard
    [deskTablet (tabletPressAt ⟨450, 50⟩), setStylusTool UBStylusTool.Selector,
      deskPress (leftPressAt ⟨450, 50⟩)]

/-- The run `stylusThenMousePressRun` followed by a mouse move to (500, 50). -/
def stylusThenMouseMoveRun : Option Board :=
  runHandlers penTabletBoard
    [deskTablet (tabletPressAt ⟨450, 50⟩), setStylusTool UBStylusTool.Selector,
      deskPress (leftPressAt ⟨450, 50⟩), deskMove (moveTo ⟨500, 50⟩)]

/-- The run `stylusThenMouseMoveRun` with the Play tool chosen in place of the
Selector. -/
def stylusThenMouseMovePlayRun : Option Board :=
  runHandlers penTabletBoard
    [deskTablet (tabletPressAt ⟨450, 50⟩), setStylusTool UBStylusTool.Play,
      deskPress (leftPressAt ⟨450, 50⟩), deskMove (moveTo ⟨500, 50⟩)]

/-- The board over `sceneDesk` under the Selector tool in a press with the
Control key on the media item 1: multiple selection is enabled, the moving
item is 1. -/
def mediaCtrlPressedBoard : Board :=
  { mediaPressedBoard with
    view := { mediaPressedBoard.view with mMultipleSelectionIsEnabled := true } }

/-- The collaborators of `sceneSelectedGroup` with a base class that clears
the selection of the scene when a press is passed on to it. -/
def clearingCollaborators : Collaborators :=
  { groupCollaborators with
    viewMousePressEvent := fun B _ => B.withScene (deselectAllItems B.scene) }

/-- The collaborators of `sceneDesk` with a base class that ends a drag and
drop when a move is passed on to it: `dropEvent` runs and clears the moving
item. -/
def droppingCollaborators : Collaborators :=
  { deskCollaborators with viewMouseMoveEvent := fun B _ => B.setMovingItem none }

/-- The board over `sceneDesk` under the Selector tool in a drag of the selected
pixmap 3: the mouse button is pressed and the moving item is 3. -/
def selectedPixmapDragBoard : Board :=
  { selectedDeskBoard with view := pressedView (some 3) }

/-- The base-class press handler acts on the scene only: it leaves the fields
of the view, the tool, the record of calls and the parent links of the items
as they are. -/
def Collaborators.pressActsOnScene (X : Collaborators) : Prop :=
  ∀ (B0 : Board) (e : QMouseEvent),
    (X.viewMousePressEvent B0 e).view = B0.view
      ∧ (X.viewMousePressEvent B0 e).stylusTool = B0.stylusTool
      ∧ (X.viewMousePressEvent B0 e).effects = B0.effects
      ∧ ∀ i, ((X.viewMousePressEvent B0 e).scene.item i).parentItem
          = (B0.scene.item i).parentItem

/-- The base-class release handler makes no call of the press handler of the
base class: the record grows by no such call. -/
def Collaborators.releasePassesNoPress (X : Collaborators) : Prop :=
  ∀ (B0 : Board) (e : QMouseEvent),
    B0.addsNone Effect.isViewMousePressEvent (X.viewMouseReleaseEvent B0 e)

/-- The part of the Selector branch of `mouseReleaseEvent` between the
comparison with the item under the pointer and the call of the base class, from
the board `B2` after the comparison: the resulting board and the value of
`bReleaseIsNeed`. -/
def releaseSelectorOutcome (T : ItemTypes) (X : Collaborators) (B2 : Board)
    (bReleaseIsNeed0 : Bool) : Board × Bool :=
  if B2.view.mWidgetMoved = true then
    let B3 :=
      match B2.view.movingItem with
      | some item => if (B2.scene.item item).type = T.Widget then
          B2.log (Effect.updatePosition item) else B2
      | none => B2
    (B3.withView { B3.view with mWidgetMoved := false, movingItem := none },
      bReleaseIsNeed0)
  else
    match B2.view.movingItem with
    | some m =>
      if (!isCppTool T B2.scene m || decide ((B2.scene.item m).type = T.Curtain))
          = true then
        match B2.view.suspendedMousePressEvent with
        | some suspended => (replaySuspendedPress X B2 suspended, true)
        | none =>
          if (isUBItem T B2.scene m
              && decide ((B2.scene.item m).type ≠ T.DelegateButton)
              && decide ((B2.scene.item m).type ≠ T.DelegateFrame)
              && decide ((B2.scene.item m).type ≠ T.Cache)
              && notWidgetInGroupSingleSelection T B2 m) = true then
            releaseToggleSelection B2 m
          else (B2, bReleaseIsNeed0)
      else (B2, true)
    | none => (B2, true)

/-! ## Lemmas on the hit resolver -/

theorem parentHasType_eq_true_iff (S : UBGraphicsScene) (item : ItemId) (type : Int) :
    parentHasType S item type = true
      ↔ ∃ p, (S.item item).parentItem = some p ∧ (S.item p).type = type := by
  unfold parentHasType
  split <;> simp_all

theorem parentHasType_of_parent (S : UBGraphicsScene) (item p : ItemId) (type : Int)
    (hp : (S.item item).parentItem = some p) :
    parentHasType S item type = decide ((S.item p).type = type) := by
  simp [parentHasType, hp]

theorem parentIsSelected_of_parent (S : UBGraphicsScene) (item p : ItemId)
    (hp : (S.item item).parentItem = some p) :
    parentIsSelected S item = (S.item p).isSelected := by
  simp [parentIsSelected, hp]

theorem parentHasType_of_root (S : UBGraphicsScene) (item : ItemId) (type : Int)
    (hp : (S.item item).parentItem = none) : parentHasType S item type = false := by
  simp [parentHasType, hp]

theorem pos_fuel_eq_succ (n fuel : Nat) (h : n < fuel) : ∃ f, fuel = f + 1 ∧ n ≤ f :=
  ⟨fuel - 1, by omega, by omega⟩

/-- An item without parent is pressed as itself, whatever the call bound. -/
theorem determineItemToPress_root (T : ItemTypes) (S : UBGraphicsScene) (tool : UBStylusTool)
    (item : ItemId) (hp : (S.item item).parentItem = none) (f : Nat) :
    determineItemToPress T S tool (f + 1) (some item) = some (some item) := by
  simp [determineItemToPress, parentHasType_of_root S item _ hp]

/-- On a parent chain of at most `n` links the press resolution returns, for
every call bound above `n`, one fixed item: the item itself or an ancestor. -/
theorem determineItemToPress_chain (T : ItemTypes) (S : UBGraphicsScene) (tool : UBStylusTool) :
    ∀ (n : Nat) (item : ItemId), parentChainWithin S n item = true →
      ∃ r, (∀ fuel, n < fuel → determineItemToPress T S tool fuel (some item) = some (some r))
        ∧ (r = item ∨ IsAncestor S r item) := by
  intro n
  induction n with
  | zero =>
    intro item h
    have hp : (S.item item).parentItem = none := by simpa [parentChainWithin] using h
    refine ⟨item, ?_, Or.inl rfl⟩
    intro fuel hf
    obtain ⟨f, rfl, -⟩ := pos_fuel_eq_succ 0 fuel hf
    exact determineItemToPress_root T S tool item hp f
  | succ n ih =>
    intro item h
    cases hp : (S.item item).parentItem with
    | none =>
      refine ⟨item, ?_, Or.inl rfl⟩
      intro fuel hf
      obtain ⟨f, rfl, -⟩ := pos_fuel_eq_succ (n + 1) fuel hf
      exact determineItemToPress_root T S tool item hp f
    | some p =>
      have hc : parentChainWithin S n p = true := by
        simpa [parentChainWithin, hp] using h
      obtain ⟨r, hr, hanc⟩ := ih p hc
      by_cases h1 : tool = UBStylusTool.Selector
          ∧ parentHasType S item T.GroupContainer = true ∧ parentIsSelected S item = false
      · refine ⟨p, ?_, Or.inr (Relation.TransGen.single hp)⟩
        intro fuel hf
        obtain ⟨f, rfl, -⟩ := pos_fuel_eq_succ (n + 1) fuel hf
        rw [determineItemToPress, if_pos h1, hp]
      · by_cases h2 : parentHasType S item T.StrokesGroup = true
        · refine ⟨r, ?_, Or.inr ?_⟩
          · intro fuel hf
            obtain ⟨f, rfl, hle⟩ := pos_fuel_eq_succ (n + 1) fuel hf
            rw [determineItemToPress, if_neg h1, if_pos h2, hp]
            exact hr f (by omega)
          · rcases hanc with rfl | ha
            · exact Relation.TransGen.single hp
            · exact Relation.TransGen.tail ha hp
        · refine ⟨item, ?_, Or.inl rfl⟩
          intro fuel hf
          obtain ⟨f, rfl, -⟩ := pos_fuel_eq_succ (n + 1) fuel hf
          rw [determineItemToPress, if_neg h1, if_neg h2]

/-- On a parent chain of at most `n` links the move resolution returns, for
every call bound above `n`, one fixed result. -/
theorem determineItemToMove_chain (T : ItemTypes) (S : UBGraphicsScene) (tool : UBStylusTool) :
    ∀ (n : Nat) (item : ItemId), parentChainWithin S n item = true →
      ∃ r, ∀ fuel, n < fuel → determineItemToMove T S tool fuel (some item) = some r := by
  intro n
  induction n with
  | zero =>
    intro item h
    have hp : (S.item item).parentItem = none := by simpa [parentChainWithin] using h
    refine ⟨some item, ?_⟩
    intro fuel hf
    obtain ⟨f, rfl, -⟩ := pos_fuel_eq_succ 0 fuel hf
    simp [determineItemToMove, parentHasType_of_root S item _ hp]
  | succ n ih =>
    intro item h
    cases hp : (S.item item).parentItem with
    | none =>
      refine ⟨some item, ?_⟩
      intro fuel hf
      obtain ⟨f, rfl, -⟩ := pos_fuel_eq_succ (n + 1) fuel hf
      simp [determineItemToMove, parentHasType_of_root S item _ hp]
    | some p =>
      have hc : parentChainWithin S n p = true := by
        simpa [parentChainWithin, hp] using h
      obtain ⟨r, hr⟩ := ih p hc
      by_cases h0 : tool = UBStylusTool.Play ∧ (S.item item).type = T.Widget
      · exact ⟨some item, fun fuel hf => by
          obtain ⟨f, rfl, -⟩ := pos_fuel_eq_succ (n + 1) fuel hf
          rw [determineItemToMove, if_pos h0]⟩
      · by_cases h1 : parentHasType S item T.GroupContainer = true
        · refine ⟨if tool = UBStylusTool.Play ∧ parentIsSelected S item = true then some p
            else if (S.item item).type = T.StrokesGroup then some p
            else if parentIsSelected S item = true then some item
            else if (S.item item).isSelected = true then none
            else some p, ?_⟩
          intro fuel hf
          obtain ⟨f, rfl, -⟩ := pos_fuel_eq_succ (n + 1) fuel hf
          rw [determineItemToMove, if_neg h0, if_pos h1, hp]
          repeat' split
          all_goals rfl
        · by_cases h2 : parentHasType S item T.StrokesGroup = true
          · refine ⟨r, ?_⟩
            intro fuel hf
            obtain ⟨f, rfl, hle⟩ := pos_fuel_eq_succ (n + 1) fuel hf
            rw [determineItemToMove, if_neg h0, if_neg h1, if_pos h2, hp]
            exact hr f (by omega)
          · exact ⟨some item, fun fuel hf => by
              obtain ⟨f, rfl, -⟩ := pos_fuel_eq_succ (n + 1) fuel hf
              rw [determineItemToMove, if_neg h0, if_neg h1, if_neg h2]⟩

/-! ## Hit resolver: the claims -/

/-- C1 (as stated, refuted): under the Play tool the text item 1, whose
immediate parent 2 is an unselected group container, is pressed as itself and
not as its parent. -/
theorem determineItemToPress_play_group_child :
    (sceneUnselectedGroup.item 1).parentItem = some 2
      ∧ (sceneUnselectedGroup.item 2).type = sampleTypes.GroupContainer
      ∧ (sceneUnselectedGroup.item 2).isSelected = false
      ∧ determineItemToPress sampleTypes sceneUnselectedGroup UBStylusTool.Play 1 (some 1)
          = some (some 1)
      ∧ determineItemToPress sampleTypes sceneUnselectedGroup UBStylusTool.Play 2 (some 1)
          = some (some 1) := by
  decide

/-- C1 (amended): under the Selector tool, for every item whose immediate
parent is a group container that is not selected, `determineItemToPress`
returns that parent. -/
theorem determineItemToPress_selector_unselected_group (T : ItemTypes) (S : UBGraphicsScene)
    (fuel : Nat) (item p : ItemId)
    (hparent : (S.item item).parentItem = some p)
    (hgroup : (S.item p).type = T.GroupContainer)
    (hunsel : (S.item p).isSelected = false) :
    determineItemToPress T S UBStylusTool.Selector (fuel + 1) (some item) = some (some p) := by
  have h1 : parentHasType S item T.GroupContainer = true := by
    rw [parentHasType_of_parent S item p _ hparent]; simpa using hgroup
  have h2 : parentIsSelected S item = false := by
    rw [parentIsSelected_of_parent S item p hparent]; exact hunsel
  rw [determineItemToPress, if_pos ⟨rfl, h1, h2⟩, hparent]

/-- Witness of C1 (amended): the text item 1 inside the unselected group 2. -/
theorem determineItemToPress_selector_unselected_group_witness :
    determineItemToPress sampleTypes sceneUnselectedGroup UBStylusTool.Selector (0 + 1) (some 1)
      = some (some 2) :=
  determineItemToPress_selector_unselected_group sampleTypes sceneUnselectedGroup 0 1 2
    (by decide) (by decide) (by decide)

/-- C2: for every tool, every selection state and every item whose parent
chain ends after at most `n` links, `determineItemToPress` returns (for every
call bound above `n`) an item that is the item itself or one of its ancestors. -/
theorem determineItemToPress_self_or_ancestor (T : ItemTypes) (S : UBGraphicsScene)
    (tool : UBStylusTool) (n fuel : Nat) (item : ItemId)
    (hchain : parentChainWithin S n item = true) (hfuel : n < fuel) :
    ∃ r, determineItemToPress T S tool fuel (some item) = some (some r)
      ∧ (r = item ∨ IsAncestor S r item) := by
  obtain ⟨r, hr, hanc⟩ := determineItemToPress_chain T S tool n item hchain
  exact ⟨r, hr fuel hfuel, hanc⟩

/-- Witness of C2: the polygon 3 inside the strokes group 4 inside the group 2. -/
theorem determineItemToPress_self_or_ancestor_witness :
    ∃ r, determineItemToPress sampleTypes sceneUnselectedGroup UBStylusTool.Selector 3 (some 3)
        = some (some r)
      ∧ (r = 3 ∨ IsAncestor sceneUnselectedGroup r 3) :=
  determineItemToPress_self_or_ancestor sampleTypes sceneUnselectedGroup UBStylusTool.Selector
    2 3 3 (by decide) (by decide)

/-- C3: on every non-null item `determineItemToMove` equals the decision list
of the specification, where the rule for a stroke-group parent refers to
`determineItemToMove` of the parent. -/
theorem determineItemToMove_eq_spec (T : ItemTypes) (S : UBGraphicsScene)
    (tool : UBStylusTool) (fuel : Nat) (item : ItemId) :
    determineItemToMove T S tool (fuel + 1) (some item)
      = resolveForMoveSpec T S tool item
          (determineItemToMove T S tool fuel (S.item item).parentItem) := by
  simp only [determineItemToMove, resolveForMoveSpec, resolveForMoveRules, firstRule]
  by_cases h1 : (S.item item).type = T.Widget <;>
  by_cases h4 : (S.item item).type = T.StrokesGroup <;>
  by_cases h0 : tool = UBStylusTool.Play <;>
  by_cases h2 : parentHasType S item T.GroupContainer = true <;>
  by_cases h3 : parentIsSelected S item = true <;>
  by_cases h5 : (S.item item).isSelected = true <;>
  by_cases h6 : parentHasType S item T.StrokesGroup = true
  all_goals
    first
      | have e1 := eq_false h1
      | have e1 := eq_true h1
    first
      | have e4 := eq_false h4
      | have e4 := eq_true h4
    clear h1 h4
    simp [h0, e1, h2, h3, e4, h5, h6, MoveRule.mover]

/-- C4: when every parent chain of the scene is finite (so the parent links
are acyclic), both resolutions terminate on every item and every tool, with a
result that no longer depends on the call bound, and both return the null item
on the null item. -/
theorem hit_resolver_total (T : ItemTypes) (S : UBGraphicsScene) (tool : UBStylusTool)
    (hfinite : ∀ item, ∃ n, parentChainWithin S n item = true) :
    (∀ item, ∃ n rp rm, ∀ fuel, n < fuel →
        determineItemToPress T S tool fuel (some item) = some rp
          ∧ determineItemToMove T S tool fuel (some item) = some rm)
      ∧ (∀ fuel, determineItemToPress T S tool fuel none = some none
          ∧ determineItemToMove T S tool fuel none = some none) := by
  constructor
  · intro item
    obtain ⟨n, hn⟩ := hfinite item
    obtain ⟨rp, hrp, -⟩ := determineItemToPress_chain T S tool n item hn
    obtain ⟨rm, hrm⟩ := determineItemToMove_chain T S tool n item hn
    exact ⟨n, some rp, rm, fun fuel hf => ⟨hrp fuel hf, hrm fuel hf⟩⟩
  · intro fuel
    cases fuel <;> exact ⟨rfl, rfl⟩

/-- Every parent chain of `sceneUnselectedGroup` has at most two links. -/
theorem sceneUnselectedGroup_chains (item : ItemId) :
    ∃ n, parentChainWithin sceneUnselectedGroup n item = true := by
  refine ⟨2, ?_⟩
  by_cases h1 : item = 1
  · subst h1; decide
  by_cases h2 : item = 2
  · subst h2; decide
  by_cases h3 : item = 3
  · subst h3; decide
  by_cases h4 : item = 4
  · subst h4; decide
  simp [parentChainWithin, sceneUnselectedGroup, plainItem, h1, h2, h3, h4]

/-- Witness of C4: the scene `sceneUnselectedGroup` under the Selector tool. -/
theorem hit_resolver_total_witness :
    (∀ item, ∃ n rp rm, ∀ fuel, n < fuel →
        determineItemToPress sampleTypes sceneUnselectedGroup UBStylusTool.Selector fuel
            (some item) = some rp
          ∧ determineItemToMove sampleTypes sceneUnselectedGroup UBStylusTool.Selector fuel
            (some item) = some rm)
      ∧ (∀ fuel, determineItemToPress sampleTypes sceneUnselectedGroup UBStylusTool.Selector
            fuel none = some none
          ∧ determineItemToMove sampleTypes sceneUnselectedGroup UBStylusTool.Selector
            fuel none = some none) :=
  hit_resolver_total sampleTypes sceneUnselectedGroup UBStylusTool.Selector
    sceneUnselectedGroup_chains

/-! ## Lemmas on the tool policy -/

/-- In a list without duplicates the entry at position `i` differs from every
other entry. -/
theorem ne_of_nodup_eraseIdx : ∀ (l : List Int), l.Nodup → ∀ (i : Nat) (x : Int),
    l[i]? = some x → ∀ y ∈ l.eraseIdx i, x ≠ y
  | [], _, i, x, hx => by simp at hx
  | a :: t, hd, 0, x, hx => by
    have hxa : a = x := by simpa using hx
    subst hxa
    intro y hy
    have hnot : a ∉ t := (List.nodup_cons.mp hd).1
    rintro rfl
    exact hnot (by simpa using hy)
  | a :: t, hd, k + 1, x, hx => by
    have hxt : t[k]? = some x := by simpa using hx
    intro y hy
    have hnot : a ∉ t := (List.nodup_cons.mp hd).1
    rcases List.mem_cons.mp (by simpa using hy) with hya | hyt
    · subst hya
      rintro rfl
      exact hnot (List.getElem?_mem hxt)
    · exact ne_of_nodup_eraseIdx t (List.nodup_cons.mp hd).2 k x hxt y hyt

/-- The background test of the policy functions, in the orientation used
there. -/
theorem some_ne_background (S : UBGraphicsScene) (item : ItemId)
    (hbg : S.backgroundObject ≠ some item) : ¬ (some item = S.backgroundObject) :=
  fun h => hbg h.symm

/-- The guard of `itemShouldBeMoved` on the moving item passes exactly when the
moving item, if any, is unlocked and is not an unselected child of a selected
group container. -/
theorem movingItemGuard_eq_true (T : ItemTypes) (S : UBGraphicsScene) (V : UBBoardView)
    (hlock : ∀ m, V.movingItem = some m → (S.item m).locked = false)
    (hchild : ∀ m, V.movingItem = some m →
      ¬ (parentHasType S m T.GroupContainer = true ∧ (S.item m).isSelected = false
        ∧ parentIsSelected S m = true)) :
    movingItemGuard T S V = true := by
  unfold movingItemGuard
  cases hm : V.movingItem with
  | none => rfl
  | some m =>
    have h1 := hlock m hm
    have h2 := hchild m hm
    simp only [h1, Bool.false_eq_true, if_false, if_neg h2]

/-- The guards of `itemShouldBeMoved` that precede its `switch`: once they
pass, the result is the one of the `switch`. -/
theorem itemShouldBeMoved_guards (T : ItemTypes) (S : UBGraphicsScene) (tool : UBStylusTool)
    (V : UBBoardView) (item : ItemId)
    (hpressed : V.mMouseButtonIsPressed = true ∨ V.mTabletStylusIsPressed = true)
    (hlock : ∀ m, V.movingItem = some m → (S.item m).locked = false)
    (hchild : ∀ m, V.movingItem = some m →
      ¬ (parentHasType S m T.GroupContainer = true ∧ (S.item m).isSelected = false
        ∧ parentIsSelected S m = true))
    (hbg : S.backgroundObject ≠ some item) :
    itemShouldBeMoved T S tool V (some item) =
      itemShouldBeMoved T S tool (pressedView none) (some item) := by
  have hbg2 := some_ne_background S item hbg
  have hg := movingItemGuard_eq_true T S V hlock hchild
  have hp : (V.mMouseButtonIsPressed || V.mTabletStylusIsPressed) = true := by
    rcases hpressed with h | h <;> simp [h]
  have hg0 : movingItemGuard T S (pressedView none) = true := rfl
  have hp0 : ((pressedView none).mMouseButtonIsPressed
      || (pressedView none).mTabletStylusIsPressed) = true := rfl
  simp only [itemShouldBeMoved, if_neg hbg2, hp, hg, hg0, hp0, Bool.true_eq_false, if_false]

/-! ## Tool policy: the claims -/

/-- C5 (as stated, refuted): under the Selector tool the text item 1, which is
not selected and not the background but sits in the selected group 2, receives
the press immediately. -/
theorem press_unselected_text_in_selected_group :
    (sceneSelectedGroup.item 1).type = sampleTypes.Text
      ∧ (sceneSelectedGroup.item 1).isSelected = false
      ∧ sceneSelectedGroup.backgroundObject ≠ some 1
      ∧ (itemShouldReceiveMousePressEvent sampleTypes sceneSelectedGroup UBStylusTool.Selector
          (pressedView (some 1)) (some 1)).1 = true := by
  decide

/-- C5 (amended): for every pixmap, svg, text or widget item that is not the
background, `itemShouldReceiveMousePressEvent` returns true only if the item
is selected, or the tool is Play, or the item is a text or widget item under
the Selector tool whose parent is selected.  The text tag is taken to lie in
the whiteboard-domain range. -/
theorem press_content_only_if (T : ItemTypes) (S : UBGraphicsScene) (tool : UBStylusTool)
    (V : UBBoardView) (item : ItemId)
    (hlabels : T.pressCaseLabels.Nodup)
    (htext : T.inUBRange T.Text = true)
    (hkind : (S.item item).type = T.Pixmap ∨ (S.item item).type = T.Svg
      ∨ (S.item item).type = T.Text ∨ (S.item item).type = T.Widget)
    (hbg : S.backgroundObject ≠ some item)
    (hpress : (itemShouldReceiveMousePressEvent T S tool V (some item)).1 = true) :
    (S.item item).isSelected = true ∨ tool = UBStylusTool.Play
      ∨ (tool = UBStylusTool.Selector ∧ parentIsSelected S item = true
          ∧ ((S.item item).type = T.Text ∨ (S.item item).type = T.Widget)) := by
  have hbg2 := some_ne_background S item hbg
  rcases hkind with h | h | h | h
  · have hx := ne_of_nodup_eraseIdx _ hlabels 7 T.Pixmap rfl
    simp only [ItemTypes.pressCaseLabels, List.eraseIdx, List.forall_mem_cons] at hx
    simp only [itemShouldReceiveMousePressEvent, if_neg hbg2, h] at hpress
    simp only [hx, or_false, false_or, if_false, if_true, true_or, ne_eq, not_false_eq_true,
      and_self, and_true, List.not_mem_nil, false_implies, implies_true] at hpress
    split_ifs at hpress <;> simp_all
  · have hx := ne_of_nodup_eraseIdx _ hlabels 8 T.Svg rfl
    simp only [ItemTypes.pressCaseLabels, List.eraseIdx, List.forall_mem_cons] at hx
    simp only [itemShouldReceiveMousePressEvent, if_neg hbg2, h] at hpress
    simp only [hx, or_false, false_or, if_false, if_true, or_true, ne_eq, not_false_eq_true,
      and_self, and_true, List.not_mem_nil, false_implies, implies_true] at hpress
    split_ifs at hpress <;> simp_all
  · have hx := ne_of_nodup_eraseIdx _ hlabels 13 T.Text rfl
    simp only [ItemTypes.pressCaseLabels, List.eraseIdx, List.forall_mem_cons] at hx
    have hub : isUBItem T S item = true := by
      simpa [isUBItem, ItemTypes.inUBRange, h] using htext
    simp only [itemShouldReceiveMousePressEvent, if_neg hbg2, h, hub] at hpress
    simp only [hx, or_false, false_or, if_false, if_true, ne_eq, not_false_eq_true,
      and_self, and_true, List.not_mem_nil, false_implies, implies_true] at hpress
    split_ifs at hpress <;> simp_all
  · have hx := ne_of_nodup_eraseIdx _ hlabels 17 T.Widget rfl
    simp only [ItemTypes.pressCaseLabels, List.eraseIdx, List.forall_mem_cons] at hx
    simp only [itemShouldReceiveMousePressEvent, if_neg hbg2, h] at hpress
    simp only [hx, or_false, false_or, if_false, if_true, ne_eq, not_false_eq_true,
      and_self, and_true, List.not_mem_nil, false_implies, implies_true] at hpress
    split_ifs at hpress <;> simp_all

/-- Witness of C5 (amended): the unselected text item 1 inside the selected
group 2, under the Selector tool. -/
theorem press_content_only_if_witness :
    (sceneSelectedGroup.item 1).isSelected = true ∨ UBStylusTool.Selector = UBStylusTool.Play
      ∨ (UBStylusTool.Selector = UBStylusTool.Selector
          ∧ parentIsSelected sceneSelectedGroup 1 = true
          ∧ ((sceneSelectedGroup.item 1).type = sampleTypes.Text
              ∨ (sceneSelectedGroup.item 1).type = sampleTypes.Widget)) :=
  press_content_only_if sampleTypes sceneSelectedGroup UBStylusTool.Selector
    (pressedView (some 1)) 1 (by decide) (by decide) (by decide) (by decide) (by decide)

/-- C6 (as stated, refuted): under the Selector tool the curtain item 3, not
the background, is refused the immediate press; and the ruler 4, once it is
the scene's background object, is refused it as well. -/
theorem press_refused_curtain_and_background_ruler :
    ((sceneFlat.item 3).type = sampleTypes.Curtain
        ∧ sceneFlat.backgroundObject ≠ some 3
        ∧ (itemShouldReceiveMousePressEvent sampleTypes sceneFlat UBStylusTool.Selector
            (pressedView (some 3)) (some 3)).1 = false)
      ∧ ((sceneRulerBackground.item 4).type = sampleTypes.Ruler
        ∧ sceneRulerBackground.backgroundObject = some 4
        ∧ (itemShouldReceiveMousePressEvent sampleTypes sceneRulerBackground
            UBStylusTool.Selector (pressedView (some 4)) (some 4)).1 = false) := by
  decide

/-- C6 (amended): for every tool and every selection state,
`itemShouldReceiveMousePressEvent` returns true for a ruler, compass, axes,
triangle, protractor or delegate-button item that is not the background; a
curtain item that is not the background has no case of its own (its tag is
none of the case labels) and gets the fall-back answer `!isUBItem`, which is
false for a curtain tag in the whiteboard-domain range. -/
theorem press_tools_and_buttons (T : ItemTypes) (S : UBGraphicsScene) (tool : UBStylusTool)
    (V : UBBoardView) (item : ItemId)
    (hlabels : T.pressCaseLabels.Nodup)
    (hbg : S.backgroundObject ≠ some item) :
    (((S.item item).type = T.Ruler ∨ (S.item item).type = T.Compass
          ∨ (S.item item).type = T.Axes ∨ (S.item item).type = T.Triangle
          ∨ (S.item item).type = T.Protractor ∨ (S.item item).type = T.DelegateButton) →
        (itemShouldReceiveMousePressEvent T S tool V (some item)).1 = true)
      ∧ ((S.item item).type = T.Curtain → T.Curtain ∉ T.pressCaseLabels →
        (itemShouldReceiveMousePressEvent T S tool V (some item)).1 = !isUBItem T S item) := by
  have hbg2 := some_ne_background S item hbg
  constructor
  · intro hkind
    rcases hkind with h | h | h | h | h | h
    · simp [itemShouldReceiveMousePressEvent, if_neg hbg2, h]
    · simp [itemShouldReceiveMousePressEvent, if_neg hbg2, h]
    · simp [itemShouldReceiveMousePressEvent, if_neg hbg2, h]
    · simp [itemShouldReceiveMousePressEvent, if_neg hbg2, h]
    · simp [itemShouldReceiveMousePressEvent, if_neg hbg2, h]
    · have hx := ne_of_nodup_eraseIdx _ hlabels 9 T.DelegateButton rfl
      simp only [ItemTypes.pressCaseLabels, List.eraseIdx, List.forall_mem_cons] at hx
      simp [itemShouldReceiveMousePressEvent, if_neg hbg2, h, hx]
  · intro h hnot
    simp only [ItemTypes.pressCaseLabels, List.mem_cons, not_or, List.not_mem_nil,
      not_false_eq_true, and_true] at hnot
    simp [itemShouldReceiveMousePressEvent, if_neg hbg2, h, hnot]

/-- Witness of C6 (amended): the ruler 4 of `sceneFlat`, under the Pen tool. -/
theorem press_tools_and_buttons_witness :
    (((sceneFlat.item 4).type = sampleTypes.Ruler ∨ (sceneFlat.item 4).type = sampleTypes.Compass
          ∨ (sceneFlat.item 4).type = sampleTypes.Axes
          ∨ (sceneFlat.item 4).type = sampleTypes.Triangle
          ∨ (sceneFlat.item 4).type = sampleTypes.Protractor
          ∨ (sceneFlat.item 4).type = sampleTypes.DelegateButton) →
        (itemShouldReceiveMousePressEvent sampleTypes sceneFlat UBStylusTool.Pen
          (pressedView none) (some 4)).1 = true)
      ∧ ((sceneFlat.item 4).type = sampleTypes.Curtain →
        sampleTypes.Curtain ∉ sampleTypes.pressCaseLabels →
        (itemShouldReceiveMousePressEvent sampleTypes sceneFlat UBStylusTool.Pen
          (pressedView none) (some 4)).1 = !isUBItem sampleTypes sceneFlat 4) :=
  press_tools_and_buttons sampleTypes sceneFlat UBStylusTool.Pen (pressedView none) 4
    (by decide) (by decide)

/-- C7: for every tool and every selection state, a media, video or audio item
that is not the background is refused the immediate press and is eligible for
the suspended press. -/
theorem passive_media_suspended (T : ItemTypes) (S : UBGraphicsScene) (tool : UBStylusTool)
    (V : UBBoardView) (item : ItemId)
    (hlabels : T.pressCaseLabels.Nodup)
    (hkind : (S.item item).type = T.Media ∨ (S.item item).type = T.Video
      ∨ (S.item item).type = T.Audio)
    (hbg : S.backgroundObject ≠ some item) :
    (itemShouldReceiveMousePressEvent T S tool V (some item)).1 = false
      ∧ itemShouldReceiveSuspendedMousePressEvent T S tool (some item) = true := by
  have hbg2 := some_ne_background S item hbg
  rcases hkind with h | h | h
  · have hx := ne_of_nodup_eraseIdx _ hlabels 10 T.Media rfl
    simp only [ItemTypes.pressCaseLabels, List.eraseIdx, List.forall_mem_cons] at hx
    simp [itemShouldReceiveMousePressEvent, itemShouldReceiveSuspendedMousePressEvent, h, hx,
      hbg2]
  · have hx := ne_of_nodup_eraseIdx _ hlabels 11 T.Video rfl
    simp only [ItemTypes.pressCaseLabels, List.eraseIdx, List.forall_mem_cons] at hx
    simp [itemShouldReceiveMousePressEvent, itemShouldReceiveSuspendedMousePressEvent, h, hx,
      hbg2]
  · have hx := ne_of_nodup_eraseIdx _ hlabels 12 T.Audio rfl
    simp only [ItemTypes.pressCaseLabels, List.eraseIdx, List.forall_mem_cons] at hx
    simp [itemShouldReceiveMousePressEvent, itemShouldReceiveSuspendedMousePressEvent, h, hx,
      hbg2]

/-- Witness of C7: the media item 5 of `sceneFlat`, under the Play tool. -/
theorem passive_media_suspended_witness :
    (itemShouldReceiveMousePressEvent sampleTypes sceneFlat UBStylusTool.Play
        (pressedView (some 5)) (some 5)).1 = false
      ∧ itemShouldReceiveSuspendedMousePressEvent sampleTypes sceneFlat UBStylusTool.Play
        (some 5) = true :=
  passive_media_suspended sampleTypes sceneFlat UBStylusTool.Play (pressedView (some 5)) 5
    (by decide) (by decide) (by decide)

/-- C8 (as stated, refuted): under the Play tool the selected pixmap 2 is not
eligible for the suspended press; and under the Selector tool the unselected
pixmap 8, whose only ancestor 9 is not selected, is eligible. -/
theorem suspended_play_selected_and_unselected_parent :
    ((sceneFlat.item 2).type = sampleTypes.Pixmap
        ∧ (sceneFlat.item 2).isSelected = true
        ∧ sceneFlat.backgroundObject ≠ some 2
        ∧ itemShouldReceiveSuspendedMousePressEvent sampleTypes sceneFlat UBStylusTool.Play
            (some 2) = false)
      ∧ ((sceneFlat.item 8).type = sampleTypes.Pixmap
        ∧ (sceneFlat.item 8).isSelected = false
        ∧ (sceneFlat.item 8).parentItem = some 9
        ∧ (sceneFlat.item 9).isSelected = false
        ∧ (sceneFlat.item 9).parentItem = none
        ∧ sceneFlat.backgroundObject ≠ some 8
        ∧ itemShouldReceiveSuspendedMousePressEvent sampleTypes sceneFlat
            UBStylusTool.Selector (some 8) = true) := by
  decide

/-- C8 (amended): `itemShouldReceiveSuspendedMousePressEvent` returns true
exactly for an item that is not the background and is (i) a pixmap, svg, text
or widget item under the Selector tool that is not selected but has a parent,
(ii) a pixmap, svg, text or widget item under the Selector tool that is
selected, or (iii) a media, video or audio item or a delegate button; for
every other item, for the background and for no item it returns false. -/
theorem suspended_eligibility (T : ItemTypes) (S : UBGraphicsScene) (tool : UBStylusTool)
    (item : Option ItemId) (hlabels : T.suspendedCaseLabels.Nodup) :
    itemShouldReceiveSuspendedMousePressEvent T S tool item = true ↔
      ∃ i, item = some i ∧ S.backgroundObject ≠ some i ∧
        ((((S.item i).type = T.Pixmap ∨ (S.item i).type = T.Svg ∨ (S.item i).type = T.Text
              ∨ (S.item i).type = T.Widget)
            ∧ tool = UBStylusTool.Selector ∧ (S.item i).isSelected = false
            ∧ (S.item i).parentItem.isSome = true)
          ∨ (((S.item i).type = T.Pixmap ∨ (S.item i).type = T.Svg ∨ (S.item i).type = T.Text
              ∨ (S.item i).type = T.Widget)
            ∧ tool = UBStylusTool.Selector ∧ (S.item i).isSelected = true)
          ∨ ((S.item i).type = T.DelegateButton ∨ (S.item i).type = T.Media
              ∨ (S.item i).type = T.Video ∨ (S.item i).type = T.Audio)) := by
  cases item with
  | none => simp [itemShouldReceiveSuspendedMousePressEvent]
  | some i =>
    by_cases hbg : some i = S.backgroundObject
    · constructor
      · intro h
        simp [itemShouldReceiveSuspendedMousePressEvent, hbg] at h
      · rintro ⟨k, hk, hne, -⟩
        cases hk
        exact absurd hbg.symm hne
    · have hbg2 : S.backgroundObject ≠ some i := fun h => hbg h.symm
      simp only [itemShouldReceiveSuspendedMousePressEvent, if_neg hbg, Option.some.injEq,
        exists_eq_left', ne_eq, hbg2, not_false_eq_true, true_and]
      by_cases hc : (S.item i).type = T.Pixmap ∨ (S.item i).type = T.Svg
          ∨ (S.item i).type = T.Text ∨ (S.item i).type = T.Widget
      · have hp : ¬ ((S.item i).type = T.DelegateButton ∨ (S.item i).type = T.Media
            ∨ (S.item i).type = T.Video ∨ (S.item i).type = T.Audio) := by
          rcases hc with h | h | h | h
          · have hx := ne_of_nodup_eraseIdx _ hlabels 0 T.Pixmap rfl
            simp only [ItemTypes.suspendedCaseLabels, List.eraseIdx, List.forall_mem_cons] at hx
            simp [h, hx]
          · have hx := ne_of_nodup_eraseIdx _ hlabels 1 T.Svg rfl
            simp only [ItemTypes.suspendedCaseLabels, List.eraseIdx, List.forall_mem_cons] at hx
            simp [h, hx]
          · have hx := ne_of_nodup_eraseIdx _ hlabels 2 T.Text rfl
            simp only [ItemTypes.suspendedCaseLabels, List.eraseIdx, List.forall_mem_cons] at hx
            simp [h, hx]
          · have hx := ne_of_nodup_eraseIdx _ hlabels 3 T.Widget rfl
            simp only [ItemTypes.suspendedCaseLabels, List.eraseIdx, List.forall_mem_cons] at hx
            simp [h, hx]
        simp only [if_pos hc, hc, hp, true_and, or_false]
        cases hsel : (S.item i).isSelected <;> by_cases ht : tool = UBStylusTool.Selector <;>
          simp [ht]
      · simp only [hc, false_and, false_or, if_false]
        by_cases hp : (S.item i).type = T.DelegateButton ∨ (S.item i).type = T.Media
            ∨ (S.item i).type = T.Video ∨ (S.item i).type = T.Audio
        · simp [hp]
        · simp [hp]

/-- Witness of C8 (amended): the unselected pixmap 8 of `sceneFlat`, which has
a parent, under the Selector tool. -/
theorem suspended_eligibility_witness :
    itemShouldReceiveSuspendedMousePressEvent sampleTypes sceneFlat UBStylusTool.Selector
        (some 8) = true ↔
      ∃ i, some 8 = some i ∧ sceneFlat.backgroundObject ≠ some i ∧
        ((((sceneFlat.item i).type = sampleTypes.Pixmap ∨ (sceneFlat.item i).type = sampleTypes.Svg
              ∨ (sceneFlat.item i).type = sampleTypes.Text
              ∨ (sceneFlat.item i).type = sampleTypes.Widget)
            ∧ UBStylusTool.Selector = UBStylusTool.Selector
            ∧ (sceneFlat.item i).isSelected = false
            ∧ (sceneFlat.item i).parentItem.isSome = true)
          ∨ (((sceneFlat.item i).type = sampleTypes.Pixmap
              ∨ (sceneFlat.item i).type = sampleTypes.Svg
              ∨ (sceneFlat.item i).type = sampleTypes.Text
              ∨ (sceneFlat.item i).type = sampleTypes.Widget)
            ∧ UBStylusTool.Selector = UBStylusTool.Selector
            ∧ (sceneFlat.item i).isSelected = true)
          ∨ ((sceneFlat.item i).type = sampleTypes.DelegateButton
              ∨ (sceneFlat.item i).type = sampleTypes.Media
              ∨ (sceneFlat.item i).type = sampleTypes.Video
              ∨ (sceneFlat.item i).type = sampleTypes.Audio)) :=
  suspended_eligibility sampleTypes sceneFlat UBStylusTool.Selector (some 8) (by decide)

/-- C9 (as stated, refuted): under the Play tool, with the mouse button
pressed, the widget 1 (unselected, unlocked, without parent, not the
background) being the moving item, `itemShouldBeMoved` returns false. -/
theorem widget_not_moved_under_play :
    (sceneFlat.item 1).type = sampleTypes.Widget
      ∧ (sceneFlat.item 1).isSelected = false
      ∧ (sceneFlat.item 1).locked = false
      ∧ (sceneFlat.item 1).parentItem = none
      ∧ sceneFlat.backgroundObject ≠ some 1
      ∧ (pressedView (some 1)).mMouseButtonIsPressed = true
      ∧ itemShouldBeMoved sampleTypes sceneFlat UBStylusTool.Play (pressedView (some 1))
          (some 1) = false := by
  decide

/-- C9 (amended): while a pointer is pressed and the moving item is unlocked
and not an unselected child of a selected group container, `itemShouldBeMoved`
returns true for a widget item that is not the background exactly when the
widget is not selected and the tool is not Play; in particular it returns
false for a widget under the Play tool. -/
theorem widget_movable_iff (T : ItemTypes) (S : UBGraphicsScene) (tool : UBStylusTool)
    (V : UBBoardView) (item : ItemId)
    (hlabels : T.moveCaseLabels.Nodup)
    (hpressed : V.mMouseButtonIsPressed = true ∨ V.mTabletStylusIsPressed = true)
    (hlock : ∀ m, V.movingItem = some m → (S.item m).locked = false)
    (hchild : ∀ m, V.movingItem = some m →
      ¬ (parentHasType S m T.GroupContainer = true ∧ (S.item m).isSelected = false
        ∧ parentIsSelected S m = true))
    (hbg : S.backgroundObject ≠ some item)
    (hkind : (S.item item).type = T.Widget) :
    itemShouldBeMoved T S tool V (some item) = true
      ↔ (tool ≠ UBStylusTool.Play ∧ (S.item item).isSelected = false) := by
  have hbg2 := some_ne_background S item hbg
  rw [itemShouldBeMoved_guards T S tool V item hpressed hlock hchild hbg]
  have hx := ne_of_nodup_eraseIdx _ hlabels 2 T.Widget rfl
  simp only [ItemTypes.moveCaseLabels, List.eraseIdx, List.forall_mem_cons] at hx
  cases hsel : (S.item item).isSelected <;> by_cases ht : tool = UBStylusTool.Play <;>
    simp [itemShouldBeMoved, hbg2, pressedView, movingItemGuard, hkind, hx, hsel, ht]

/-- Witness of C9 (amended): the unselected widget 1 of `sceneFlat` as moving
item, under the Selector tool. -/
theorem widget_movable_iff_witness :
    itemShouldBeMoved sampleTypes sceneFlat UBStylusTool.Selector (pressedView (some 1))
        (some 1) = true
      ↔ (UBStylusTool.Selector ≠ UBStylusTool.Play ∧ (sceneFlat.item 1).isSelected = false) :=
  widget_movable_iff sampleTypes sceneFlat UBStylusTool.Selector (pressedView (some 1)) 1
    (by decide) (by decide)
    (by intro m hm; cases hm; decide)
    (by intro m hm; cases hm; decide)
    (by decide) (by decide)

/-- C10 (as stated, refuted): the widget 1 of `sceneFlat` is of none of the
kinds named in the table (curtain, group container, media, video, audio,
strokes group, pixmap, svg, text); with the mouse button pressed under the
Selector tool, the widget being the moving item, unselected, unlocked, without
parent and not the background, `itemShouldBeMoved` returns true for it. -/
theorem unselected_widget_is_moved_under_selector :
    (sceneFlat.item 1).type = sampleTypes.Widget
      ∧ (sceneFlat.item 1).type ∉ [sampleTypes.Curtain, sampleTypes.GroupContainer,
          sampleTypes.Media, sampleTypes.Video, sampleTypes.Audio, sampleTypes.StrokesGroup,
          sampleTypes.Pixmap, sampleTypes.Svg, sampleTypes.Text]
      ∧ (sceneFlat.item 1).isSelected = false
      ∧ (sceneFlat.item 1).locked = false
      ∧ (sceneFlat.item 1).parentItem = none
      ∧ sceneFlat.backgroundObject ≠ some 1
      ∧ (pressedView (some 1)).mMouseButtonIsPressed = true
      ∧ itemShouldBeMoved sampleTypes sceneFlat UBStylusTool.Selector (pressedView (some 1))
          (some 1) = true := by
  decide

/-- C10 (amended): while a pointer is pressed and the guards pass (the item is
not the background, the moving item is unlocked and is not an unselected child
of a selected group container), `itemShouldBeMoved` returns true for curtain,
group-container, media, video, audio and strokes-group items for every tool
and selection state, returns (tool is Play or item not selected) for pixmap
and svg items and for text items, returns (tool is not Play and item not
selected) for widget items, and returns false for every item that is neither
of a kind named above nor a widget. -/
theorem movability_table (T : ItemTypes) (S : UBGraphicsScene) (tool : UBStylusTool)
    (V : UBBoardView) (item : ItemId)
    (hlabels : T.moveCaseLabels.Nodup)
    (hpressed : V.mMouseButtonIsPressed = true ∨ V.mTabletStylusIsPressed = true)
    (hlock : ∀ m, V.movingItem = some m → (S.item m).locked = false)
    (hchild : ∀ m, V.movingItem = some m →
      ¬ (parentHasType S m T.GroupContainer = true ∧ (S.item m).isSelected = false
        ∧ parentIsSelected S m = true))
    (hbg : S.backgroundObject ≠ some item) :
    (((S.item item).type = T.Curtain ∨ (S.item item).type = T.GroupContainer
          ∨ (S.item item).type = T.Media ∨ (S.item item).type = T.Video
          ∨ (S.item item).type = T.Audio ∨ (S.item item).type = T.StrokesGroup) →
        itemShouldBeMoved T S tool V (some item) = true)
      ∧ (((S.item item).type = T.Pixmap ∨ (S.item item).type = T.Svg) →
        (itemShouldBeMoved T S tool V (some item) = true
          ↔ (tool = UBStylusTool.Play ∨ (S.item item).isSelected = false)))
      ∧ ((S.item item).type = T.Text →
        (itemShouldBeMoved T S tool V (some item) = true
          ↔ (tool = UBStylusTool.Play ∨ (S.item item).isSelected = false)))
      ∧ ((S.item item).type = T.Widget →
        (itemShouldBeMoved T S tool V (some item) = true
          ↔ (tool ≠ UBStylusTool.Play ∧ (S.item item).isSelected = false)))
      ∧ ((S.item item).type ∉ [T.Curtain, T.GroupContainer, T.Media, T.Video, T.Audio,
            T.StrokesGroup, T.Pixmap, T.Svg, T.Text, T.Widget] →
        itemShouldBeMoved T S tool V (some item) = false) := by
  have hbg2 := some_ne_background S item hbg
  rw [itemShouldBeMoved_guards T S tool V item hpressed hlock hchild hbg]
  refine ⟨?_, ?_, ?_, ?_, ?_⟩
  · intro hkind
    rcases hkind with h | h | h | h | h | h
    · simp [itemShouldBeMoved, hbg2, pressedView, movingItemGuard, h]
    · simp [itemShouldBeMoved, hbg2, pressedView, movingItemGuard, h]
    · have hx := ne_of_nodup_eraseIdx _ hlabels 5 T.Media rfl
      simp only [ItemTypes.moveCaseLabels, List.eraseIdx, List.forall_mem_cons] at hx
      simp [itemShouldBeMoved, hbg2, pressedView, movingItemGuard, h, hx]
    · have hx := ne_of_nodup_eraseIdx _ hlabels 6 T.Video rfl
      simp only [ItemTypes.moveCaseLabels, List.eraseIdx, List.forall_mem_cons] at hx
      simp [itemShouldBeMoved, hbg2, pressedView, movingItemGuard, h, hx]
    · have hx := ne_of_nodup_eraseIdx _ hlabels 7 T.Audio rfl
      simp only [ItemTypes.moveCaseLabels, List.eraseIdx, List.forall_mem_cons] at hx
      simp [itemShouldBeMoved, hbg2, pressedView, movingItemGuard, h, hx]
    · have hx := ne_of_nodup_eraseIdx _ hlabels 8 T.StrokesGroup rfl
      simp only [ItemTypes.moveCaseLabels, List.eraseIdx, List.forall_mem_cons] at hx
      simp [itemShouldBeMoved, hbg2, pressedView, movingItemGuard, h, hx]
  · intro hkind
    rcases hkind with h | h
    · have hx := ne_of_nodup_eraseIdx _ hlabels 4 T.Pixmap rfl
      simp only [ItemTypes.moveCaseLabels, List.eraseIdx, List.forall_mem_cons] at hx
      cases hsel : (S.item item).isSelected <;> by_cases ht : tool = UBStylusTool.Play <;>
        simp [itemShouldBeMoved, hbg2, pressedView, movingItemGuard, h, hx, hsel, ht]
    · have hx := ne_of_nodup_eraseIdx _ hlabels 3 T.Svg rfl
      simp only [ItemTypes.moveCaseLabels, List.eraseIdx, List.forall_mem_cons] at hx
      cases hsel : (S.item item).isSelected <;> by_cases ht : tool = UBStylusTool.Play <;>
        simp [itemShouldBeMoved, hbg2, pressedView, movingItemGuard, h, hx, hsel, ht]
  · intro h
    have hx := ne_of_nodup_eraseIdx _ hlabels 9 T.Text rfl
    simp only [ItemTypes.moveCaseLabels, List.eraseIdx, List.forall_mem_cons] at hx
    cases hsel : (S.item item).isSelected <;> by_cases ht : tool = UBStylusTool.Play <;>
      simp [itemShouldBeMoved, hbg2, pressedView, movingItemGuard, h, hx, hsel, ht]
  · intro h
    have hx := ne_of_nodup_eraseIdx _ hlabels 2 T.Widget rfl
    simp only [ItemTypes.moveCaseLabels, List.eraseIdx, List.forall_mem_cons] at hx
    cases hsel : (S.item item).isSelected <;> by_cases ht : tool = UBStylusTool.Play <;>
      simp [itemShouldBeMoved, hbg2, pressedView, movingItemGuard, h, hx, hsel, ht]
  · intro hnot
    simp only [List.mem_cons, not_or, List.not_mem_nil, not_false_eq_true, and_true] at hnot
    simp [itemShouldBeMoved, hbg2, pressedView, movingItemGuard, hnot]

/-- Witness of C10 (amended): the curtain 3 of `sceneFlat` as moving item,
under the Selector tool. -/
theorem movability_table_witness :
    (((sceneFlat.item 3).type = sampleTypes.Curtain
          ∨ (sceneFlat.item 3).type = sampleTypes.GroupContainer
          ∨ (sceneFlat.item 3).type = sampleTypes.Media
          ∨ (sceneFlat.item 3).type = sampleTypes.Video
          ∨ (sceneFlat.item 3).type = sampleTypes.Audio
          ∨ (sceneFlat.item 3).type = sampleTypes.StrokesGroup) →
        itemShouldBeMoved sampleTypes sceneFlat UBStylusTool.Selector (pressedView (some 3))
          (some 3) = true)
      ∧ (((sceneFlat.item 3).type = sampleTypes.Pixmap
          ∨ (sceneFlat.item 3).type = sampleTypes.Svg) →
        (itemShouldBeMoved sampleTypes sceneFlat UBStylusTool.Selector (pressedView (some 3))
            (some 3) = true
          ↔ (UBStylusTool.Selector = UBStylusTool.Play ∨ (sceneFlat.item 3).isSelected = false)))
      ∧ ((sceneFlat.item 3).type = sampleTypes.Text →
        (itemShouldBeMoved sampleTypes sceneFlat UBStylusTool.Selector (pressedView (some 3))
            (some 3) = true
          ↔ (UBStylusTool.Selector = UBStylusTool.Play ∨ (sceneFlat.item 3).isSelected = false)))
      ∧ ((sceneFlat.item 3).type = sampleTypes.Widget →
        (itemShouldBeMoved sampleTypes sceneFlat UBStylusTool.Selector (pressedView (some 3))
            (some 3) = true
          ↔ (UBStylusTool.Selector ≠ UBStylusTool.Play ∧ (sceneFlat.item 3).isSelected = false)))
      ∧ ((sceneFlat.item 3).type ∉ [sampleTypes.Curtain, sampleTypes.GroupContainer,
            sampleTypes.Media, sampleTypes.Video, sampleTypes.Audio, sampleTypes.StrokesGroup,
            sampleTypes.Pixmap, sampleTypes.Svg, sampleTypes.Text, sampleTypes.Widget] →
        itemShouldBeMoved sampleTypes sceneFlat UBStylusTool.Selector (pressedView (some 3))
          (some 3) = false) :=
  movability_table sampleTypes sceneFlat UBStylusTool.Selector (pressedView (some 3)) 3
    (by decide) (by decide)
    (by intro m hm; cases hm; decide)
    (by intro m hm; cases hm; decide)
    (by decide)

/-! ## Lemmas on the board -/

@[simp] theorem Board.log_view (B : Board) (e : Effect) : (B.log e).view = B.view := rfl

@[simp] theorem Board.log_scene (B : Board) (e : Effect) : (B.log e).scene = B.scene := rfl

@[simp] theorem Board.log_stylusTool (B : Board) (e : Effect) :
    (B.log e).stylusTool = B.stylusTool := rfl

@[simp] theorem Board.log_effects (B : Board) (e : Effect) :
    (B.log e).effects = B.effects ++ [e] := rfl

@[simp] theorem Board.withView_view (B : Board) (V : UBBoardView) : (B.withView V).view = V :=
  rfl

@[simp] theorem Board.withView_scene (B : Board) (V : UBBoardView) :
    (B.withView V).scene = B.scene := rfl

@[simp] theorem Board.withView_stylusTool (B : Board) (V : UBBoardView) :
    (B.withView V).stylusTool = B.stylusTool := rfl

@[simp] theorem Board.withView_effects (B : Board) (V : UBBoardView) :
    (B.withView V).effects = B.effects := rfl

@[simp] theorem Board.withScene_view (B : Board) (S : UBGraphicsScene) :
    (B.withScene S).view = B.view := rfl

@[simp] theorem Board.withScene_scene (B : Board) (S : UBGraphicsScene) :
    (B.withScene S).scene = S := rfl

@[simp] theorem Board.withScene_stylusTool (B : Board) (S : UBGraphicsScene) :
    (B.withScene S).stylusTool = B.stylusTool := rfl

@[simp] theorem Board.withScene_effects (B : Board) (S : UBGraphicsScene) :
    (B.withScene S).effects = B.effects := rfl

@[simp] theorem Board.setMovingItem_view (B : Board) (m : Option ItemId) :
    (B.setMovingItem m).view = { B.view with movingItem := m } := rfl

@[simp] theorem Board.setMovingItem_scene (B : Board) (m : Option ItemId) :
    (B.setMovingItem m).scene = B.scene := rfl

@[simp] theorem Board.setMovingItem_stylusTool (B : Board) (m : Option ItemId) :
    (B.setMovingItem m).stylusTool = B.stylusTool := rfl

@[simp] theorem Board.setMovingItem_effects (B : Board) (m : Option ItemId) :
    (B.setMovingItem m).effects = B.effects := rfl

/-- What the teardown of `mouseReleaseEvent` establishes. -/
theorem releaseTeardown_spec (B : Board) :
    (releaseTeardown B).view.mUBRubberBand = none
      ∧ (releaseTeardown B).view.mRubberBand = none
      ∧ (releaseTeardown B).view.movingItem = none
      ∧ (releaseTeardown B).view.mMouseButtonIsPressed = false
      ∧ (releaseTeardown B).view.mTabletStylusIsPressed = false
      ∧ (releaseTeardown B).view.longPressTimerActive = false
      ∧ (releaseTeardown B).effects.getLast? = some Effect.updateSelectionFrame := by
  simp [releaseTeardown]

/-- Case analysis of `itemShouldReceiveMousePressEvent` on a non-null item: a
property holds of its result once it holds of every pair of a flag and the
unchanged view and, for a group container under the Play tool, of the flag
`true` with the moving item cleared. -/
theorem press_cases (T : ItemTypes) (S : UBGraphicsScene)
    (tool : UBStylusTool) (V : UBBoardView) (item : ItemId)
    (P : Bool × UBBoardView → Prop) (h1 : ∀ b, P (b, V))
    (h2 : tool = UBStylusTool.Play → (S.item item).type = T.GroupContainer →
      P (true, { V with movingItem := none })) :
    P (itemShouldReceiveMousePressEvent T S tool V (some item)) := by
  unfold itemShouldReceiveMousePressEvent
  dsimp only
  by_cases c0 : some item = S.backgroundObject
  · rw [if_pos c0]; exact h1 _
  rw [if_neg c0]
  by_cases c1 : (S.item item).type = T.Protractor ∨ (S.item item).type = T.Ruler
      ∨ (S.item item).type = T.Axes ∨ (S.item item).type = T.Triangle
      ∨ (S.item item).type = T.Compass ∨ (S.item item).type = T.Cache
  · rw [if_pos c1]; exact h1 _
  rw [if_neg c1]
  by_cases c2 : (S.item item).type = T.DelegateFrame
  · rw [if_pos c2]; by_cases t : tool = UBStylusTool.Play
    · rw [if_pos t]; exact h1 _
    · rw [if_neg t]; exact h1 _
  rw [if_neg c2]
  by_cases c3 : (S.item item).type = T.Pixmap ∨ (S.item item).type = T.Svg
  · rw [if_pos c3]; by_cases t : tool = UBStylusTool.Play
    · rw [if_pos t]; exact h1 _
    · rw [if_neg t]; by_cases s : (S.item item).isSelected = true
      · rw [if_pos s]; exact h1 _
      · rw [if_neg s]; exact h1 _
  rw [if_neg c3]
  by_cases c4 : (S.item item).type = T.DelegateButton
  · rw [if_pos c4]; exact h1 _
  rw [if_neg c4]
  by_cases c5 : (S.item item).type = T.Media ∨ (S.item item).type = T.Video
      ∨ (S.item item).type = T.Audio
  · rw [if_pos c5]; exact h1 _
  rw [if_neg c5]
  by_cases c6 : (S.item item).type = T.Text
  · rw [if_pos c6]; by_cases t : tool = UBStylusTool.Play
    · rw [if_pos t]; exact h1 _
    · rw [if_neg t]
      by_cases s : tool = UBStylusTool.Selector ∧ (S.item item).isSelected = true
      · rw [if_pos s]; exact h1 _
      · rw [if_neg s]
        by_cases p : tool = UBStylusTool.Selector ∧ parentIsSelected S item = true
        · rw [if_pos p]; exact h1 _
        · rw [if_neg p]
          by_cases n : tool ≠ UBStylusTool.Selector
          · rw [if_pos n]; exact h1 _
          · rw [if_neg n]; exact h1 _
  rw [if_neg c6]
  by_cases c7 : (S.item item).type = T.StrokeItemType
  · rw [if_pos c7]
    by_cases t : tool = UBStylusTool.Play ∨ tool = UBStylusTool.Selector
    · rw [if_pos t]; exact h1 _
    · rw [if_neg t]; exact h1 _
  rw [if_neg c7]
  by_cases c8 : (S.item item).type = T.GroupContainer
  · rw [if_pos c8]; by_cases t : tool = UBStylusTool.Play
    · rw [if_pos t]; exact h2 t c8
    · rw [if_neg t]; exact h1 _
  rw [if_neg c8]
  by_cases c9 : (S.item item).type = T.ProxyWidget
  · rw [if_pos c9]; exact h1 _
  rw [if_neg c9]
  by_cases c10 : (S.item item).type = T.Widget
  · rw [if_pos c10]
    by_cases p : tool = UBStylusTool.Selector ∧ parentIsSelected S item = true
    · rw [if_pos p]; exact h1 _
    · rw [if_neg p]
      by_cases s : tool = UBStylusTool.Selector ∧ (S.item item).isSelected = true
      · rw [if_pos s]; exact h1 _
      · rw [if_neg s]; by_cases t : tool = UBStylusTool.Play
        · rw [if_pos t]; exact h1 _
        · rw [if_neg t]; exact h1 _
  rw [if_neg c10]; exact h1 _

/-- The press resolution of an optional item returns once the call bound
exceeds the length of the item's parent chain. -/
theorem determineItemToPress_returns (T : ItemTypes) (S : UBGraphicsScene)
    (tool : UBStylusTool) (n fuel : Nat) (x : Option ItemId)
    (hchain : ∀ item, x = some item → parentChainWithin S n item = true) (hfuel : n < fuel) :
    ∃ r, determineItemToPress T S tool fuel x = some r := by
  cases x with
  | none => exact ⟨none, by cases fuel <;> rfl⟩
  | some item =>
    obtain ⟨r, hr, -⟩ := determineItemToPress_chain T S tool n item (hchain item rfl)
    exact ⟨some r, hr fuel hfuel⟩

/-- Committing the undo step leaves the scene as it is. -/
@[simp] theorem commitUndoStepOfMovingItem_scene (X : Collaborators) (B : Board) :
    (commitUndoStepOfMovingItem X B).scene = B.scene := by
  unfold commitUndoStepOfMovingItem
  cases B.view.movingItem with
  | none => rfl
  | some m => dsimp only; by_cases h : X.isUBGraphicsItem B.scene m = true
              · rw [if_pos h]; rfl
              · rw [if_neg h]

/-- Committing the undo step leaves the tool as it is. -/
@[simp] theorem commitUndoStepOfMovingItem_stylusTool (X : Collaborators) (B : Board) :
    (commitUndoStepOfMovingItem X B).stylusTool = B.stylusTool := by
  unfold commitUndoStepOfMovingItem
  cases B.view.movingItem with
  | none => rfl
  | some m => dsimp only; by_cases h : X.isUBGraphicsItem B.scene m = true
              · rw [if_pos h]; rfl
              · rw [if_neg h]

/-- Committing the undo step leaves the view as it is. -/
@[simp] theorem commitUndoStepOfMovingItem_view (X : Collaborators) (B : Board) :
    (commitUndoStepOfMovingItem X B).view = B.view := by
  unfold commitUndoStepOfMovingItem
  cases B.view.movingItem with
  | none => rfl
  | some m => dsimp only; by_cases h : X.isUBGraphicsItem B.scene m = true
              · rw [if_pos h]; rfl
              · rw [if_neg h]

/-- Outside the desktop view the Selector branch of the release reaches the
teardown. -/
theorem releaseSelector_reaches (T : ItemTypes) (X : Collaborators) (fuel n : Nat) (B : Board)
    (event : QMouseEvent) (hdesk : B.view.bIsDesktop = false)
    (hchain : ∀ item, X.itemAt B.scene (X.mapToScene event.pos) = some item →
      parentChainWithin B.scene n item = true)
    (hfuel : n < fuel) :
    ∃ B1, releaseSelector T X fuel B event = some (B1, true) := by
  obtain ⟨r, hr⟩ := determineItemToPress_returns T B.scene B.stylusTool n fuel
    (X.itemAt B.scene (X.mapToScene event.pos)) hchain hfuel
  unfold releaseSelector
  rw [if_neg (by rw [hdesk]; decide)]
  dsimp only
  rw [commitUndoStepOfMovingItem_scene, commitUndoStepOfMovingItem_stylusTool, hr]
  exact ⟨_, rfl⟩

/-- Outside the desktop view the Play branch of the release reaches the
teardown. -/
theorem releasePlay_reaches (X : Collaborators) (B : Board) (event : QMouseEvent)
    (hdesk : B.view.bIsDesktop = false) : (releasePlay X B event).2 = true := by
  unfold releasePlay
  rw [if_neg (by rw [hdesk]; decide)]

/-- The Text branch of the release returns once the call bound exceeds the
parent chain of the item under the pointer. -/
theorem releaseText_returns (T : ItemTypes) (X : Collaborators) (fuel n : Nat) (B : Board)
    (event : QMouseEvent)
    (hchain : ∀ item, X.itemAt B.scene (X.mapToScene event.pos) = some item →
      parentChainWithin B.scene n item = true)
    (hfuel : n < fuel) :
    ∃ B1, releaseText T X fuel B event = some B1 := by
  obtain ⟨r, hr⟩ := determineItemToPress_returns T B.scene B.stylusTool n fuel
    (X.itemAt B.scene (X.mapToScene event.pos)) hchain hfuel
  unfold releaseText
  rw [hr]
  exact ⟨_, rfl⟩


/-- The null item is pressed as the null item, whatever the call bound. -/
theorem determineItemToPress_none (T : ItemTypes) (S : UBGraphicsScene) (tool : UBStylusTool)
    (fuel : Nat) : determineItemToPress T S tool fuel none = some none := by
  cases fuel <;> rfl

/-- A press handled with no moving item leaves the view without moving item,
when the base class leaves the board as it is. -/
theorem handleItemMousePress_no_item (T : ItemTypes) (X : Collaborators) (fuel : Nat)
    (B : Board) (event : QMouseEvent)
    (hmover : B.view.movingItem = none)
    (hbase : ∀ B' e, X.viewMousePressEvent B' e = B')
    (hterm : ∃ r, determineItemToPress T B.scene B.stylusTool fuel
      (X.itemAt B.scene (X.mapToScene event.pos)) = some r) :
    ∃ B', handleItemMousePress T X fuel B event = some B' ∧ B'.view.movingItem = none := by
  obtain ⟨r, hr⟩ := hterm
  unfold handleItemMousePress
  simp only [Board.withView_view, Board.withView_scene, Board.withView_stylusTool, hmover,
    determineItemToPress_none, Board.setMovingItem_view, handleItemsSelection]
  by_cases hmulti : B.view.mMultipleSelectionIsEnabled = true
  · rw [if_pos hmulti]
    exact ⟨_, rfl, rfl⟩
  · rw [if_neg hmulti]
    simp only [itemShouldReceiveMousePressEvent, Board.callViewMousePressEvent, hbase,
      Board.withView_scene, Board.withView_stylusTool, Board.log_scene, Board.log_stylusTool,
      Board.setMovingItem_scene, Board.setMovingItem_stylusTool, if_true, hr]
    exact ⟨_, rfl, rfl⟩

/-- The Selector / Play case of a press whose moving item is the background
object leaves the view without moving item. -/
theorem pressSelectorOrPlay_background (T : ItemTypes) (X : Collaborators) (fuel : Nat)
    (B : Board) (event : QMouseEvent)
    (hdesk : B.view.bIsDesktop = false)
    (hmover : B.scene.backgroundObject = B.view.movingItem)
    (hbase : ∀ B' e, X.viewMousePressEvent B' e = B')
    (hterm : ∃ r, determineItemToPress T B.scene B.stylusTool fuel
      (X.itemAt B.scene (X.mapToScene event.pos)) = some r) :
    ∃ B', pressSelectorOrPlay T X fuel B event = some B' ∧ B'.view.movingItem = none := by
  have hstep : ∀ B7 : Board, B7.view.movingItem = none → B7.scene = B.scene →
      B7.stylusTool = B.stylusTool →
      ∃ B', (match handleItemMousePress T X fuel B7 event with
        | none => none
        | some B8 => some (B8.log Effect.eventAccept)) = some B'
        ∧ B'.view.movingItem = none := by
    intro B7 h1 h2 h3
    obtain ⟨B8, h8, h8m⟩ := handleItemMousePress_no_item T X fuel B7 event h1 hbase
      (by rw [h2, h3]; exact hterm)
    rw [h8]
    exact ⟨_, rfl, h8m⟩
  unfold pressSelectorOrPlay
  rw [if_neg (by rw [hdesk]; decide)]
  simp only []
  rw [if_pos hmover]
  by_cases hc : X.cacheIsVisible = false
  · rw [if_pos ⟨rfl, hc⟩]
    exact hstep _ rfl rfl rfl
  · rw [if_neg (fun h => hc h.2)]
    exact hstep _ rfl rfl rfl


/-! ## Lemmas on positions and drag steps -/

/-- Two points are equal when their coordinates are. -/
theorem QPointF.eq_iff (p q : QPointF) : p = q ↔ p.x = q.x ∧ p.y = q.y := by
  cases p; cases q; simp

/-- Addition of points, first coordinate. -/
@[simp] theorem QPointF.add_x (p q : QPointF) : (p + q).x = p.x + q.x := rfl

/-- Addition of points, second coordinate. -/
@[simp] theorem QPointF.add_y (p q : QPointF) : (p + q).y = p.y + q.y := rfl

/-- Subtraction of points, first coordinate. -/
@[simp] theorem QPointF.sub_x (p q : QPointF) : (p - q).x = p.x - q.x := rfl

/-- Subtraction of points, second coordinate. -/
@[simp] theorem QPointF.sub_y (p q : QPointF) : (p - q).y = p.y - q.y := rfl

/-- Moving an item keeps every type tag. -/
@[simp] theorem setPos_type (S : UBGraphicsScene) (m i : ItemId) (p : QPointF) :
    ((setPos S m p).item i).type = (S.item i).type := by
  unfold setPos; dsimp only; split_ifs <;> rfl

/-- Moving an item keeps every selection flag. -/
@[simp] theorem setPos_isSelected (S : UBGraphicsScene) (m i : ItemId) (p : QPointF) :
    ((setPos S m p).item i).isSelected = (S.item i).isSelected := by
  unfold setPos; dsimp only; split_ifs <;> rfl

/-- Moving an item keeps every lock flag. -/
@[simp] theorem setPos_locked (S : UBGraphicsScene) (m i : ItemId) (p : QPointF) :
    ((setPos S m p).item i).locked = (S.item i).locked := by
  unfold setPos; dsimp only; split_ifs <;> rfl

/-- Moving an item keeps every parent link. -/
@[simp] theorem setPos_parentItem (S : UBGraphicsScene) (m i : ItemId) (p : QPointF) :
    ((setPos S m p).item i).parentItem = (S.item i).parentItem := by
  unfold setPos; dsimp only; split_ifs <;> rfl

/-- Moving an item keeps the background object. -/
@[simp] theorem setPos_backgroundObject (S : UBGraphicsScene) (m : ItemId) (p : QPointF) :
    (setPos S m p).backgroundObject = S.backgroundObject := rfl

/-- The moved item is at the new position. -/
@[simp] theorem setPos_pos_self (S : UBGraphicsScene) (m : ItemId) (p : QPointF) :
    ((setPos S m p).item m).pos = p := by
  unfold setPos; dsimp only; rw [if_pos rfl]

/-- The other items stay where they are. -/
theorem setPos_pos_other (S : UBGraphicsScene) (m i : ItemId) (p : QPointF) (h : i ≠ m) :
    ((setPos S m p).item i).pos = (S.item i).pos := by
  unfold setPos; dsimp only; rw [if_neg h]

/-- Moving an item keeps the answers of `parentHasType`. -/
@[simp] theorem setPos_parentHasType (S : UBGraphicsScene) (m i : ItemId) (p : QPointF)
    (type : Int) : parentHasType (setPos S m p) i type = parentHasType S i type := by
  unfold parentHasType
  rw [setPos_parentItem]
  cases (S.item i).parentItem with
  | none => rfl
  | some q => dsimp only; rw [setPos_type]

/-- Moving an item keeps the answers of `parentIsSelected`. -/
@[simp] theorem setPos_parentIsSelected (S : UBGraphicsScene) (m i : ItemId) (p : QPointF) :
    parentIsSelected (setPos S m p) i = parentIsSelected S i := by
  unfold parentIsSelected
  rw [setPos_parentItem]
  cases (S.item i).parentItem with
  | none => rfl
  | some q => dsimp only; rw [setPos_isSelected]

/-- Moving an item keeps the answer of the guard on the moving item. -/
@[simp] theorem setPos_movingItemGuard (T : ItemTypes) (S : UBGraphicsScene) (m : ItemId)
    (p : QPointF) (V : UBBoardView) :
    movingItemGuard T (setPos S m p) V = movingItemGuard T S V := by
  unfold movingItemGuard
  cases V.movingItem with
  | none => rfl
  | some q =>
    dsimp only
    rw [setPos_locked, setPos_parentHasType, setPos_isSelected, setPos_parentIsSelected]

/-- Moving an item does not change the answer of `itemShouldBeMoved`. -/
theorem setPos_itemShouldBeMoved (T : ItemTypes) (S : UBGraphicsScene) (m : ItemId)
    (p : QPointF) (tool : UBStylusTool) (V : UBBoardView) (x : Option ItemId) :
    itemShouldBeMoved T (setPos S m p) tool V x = itemShouldBeMoved T S tool V x := by
  cases x with
  | none => rfl
  | some i =>
    simp only [itemShouldBeMoved, setPos_backgroundObject, setPos_movingItemGuard, setPos_type,
      setPos_isSelected]

/-- Moving an item does not change the move resolution. -/
theorem setPos_determineItemToMove (T : ItemTypes) (S : UBGraphicsScene) (m : ItemId)
    (p : QPointF) (tool : UBStylusTool) :
    ∀ (fuel : Nat) (x : Option ItemId),
      determineItemToMove T (setPos S m p) tool fuel x = determineItemToMove T S tool fuel x := by
  intro fuel
  induction fuel with
  | zero =>
    intro x
    cases x <;> rfl
  | succ f ih =>
    intro x
    cases x with
    | none => rfl
    | some i =>
      simp only [determineItemToMove, setPos_type, setPos_isSelected, setPos_parentItem,
        setPos_parentHasType, setPos_parentIsSelected, ih]

/-- The answer of `itemShouldBeMoved` depends on the view only through the
pressed flags and the moving item. -/
theorem itemShouldBeMoved_congr_view (T : ItemTypes) (S : UBGraphicsScene)
    (tool : UBStylusTool) (V V' : UBBoardView) (x : Option ItemId)
    (h1 : V'.mMouseButtonIsPressed = V.mMouseButtonIsPressed)
    (h2 : V'.mTabletStylusIsPressed = V.mTabletStylusIsPressed)
    (h3 : V'.movingItem = V.movingItem) :
    itemShouldBeMoved T S tool V' x = itemShouldBeMoved T S tool V x := by
  cases x with
  | none => rfl
  | some i =>
    have hg : movingItemGuard T S V' = movingItemGuard T S V := by
      unfold movingItemGuard; rw [h3]
    simp only [itemShouldBeMoved, h1, h2, hg]


/-- One drag step of `handleItemMouseMove` on a movable mover `m`: the handler
returns, the item is at its old position plus the pointer delta since the
reference point plus the snap offset, the reference point is the pointer
position plus the snap offset, and the step leaves the board ready for the next
one. -/
theorem handleItemMouseMove_drag_step (T : ItemTypes) (X : Collaborators) (fuel : Nat)
    (B : Board) (m : ItemId) (e : QMouseEvent)
    (hm : B.view.movingItem = some m)
    (hstable : determineItemToMove T B.scene B.stylusTool fuel (some m) = some (some m))
    (hmove : itemShouldBeMoved T B.scene B.stylusTool B.view (some m) = true)
    (hpressed : B.view.pointerIsPressed = true) :
    ∃ B1, handleItemMouseMove T X fuel B e = some B1
      ∧ (B1.scene.item m).pos
          = (B.scene.item m).pos + X.mapToScene e.pos - B.view.mLastPressedMousePos
            + dragSnapOffset X B m e
      ∧ B1.view.mLastPressedMousePos = X.mapToScene e.pos + dragSnapOffset X B m e
      ∧ B1.view.mWidgetMoved = true
      ∧ B1.view.movingItem = some m
      ∧ determineItemToMove T B1.scene B1.stylusTool fuel (some m) = some (some m)
      ∧ itemShouldBeMoved T B1.scene B1.stylusTool B1.view (some m) = true
      ∧ B1.view.pointerIsPressed = true := by
  have hB1 : B.setMovingItem (some m) = B := by
    rw [← hm]; rfl
  have hcond : (itemShouldBeMoved T B.scene B.stylusTool B.view (some m)
      && B.view.pointerIsPressed) = true := by
    rw [hmove, hpressed]; rfl
  unfold handleItemMouseMove
  rw [hm, hstable]
  simp only [hB1]
  rw [hm]
  simp only
  rw [if_pos hcond]
  unfold dragSnapOffset
  by_cases hs : X.isSnapping (setPos B.scene m
      ((B.scene.item m).pos + X.mapToScene e.pos - B.view.mLastPressedMousePos)) = true
  · simp only [if_pos hs]
    refine ⟨_, rfl, ?_, rfl, rfl, rfl, ?_, ?_, hpressed⟩
    · simp only [Board.log_scene, Board.withView_scene, Board.withScene_scene, setPos_pos_self]
    · simp only [Board.log_scene, Board.withView_scene, Board.withScene_scene,
        Board.log_stylusTool, Board.withView_stylusTool, Board.withScene_stylusTool,
        setPos_determineItemToMove]
      exact hstable
    · simp only [Board.log_scene, Board.withView_scene, Board.withScene_scene,
        Board.log_stylusTool, Board.withView_stylusTool, Board.withScene_stylusTool,
        Board.log_view, Board.withView_view, setPos_itemShouldBeMoved]
      refine Eq.trans
        (itemShouldBeMoved_congr_view T B.scene B.stylusTool B.view _ (some m) ?_ ?_ ?_) hmove
      · rfl
      · rfl
      · exact hm.symm
  · simp only [if_neg hs]
    refine ⟨_, rfl, ?_, ?_, rfl, rfl, ?_, ?_, hpressed⟩
    · simp only [Board.log_scene, Board.withView_scene, Board.withScene_scene, setPos_pos_self]
      rw [QPointF.eq_iff]
      simp only [QPointF.add_x, QPointF.add_y, QPointF.sub_x, QPointF.sub_y]
      constructor <;> omega
    · simp only [Board.log_view, Board.withView_view]
      rw [QPointF.eq_iff]
      simp only [QPointF.add_x, QPointF.add_y]
      constructor <;> omega
    · simp only [Board.log_scene, Board.withView_scene, Board.withScene_scene,
        Board.log_stylusTool, Board.withView_stylusTool, Board.withScene_stylusTool,
        setPos_determineItemToMove]
      exact hstable
    · simp only [Board.log_scene, Board.withView_scene, Board.withScene_scene,
        Board.log_stylusTool, Board.withView_stylusTool, Board.withScene_stylusTool,
        Board.log_view, Board.withView_view, setPos_itemShouldBeMoved]
      refine Eq.trans
        (itemShouldBeMoved_congr_view T B.scene B.stylusTool B.view _ (some m) ?_ ?_ ?_) hmove
      · rfl
      · rfl
      · exact hm.symm

/-- Drag steps over a list extended by one event: the steps over the list, then
one more step. -/
theorem dragSteps_append_singleton (T : ItemTypes) (X : Collaborators) (fuel : Nat) :
    ∀ (es : List QMouseEvent) (B : Board) (e : QMouseEvent),
      dragSteps T X fuel B (es ++ [e])
        = (dragSteps T X fuel B es).bind (fun B1 => handleItemMouseMove T X fuel B1 e) := by
  intro es
  induction es with
  | nil =>
    intro B e
    simp only [List.nil_append, dragSteps, Option.some_bind]
    cases handleItemMouseMove T X fuel B e <;> rfl
  | cons a rest ih =>
    intro B e
    simp only [List.cons_append, dragSteps]
    cases handleItemMouseMove T X fuel B a with
    | none => rfl
    | some B1 => exact ih B1 e

/-- A sequence of drag steps on a movable mover returns, keeps the board ready
for a further step, and keeps the difference between the item position and the
reference point. -/
theorem dragSteps_invariant (T : ItemTypes) (X : Collaborators) (fuel : Nat) (m : ItemId) :
    ∀ (es : List QMouseEvent) (B : Board),
      B.view.movingItem = some m →
      determineItemToMove T B.scene B.stylusTool fuel (some m) = some (some m) →
      itemShouldBeMoved T B.scene B.stylusTool B.view (some m) = true →
      B.view.pointerIsPressed = true →
      ∃ B1, dragSteps T X fuel B es = some B1
        ∧ B1.view.movingItem = some m
        ∧ determineItemToMove T B1.scene B1.stylusTool fuel (some m) = some (some m)
        ∧ itemShouldBeMoved T B1.scene B1.stylusTool B1.view (some m) = true
        ∧ B1.view.pointerIsPressed = true
        ∧ (B1.scene.item m).pos - B1.view.mLastPressedMousePos
            = (B.scene.item m).pos - B.view.mLastPressedMousePos := by
  intro es
  induction es with
  | nil =>
    intro B hm hstable hmove hpressed
    exact ⟨B, rfl, hm, hstable, hmove, hpressed, rfl⟩
  | cons a rest ih =>
    intro B hm hstable hmove hpressed
    obtain ⟨B1, h1, hpos, href, _, hm1, hstable1, hmove1, hpressed1⟩ :=
      handleItemMouseMove_drag_step T X fuel B m a hm hstable hmove hpressed
    obtain ⟨B2, h2, hm2, hstable2, hmove2, hpressed2, hinv⟩ :=
      ih B1 hm1 hstable1 hmove1 hpressed1
    refine ⟨B2, ?_, hm2, hstable2, hmove2, hpressed2, ?_⟩
    · simp only [dragSteps, h1]
      exact h2
    · rw [hinv, hpos, href, QPointF.eq_iff]
      simp only [QPointF.add_x, QPointF.add_y, QPointF.sub_x, QPointF.sub_y]
      constructor <;> omega

/-! ## Lemmas on a click on a text item inside a selected group -/

/-- An item whose parent is a selected group container is pressed itself. -/
theorem determineItemToPress_in_selected_group (T : ItemTypes) (S : UBGraphicsScene)
    (tool : UBStylusTool) (fuel : Nat) (t g : ItemId)
    (hparent : (S.item t).parentItem = some g)
    (hgtype : (S.item g).type = T.GroupContainer)
    (hgsel : (S.item g).isSelected = true)
    (hne : T.GroupContainer ≠ T.StrokesGroup)
    (hfuel : 0 < fuel) :
    determineItemToPress T S tool fuel (some t) = some (some t) := by
  obtain ⟨f, rfl⟩ : ∃ f, fuel = f + 1 := ⟨fuel - 1, by omega⟩
  have h1 : parentIsSelected S t = true :=
    (parentIsSelected_of_parent S t g hparent).trans hgsel
  have h2 : parentHasType S t T.StrokesGroup = false := by
    unfold parentHasType
    rw [hparent]
    simp only [hgtype, decide_eq_false_iff_not]
    exact hne
  rw [determineItemToPress, if_neg (by rw [h1]; simp), if_neg (by rw [h2]; simp)]

/-- Under the Selector tool a text item whose parent is selected receives the
press at once, and the view is left as it is. -/
theorem press_text_parent_selected (T : ItemTypes) (S : UBGraphicsScene) (V : UBBoardView)
    (t : ItemId) (hlabels : T.pressCaseLabels.Nodup)
    (hbg : S.backgroundObject ≠ some t)
    (htype : (S.item t).type = T.Text)
    (hsel : parentIsSelected S t = true) :
    itemShouldReceiveMousePressEvent T S UBStylusTool.Selector V (some t) = (true, V) := by
  have hbg2 := some_ne_background S t hbg
  have hx := ne_of_nodup_eraseIdx _ hlabels 13 T.Text rfl
  simp only [ItemTypes.pressCaseLabels, List.eraseIdx, List.forall_mem_cons] at hx
  simp only [itemShouldReceiveMousePressEvent, if_neg hbg2, htype, hsel]
  simp only [hx, or_false, false_or, if_false, if_true, ne_eq, not_false_eq_true,
    and_self, and_true, List.not_mem_nil, false_implies, implies_true, reduceCtorEq, true_and]
  split_ifs <;> rfl


/-- The effects recorded by the commit of the undo step. -/
theorem commitUndoStepOfMovingItem_effects (X : Collaborators) (B : Board) (m : ItemId)
    (hmover : B.view.movingItem = some m) :
    (commitUndoStepOfMovingItem X B).effects
      = B.effects ++ (if X.isUBGraphicsItem B.scene m = true then [Effect.commitUndoStep m]
          else []) := by
  unfold commitUndoStepOfMovingItem
  rw [hmover]
  by_cases h : X.isUBGraphicsItem B.scene m = true
  · simp only [if_pos h]; rfl
  · simp only [if_neg h, List.append_nil]

/-- An item without parent that is no widget under the Play tool is its own
mover. -/
theorem determineItemToMove_root (T : ItemTypes) (S : UBGraphicsScene) (tool : UBStylusTool)
    (item : ItemId) (hp : (S.item item).parentItem = none) (f : Nat) :
    determineItemToMove T S tool (f + 1) (some item) = some (some item) := by
  simp [determineItemToMove, parentHasType_of_root S item _ hp]

/-- On a parent chain of at most `n` links whose group containers have no
parent, the move resolution returns, for every call bound above `n`, one fixed
result, and the move resolution of that result is the result itself. -/
theorem determineItemToMove_idem_chain (T : ItemTypes) (S : UBGraphicsScene)
    (tool : UBStylusTool) :
    ∀ (n : Nat) (item : ItemId), parentChainWithin S n item = true →
      (∀ a, IsAncestor S a item → (S.item a).type = T.GroupContainer →
        (S.item a).parentItem = none) →
      ∃ r, (∀ fuel, n < fuel → determineItemToMove T S tool fuel (some item) = some r)
        ∧ (∀ fuel, n < fuel → determineItemToMove T S tool fuel r = some r) := by
  intro n
  induction n with
  | zero =>
    intro item h _
    have hp : (S.item item).parentItem = none := by simpa [parentChainWithin] using h
    have hself : ∀ fuel, 0 < fuel →
        determineItemToMove T S tool fuel (some item) = some (some item) := by
      intro fuel hf
      obtain ⟨f, rfl, -⟩ := pos_fuel_eq_succ 0 fuel hf
      exact determineItemToMove_root T S tool item hp f
    exact ⟨some item, hself, hself⟩
  | succ n ih =>
    intro item h htop
    cases hp : (S.item item).parentItem with
    | none =>
      have hself : ∀ fuel, n + 1 < fuel →
          determineItemToMove T S tool fuel (some item) = some (some item) := by
        intro fuel hf
        obtain ⟨f, rfl, -⟩ := pos_fuel_eq_succ (n + 1) fuel hf
        exact determineItemToMove_root T S tool item hp f
      exact ⟨some item, hself, hself⟩
    | some p =>
      have hc : parentChainWithin S n p = true := by
        simpa [parentChainWithin, hp] using h
      have hnone : ∀ fuel, determineItemToMove T S tool fuel none = some none := by
        intro fuel; cases fuel <;> rfl
      by_cases h0 : tool = UBStylusTool.Play ∧ (S.item item).type = T.Widget
      · have hself : ∀ fuel, n + 1 < fuel →
            determineItemToMove T S tool fuel (some item) = some (some item) := by
          intro fuel hf
          obtain ⟨f, rfl, -⟩ := pos_fuel_eq_succ (n + 1) fuel hf
          rw [determineItemToMove, if_pos h0]
        exact ⟨some item, hself, hself⟩
      by_cases h1 : parentHasType S item T.GroupContainer = true
      · have hptype : (S.item p).type = T.GroupContainer := by
          simpa [parentHasType_of_parent S item p _ hp] using h1
        have hproot : (S.item p).parentItem = none :=
          htop p (Relation.TransGen.single hp) hptype
        have hparent : ∀ fuel, n + 1 < fuel →
            determineItemToMove T S tool fuel (some p) = some (some p) := by
          intro fuel hf
          obtain ⟨f, rfl, -⟩ := pos_fuel_eq_succ (n + 1) fuel hf
          exact determineItemToMove_root T S tool p hproot f
        by_cases a1 : tool = UBStylusTool.Play ∧ parentIsSelected S item = true
        · refine ⟨some p, ?_, hparent⟩
          intro fuel hf
          obtain ⟨f, rfl, -⟩ := pos_fuel_eq_succ (n + 1) fuel hf
          rw [determineItemToMove, if_neg h0, if_pos h1, if_pos a1, hp]
        by_cases a2 : (S.item item).type = T.StrokesGroup
        · refine ⟨some p, ?_, hparent⟩
          intro fuel hf
          obtain ⟨f, rfl, -⟩ := pos_fuel_eq_succ (n + 1) fuel hf
          rw [determineItemToMove, if_neg h0, if_pos h1, if_neg a1, if_pos a2, hp]
        by_cases a3 : parentIsSelected S item = true
        · have hself : ∀ fuel, n + 1 < fuel →
              determineItemToMove T S tool fuel (some item) = some (some item) := by
            intro fuel hf
            obtain ⟨f, rfl, -⟩ := pos_fuel_eq_succ (n + 1) fuel hf
            rw [determineItemToMove, if_neg h0, if_pos h1, if_neg a1, if_neg a2, if_pos a3]
          exact ⟨some item, hself, hself⟩
        by_cases a4 : (S.item item).isSelected = true
        · refine ⟨none, ?_, fun fuel _ => hnone fuel⟩
          intro fuel hf
          obtain ⟨f, rfl, -⟩ := pos_fuel_eq_succ (n + 1) fuel hf
          rw [determineItemToMove, if_neg h0, if_pos h1, if_neg a1, if_neg a2, if_neg a3,
            if_pos a4]
        · refine ⟨some p, ?_, hparent⟩
          intro fuel hf
          obtain ⟨f, rfl, -⟩ := pos_fuel_eq_succ (n + 1) fuel hf
          rw [determineItemToMove, if_neg h0, if_pos h1, if_neg a1, if_neg a2, if_neg a3,
            if_neg a4, hp]
      by_cases h2 : parentHasType S item T.StrokesGroup = true
      · obtain ⟨r, hr1, hr2⟩ := ih p hc
          (fun a ha => htop a (Relation.TransGen.tail ha hp))
        refine ⟨r, ?_, fun fuel hf => hr2 fuel (by omega)⟩
        intro fuel hf
        obtain ⟨f, rfl, hle⟩ := pos_fuel_eq_succ (n + 1) fuel hf
        rw [determineItemToMove, if_neg h0, if_neg h1, if_pos h2, hp]
        exact hr1 f (by omega)
      · have hself : ∀ fuel, n + 1 < fuel →
            determineItemToMove T S tool fuel (some item) = some (some item) := by
          intro fuel hf
          obtain ⟨f, rfl, -⟩ := pos_fuel_eq_succ (n + 1) fuel hf
          rw [determineItemToMove, if_neg h0, if_neg h1, if_neg h2]
        exact ⟨some item, hself, hself⟩


/-! ## Lemmas on the suspended press -/

/-- Deselecting all items but one leaves the suspension eligibility of that one
as it was. -/
theorem suspended_deselectAllItemsExcept (T : ItemTypes) (S : UBGraphicsScene)
    (tool : UBStylusTool) (item : ItemId) :
    itemShouldReceiveSuspendedMousePressEvent T (deselectAllItemsExcept S item) tool
        (some item)
      = itemShouldReceiveSuspendedMousePressEvent T S tool (some item) := by
  simp only [itemShouldReceiveSuspendedMousePressEvent, deselectAllItemsExcept, if_true]

/-- The selection step of a press either changes nothing or deselects all
items but the pressed one and updates the selection frame. -/
theorem handleItemsSelection_cases (T : ItemTypes) (B : Board) (item : ItemId) :
    handleItemsSelection T B (some item) = B
      ∨ handleItemsSelection T B (some item)
          = (B.withScene (deselectAllItemsExcept B.scene item)).log
              Effect.updateSelectionFrame := by
  unfold handleItemsSelection
  dsimp only
  split_ifs <;> first | exact Or.inl rfl | exact Or.inr rfl

/-- The selection step of a press changes neither the view nor the tool,
leaves the suspension eligibility of the item as it was, and passes no press to
the base class. -/
theorem handleItemsSelection_keeps (T : ItemTypes) (B : Board) (x : Option ItemId) :
    (handleItemsSelection T B x).view = B.view
      ∧ (handleItemsSelection T B x).stylusTool = B.stylusTool
      ∧ itemShouldReceiveSuspendedMousePressEvent T (handleItemsSelection T B x).scene
          B.stylusTool x
        = itemShouldReceiveSuspendedMousePressEvent T B.scene B.stylusTool x
      ∧ (∀ e, Effect.viewMousePressEvent e ∈ (handleItemsSelection T B x).effects →
          Effect.viewMousePressEvent e ∈ B.effects) := by
  cases x with
  | none => exact ⟨rfl, rfl, rfl, fun _ h => h⟩
  | some item =>
    have h := handleItemsSelection_cases T B item
    rcases h with h | h
    · rw [h]; exact ⟨rfl, rfl, rfl, fun _ h => h⟩
    · rw [h]
      refine ⟨rfl, rfl, suspended_deselectAllItemsExcept T B.scene B.stylusTool item, ?_⟩
      intro e hmem
      simp only [Board.log_effects, Board.withScene_effects, List.mem_append,
        List.mem_singleton, reduceCtorEq, or_false] at hmem
      exact hmem

/-- When `itemShouldReceiveMousePressEvent` answers false it leaves the view as
it is. -/
theorem press_refused_keeps_view (T : ItemTypes) (S : UBGraphicsScene) (tool : UBStylusTool)
    (V : UBBoardView) (x : Option ItemId)
    (h : (itemShouldReceiveMousePressEvent T S tool V x).1 = false) :
    (itemShouldReceiveMousePressEvent T S tool V x).2 = V := by
  cases x with
  | none => rfl
  | some item =>
    revert h
    exact press_cases T S tool V item (fun r => r.1 = false → r.2 = V)
      (fun _ _ => rfl) (fun _ _ h => by cases h)

/-! ## Lemmas on the release under the Selector tool -/

/-- The scene after the selection toggle of the release handlers. -/
theorem releaseToggleSelection_scene (B : Board) (m : ItemId) :
    (releaseToggleSelection B m).1.scene
      = (if (B.scene.item m).isSelected = true ∧ B.view.mMultipleSelectionIsEnabled = true then
          setSelected B.scene m false
        else
          match (if parentIsSelected B.scene m = true
              ∧ B.view.mMultipleSelectionIsEnabled = true
              then (B.scene.item m).parentItem else none) with
          | some p => setSelected B.scene p false
          | none => setSelected B.scene m true) := by
  unfold releaseToggleSelection
  by_cases h1 : (B.scene.item m).isSelected = true ∧ B.view.mMultipleSelectionIsEnabled = true
  · rw [if_pos h1, if_pos h1]; rfl
  · rw [if_neg h1, if_neg h1]
    cases (if parentIsSelected B.scene m = true ∧ B.view.mMultipleSelectionIsEnabled = true
        then (B.scene.item m).parentItem else none) <;> rfl

/-- The selection toggle of the release handlers changes the scene only. -/
theorem releaseToggleSelection_rest (B : Board) (m : ItemId) :
    (releaseToggleSelection B m).1.view = B.view
      ∧ (releaseToggleSelection B m).1.stylusTool = B.stylusTool
      ∧ (releaseToggleSelection B m).1.effects = B.effects := by
  unfold releaseToggleSelection
  by_cases h1 : (B.scene.item m).isSelected = true ∧ B.view.mMultipleSelectionIsEnabled = true
  · rw [if_pos h1]; exact ⟨rfl, rfl, rfl⟩
  · rw [if_neg h1]
    cases (if parentIsSelected B.scene m = true ∧ B.view.mMultipleSelectionIsEnabled = true
        then (B.scene.item m).parentItem else none) <;> exact ⟨rfl, rfl, rfl⟩

/-- The Selector branch of a release over the same press-resolved moving item
`m`, with no completed drag and no suspended press, where `m` passes the tests
before the selection toggle: the toggle runs, then the base class gets the
release when the toggle asks for it, and the end of the handler is reached. -/
theorem releaseSelector_same_mover (T : ItemTypes) (X : Collaborators) (fuel : Nat)
    (B : Board) (event : QMouseEvent) (m : ItemId)
    (hdesk : B.view.bIsDesktop = false)
    (hmover : B.view.movingItem = some m)
    (hsuspended : B.view.suspendedMousePressEvent = none)
    (hmoved : B.view.mWidgetMoved = false)
    (hdet : determineItemToPress T B.scene B.stylusTool fuel
      (X.itemAt B.scene (X.mapToScene event.pos)) = some (some m))
    (htool : (!isCppTool T B.scene m || decide ((B.scene.item m).type = T.Curtain)) = true)
    (htests : (isUBItem T B.scene m
      && decide ((B.scene.item m).type ≠ T.DelegateButton)
      && decide ((B.scene.item m).type ≠ T.DelegateFrame)
      && decide ((B.scene.item m).type ≠ T.Cache)
      && notWidgetInGroupSingleSelection T B m) = true) :
    releaseSelector T X fuel B event
      = some ((if (releaseToggleSelection (commitUndoStepOfMovingItem X B) m).2 = true then
          (releaseToggleSelection (commitUndoStepOfMovingItem X B) m).1.callViewMouseReleaseEvent
            X event
        else (releaseToggleSelection (commitUndoStepOfMovingItem X B) m).1), true) := by
  have hw : notWidgetInGroupSingleSelection T (commitUndoStepOfMovingItem X B) m
      = notWidgetInGroupSingleSelection T B m := by
    unfold notWidgetInGroupSingleSelection
    rw [commitUndoStepOfMovingItem_view, commitUndoStepOfMovingItem_scene]
  unfold releaseSelector
  rw [if_neg (by rw [hdesk]; decide)]
  simp only [commitUndoStepOfMovingItem_scene, commitUndoStepOfMovingItem_stylusTool,
    commitUndoStepOfMovingItem_view, hdet, hmover, ne_eq, not_true_eq_false,
    decide_False, Bool.false_eq_true, if_false, hmoved, htool, if_true, hsuspended, hw, htests]


/-- The scene after a release under the Selector tool that reaches the
selection toggle, when the base class leaves the board as it is. -/
theorem mouseReleaseEvent_toggle_scene (T : ItemTypes) (X : Collaborators) (fuel : Nat)
    (B : Board) (event : QMouseEvent) (m : ItemId)
    (hsel : B.stylusTool = UBStylusTool.Selector)
    (hdesk : B.view.bIsDesktop = false)
    (hmover : B.view.movingItem = some m)
    (hsuspended : B.view.suspendedMousePressEvent = none)
    (hmoved : B.view.mWidgetMoved = false)
    (hdet : determineItemToPress T B.scene B.stylusTool fuel
      (X.itemAt B.scene (X.mapToScene event.pos)) = some (some m))
    (htool : (!isCppTool T B.scene m || decide ((B.scene.item m).type = T.Curtain)) = true)
    (htests : (isUBItem T B.scene m
      && decide ((B.scene.item m).type ≠ T.DelegateButton)
      && decide ((B.scene.item m).type ≠ T.DelegateFrame)
      && decide ((B.scene.item m).type ≠ T.Cache)
      && notWidgetInGroupSingleSelection T B m) = true)
    (hbase : ∀ B' e, X.viewMouseReleaseEvent B' e = B') :
    ∃ B', mouseReleaseEvent T X fuel B event = some B'
      ∧ B'.scene
        = (if (B.scene.item m).isSelected = true ∧ B.view.mMultipleSelectionIsEnabled = true
          then setSelected B.scene m false
          else
            match (if parentIsSelected B.scene m = true
                ∧ B.view.mMultipleSelectionIsEnabled = true
                then (B.scene.item m).parentItem else none) with
            | some p => setSelected B.scene p false
            | none => setSelected B.scene m true)
      ∧ (∀ e, Effect.viewMousePressEvent e ∈ B'.effects →
          Effect.viewMousePressEvent e ∈ B.effects) := by
  have hrel := releaseSelector_same_mover T X fuel
    ((B.log (Effect.setToolCursor B.stylusTool)).log Effect.inputDeviceRelease) event m
    hdesk hmover hsuspended hmoved hdet htool htests
  have hsc := releaseToggleSelection_scene (commitUndoStepOfMovingItem X
    ((B.log (Effect.setToolCursor B.stylusTool)).log Effect.inputDeviceRelease)) m
  obtain ⟨r1, _, r3⟩ := releaseToggleSelection_rest (commitUndoStepOfMovingItem X
    ((B.log (Effect.setToolCursor B.stylusTool)).log Effect.inputDeviceRelease)) m
  have heff := commitUndoStepOfMovingItem_effects X
    ((B.log (Effect.setToolCursor B.stylusTool)).log Effect.inputDeviceRelease) m hmover
  simp only [commitUndoStepOfMovingItem_scene, commitUndoStepOfMovingItem_view, Board.log_scene,
    Board.log_view] at hsc
  unfold mouseReleaseEvent
  simp only [hrel]
  rw [hsel]
  simp only [if_true]
  rw [hsel] at hsc r3 heff
  refine ⟨_, rfl, ?_, ?_⟩
  · rw [← hsc]
    by_cases hb : (releaseToggleSelection (commitUndoStepOfMovingItem X
        ((B.log (Effect.setToolCursor UBStylusTool.Selector)).log Effect.inputDeviceRelease))
        m).2 = true
    · rw [if_pos hb]
      simp only [releaseTeardown, Board.log_scene, Board.withView_scene,
        Board.callViewMouseReleaseEvent, hbase]
    · rw [if_neg hb]
      simp only [releaseTeardown, Board.log_scene, Board.withView_scene]
  · intro e hmem
    by_cases hb : (releaseToggleSelection (commitUndoStepOfMovingItem X
        ((B.log (Effect.setToolCursor UBStylusTool.Selector)).log Effect.inputDeviceRelease))
        m).2 = true
    · rw [if_pos hb] at hmem
      simp only [releaseTeardown, Board.log_effects, Board.withView_effects,
        Board.callViewMouseReleaseEvent, hbase, r3, heff, List.mem_append, List.mem_singleton,
        reduceCtorEq, or_false, Board.log_scene] at hmem
      rcases hmem with hmem | hmem
      · exact hmem
      · split_ifs at hmem <;> simp at hmem
    · rw [if_neg hb] at hmem
      simp only [releaseTeardown, Board.log_effects, Board.withView_effects, r3, heff,
        List.mem_append, List.mem_singleton, reduceCtorEq, or_false, Board.log_scene] at hmem
      rcases hmem with hmem | hmem
      · exact hmem
      · split_ifs at hmem <;> simp at hmem

/-- The Selector branch of a release whose resolved item under the pointer is
not the moving item: the moving item is cleared after the commit of the undo
step; after a completed drag the flag `mWidgetMoved` is reset and the
base class is not called, otherwise the base class gets the release; the end of the
handler is reached. -/
theorem releaseSelector_other_item (T : ItemTypes) (X : Collaborators) (fuel : Nat)
    (B : Board) (event : QMouseEvent) (under : Option ItemId)
    (hdesk : B.view.bIsDesktop = false)
    (hdet : determineItemToPress T B.scene B.stylusTool fuel
      (X.itemAt B.scene (X.mapToScene event.pos)) = some under)
    (hne : B.view.movingItem ≠ under) :
    releaseSelector T X fuel B event
      = some ((if B.view.mWidgetMoved = true then
          ((commitUndoStepOfMovingItem X B).setMovingItem none).withView
            { ((commitUndoStepOfMovingItem X B).setMovingItem none).view with
              mWidgetMoved := false, movingItem := none }
        else ((commitUndoStepOfMovingItem X B).setMovingItem none).callViewMouseReleaseEvent
          X event), true) := by
  unfold releaseSelector
  rw [if_neg (by rw [hdesk]; decide)]
  simp only [commitUndoStepOfMovingItem_scene, commitUndoStepOfMovingItem_stylusTool,
    commitUndoStepOfMovingItem_view, hdet, ne_eq, hne, not_false_eq_true, decide_True,
    if_true, Board.setMovingItem_view, Bool.not_true]
  by_cases hm : B.view.mWidgetMoved = true
  · simp only [hm, if_true, Bool.false_eq_true, if_false]
  · simp only [hm, Bool.false_eq_true, if_false, if_true]

/-! ## Lemmas on the rubber-band update -/

/-- A scene holds the same items as itself. -/
theorem SameItemsButSelection.refl (S : UBGraphicsScene) : SameItemsButSelection S S :=
  ⟨rfl, fun _ => ⟨rfl, rfl, rfl, rfl⟩⟩

/-- Holding the same items up to the selection flags is transitive. -/
theorem SameItemsButSelection.trans {S1 S2 S3 : UBGraphicsScene}
    (h12 : SameItemsButSelection S1 S2) (h23 : SameItemsButSelection S2 S3) :
    SameItemsButSelection S1 S3 :=
  ⟨h23.1.trans h12.1, fun i =>
    ⟨(h23.2 i).1.trans (h12.2 i).1, (h23.2 i).2.1.trans (h12.2 i).2.1,
      (h23.2 i).2.2.1.trans (h12.2 i).2.2.1, (h23.2 i).2.2.2.trans (h12.2 i).2.2.2⟩⟩

/-- Setting a selection flag keeps the items up to the selection flags. -/
theorem SameItemsButSelection.of_setSelected (S : UBGraphicsScene) (item : ItemId) (b : Bool) :
    SameItemsButSelection S (setSelected S item b) := by
  refine ⟨rfl, fun i => ?_⟩
  unfold OpenBoard.setSelected
  dsimp only
  by_cases h : i = item
  · rw [if_pos h]; exact ⟨rfl, rfl, rfl, rfl⟩
  · rw [if_neg h]; exact ⟨rfl, rfl, rfl, rfl⟩

/-- The selection flags after `setSelected`. -/
theorem setSelected_isSelected (S : UBGraphicsScene) (item i : ItemId) (b : Bool) :
    ((setSelected S item b).item i).isSelected
      = if i = item then b else (S.item i).isSelected := by
  unfold setSelected
  dsimp only
  by_cases h : i = item
  · rw [if_pos h, if_pos h]
  · rw [if_neg h, if_neg h]

/-- The target of an item is the same in scenes that hold the same items. -/
theorem rubberTarget_same (T : ItemTypes) {S S' : UBGraphicsScene}
    (h : SameItemsButSelection S S') (i : ItemId) :
    rubberTarget T S' i = rubberTarget T S i := by
  unfold rubberTarget
  rw [(h.2 i).1, (h.2 i).2.1]

/-- The type test gives the same answer in scenes that hold the same items. -/
theorem rubberEligible_same (T : ItemTypes) {S S' : UBGraphicsScene}
    (h : SameItemsButSelection S S') (i : ItemId) :
    rubberEligible T S' i = rubberEligible T S i := by
  unfold rubberEligible
  rw [(h.2 i).1]


/-- The first loop of the rubber-band update over a list `L` of tracked items:
the items stay the same up to the selection flags, the press point is kept, the
items of `L` outside the band are deselected and no longer tracked, and the
tracked items stay without duplicates. -/
theorem rubberDeselect_fold (R : List ItemId) :
    ∀ (L : List ItemId) (A : Board), A.view.mJustSelectedItems.Nodup →
      SameItemsButSelection A.scene (L.foldl (rubberDeselectStep R) A).scene
        ∧ (L.foldl (rubberDeselectStep R) A).view.mMouseDownPos = A.view.mMouseDownPos
        ∧ (∀ i, ((L.foldl (rubberDeselectStep R) A).scene.item i).isSelected
            = if i ∈ L ∧ i ∉ R then false else (A.scene.item i).isSelected)
        ∧ (∀ i, i ∈ (L.foldl (rubberDeselectStep R) A).view.mJustSelectedItems
            ↔ i ∈ A.view.mJustSelectedItems ∧ ¬ (i ∈ L ∧ i ∉ R))
        ∧ (L.foldl (rubberDeselectStep R) A).view.mJustSelectedItems.Nodup := by
  intro L
  induction L with
  | nil =>
    intro A hnd
    refine ⟨SameItemsButSelection.refl _, rfl, fun i => ?_, fun i => ?_, hnd⟩
    · simp
    · simp
  | cons a L ih =>
    intro A hnd
    rw [List.foldl_cons]
    by_cases ha : R.contains a = false
    · have hstep : rubberDeselectStep R A a
          = (A.withScene (setSelected A.scene a false)).withView
              { A.view with mJustSelectedItems := A.view.mJustSelectedItems.erase a } := by
        unfold rubberDeselectStep; rw [if_pos ha]
      have haR : a ∉ R := by simpa using ha
      rw [hstep]
      obtain ⟨h1, h2, h3, h4, h5⟩ := ih
        ((A.withScene (setSelected A.scene a false)).withView
          { A.view with mJustSelectedItems := A.view.mJustSelectedItems.erase a })
        (hnd.erase a)
      refine ⟨(SameItemsButSelection.of_setSelected A.scene a false).trans h1, h2, ?_, ?_, h5⟩
      · intro i
        rw [h3 i]
        simp only [Board.withView_scene, Board.withScene_scene, setSelected_isSelected,
          List.mem_cons]
        by_cases hia : i = a
        · subst hia
          simp [haR]
        · simp [hia]
      · intro i
        rw [h4 i]
        simp only [Board.withView_view, List.mem_cons, hnd.mem_erase_iff]
        by_cases hia : i = a
        · subst hia
          simp [haR]
        · simp [hia]
    · have hstep : rubberDeselectStep R A a = A := by
        unfold rubberDeselectStep; rw [if_neg ha]
      have haR : a ∈ R := by simpa using ha
      rw [hstep]
      obtain ⟨h1, h2, h3, h4, h5⟩ := ih A hnd
      refine ⟨h1, h2, ?_, ?_, h5⟩
      · intro i
        rw [h3 i]
        simp only [List.mem_cons]
        by_cases hia : i = a
        · subst hia
          simp [haR]
        · simp [hia]
      · intro i
        rw [h4 i]
        simp only [List.mem_cons]
        by_cases hia : i = a
        · subst hia
          simp [haR]
        · simp [hia]

/-- One step of the second loop, in terms of the target and the type test. -/
theorem rubberSelectStep_eq (T : ItemTypes) (A : Board) (item0 : ItemId) :
    rubberSelectStep T A item0
      = if rubberEligible T A.scene (rubberTarget T A.scene item0) = true
            ∧ rubberTarget T A.scene item0 ∉ A.view.mJustSelectedItems then
          (A.withScene (setSelected A.scene (rubberTarget T A.scene item0) true)).withView
            { A.view with
              mJustSelectedItems := rubberTarget T A.scene item0 :: A.view.mJustSelectedItems }
        else A := by
  unfold rubberSelectStep
  dsimp only
  have ht : (match (A.scene.item item0).parentItem with
      | some p => if (A.scene.item item0).type = T.PolygonItemType then p else item0
      | none => item0) = rubberTarget T A.scene item0 := rfl
  rw [ht]
  by_cases he : rubberEligible T A.scene (rubberTarget T A.scene item0) = true
  · have he2 := he
    unfold rubberEligible at he2
    rw [decide_eq_true_eq] at he2
    rw [if_pos he2]
    by_cases hc : (A.view.mJustSelectedItems.contains (rubberTarget T A.scene item0)) = false
    · have hm : rubberTarget T A.scene item0 ∉ A.view.mJustSelectedItems := by simpa using hc
      rw [if_pos hc, if_pos ⟨he, hm⟩]
    · have hm : rubberTarget T A.scene item0 ∈ A.view.mJustSelectedItems := by simpa using hc
      rw [if_neg hc, if_neg (fun h => h.2 hm)]
  · have he2 := he
    unfold rubberEligible at he2
    rw [decide_eq_true_eq] at he2
    rw [if_neg he2, if_neg (fun h => he h.1)]

/-- The second loop of the rubber-band update over a list `L` of items of the
band, from a board whose scene holds the items of `S0`: the items stay the same
up to the selection flags, the press point is kept, the eligible targets of `L`
that were not tracked are selected, the tracked items are the old ones and the
eligible targets of `L`, and they stay without duplicates. -/
theorem rubberSelect_fold (T : ItemTypes) (S0 : UBGraphicsScene) :
    ∀ (L : List ItemId) (A : Board), SameItemsButSelection S0 A.scene →
      A.view.mJustSelectedItems.Nodup →
      SameItemsButSelection S0 (L.foldl (rubberSelectStep T) A).scene
        ∧ (L.foldl (rubberSelectStep T) A).view.mMouseDownPos = A.view.mMouseDownPos
        ∧ (∀ i, ((L.foldl (rubberSelectStep T) A).scene.item i).isSelected = true
            ↔ (A.scene.item i).isSelected = true
              ∨ (i ∈ (L.map (rubberTarget T S0)).filter (rubberEligible T S0)
                ∧ i ∉ A.view.mJustSelectedItems))
        ∧ (∀ i, i ∈ (L.foldl (rubberSelectStep T) A).view.mJustSelectedItems
            ↔ i ∈ A.view.mJustSelectedItems
              ∨ i ∈ (L.map (rubberTarget T S0)).filter (rubberEligible T S0))
        ∧ (L.foldl (rubberSelectStep T) A).view.mJustSelectedItems.Nodup := by
  intro L
  induction L with
  | nil =>
    intro A hsame hnd
    refine ⟨hsame, rfl, fun i => ?_, fun i => ?_, hnd⟩
    · simp
    · simp
  | cons a L ih =>
    intro A hsame hnd
    rw [List.foldl_cons, rubberSelectStep_eq, rubberTarget_same T hsame,
      rubberEligible_same T hsame]
    by_cases hc : rubberEligible T S0 (rubberTarget T S0 a) = true
        ∧ rubberTarget T S0 a ∉ A.view.mJustSelectedItems
    · rw [if_pos hc]
      obtain ⟨h1, h2, h3, h4, h5⟩ := ih
        ((A.withScene (setSelected A.scene (rubberTarget T S0 a) true)).withView
          { A.view with mJustSelectedItems := rubberTarget T S0 a :: A.view.mJustSelectedItems })
        (hsame.trans (SameItemsButSelection.of_setSelected A.scene _ true))
        (List.nodup_cons.mpr ⟨hc.2, hnd⟩)
      refine ⟨h1, h2, ?_, ?_, h5⟩
      · intro i
        rw [h3 i]
        simp only [Board.withView_scene, Board.withScene_scene, setSelected_isSelected,
          Board.withView_view, List.mem_cons, List.map_cons, List.mem_filter, List.mem_map]
        by_cases hia : i = rubberTarget T S0 a
        · subst hia
          simp [hc.1, hc.2]
        · simp [hia]
      · intro i
        rw [h4 i]
        simp only [Board.withView_view, List.mem_cons, List.map_cons, List.mem_filter,
          List.mem_map]
        by_cases hia : i = rubberTarget T S0 a
        · subst hia
          simp [hc.1]
        · simp [hia]
    · rw [if_neg hc]
      obtain ⟨h1, h2, h3, h4, h5⟩ := ih A hsame hnd
      refine ⟨h1, h2, ?_, ?_, h5⟩
      · intro i
        rw [h3 i]
        simp only [List.mem_cons, List.map_cons, List.mem_filter, List.mem_map]
        by_cases hia : i = rubberTarget T S0 a
        · subst hia
          by_cases he : rubberEligible T S0 (rubberTarget T S0 a) = true
          · have hm : rubberTarget T S0 a ∈ A.view.mJustSelectedItems := by
              by_contra hm; exact hc ⟨he, hm⟩
            simp [hm]
          · simp [he]
        · simp [hia]
      · intro i
        rw [h4 i]
        simp only [List.mem_cons, List.map_cons, List.mem_filter, List.mem_map]
        by_cases hia : i = rubberTarget T S0 a
        · subst hia
          by_cases he : rubberEligible T S0 (rubberTarget T S0 a) = true
          · have hm : rubberTarget T S0 a ∈ A.view.mJustSelectedItems := by
              by_contra hm; exact hc ⟨he, hm⟩
            simp [hm]
          · simp [he]
        · simp [hia]


/-- The rubber-band update under the Selector tool is the first loop over the
tracked items followed by the second loop over the items of the band. -/
theorem rubberBandSelect_eq (T : ItemTypes) (X : Collaborators) (A : Board)
    (e : QMouseEvent) :
    rubberBandSelect T X UBStylusTool.Selector A e
      = (X.itemsInRect
          (A.view.mJustSelectedItems.foldl
            (rubberDeselectStep (X.itemsInRect A.scene
              (QRect.normalizedOfPoints A.view.mMouseDownPos e.pos)))
            (A.withView { A.view with
              mUBRubberBand := some (QRect.normalizedOfPoints A.view.mMouseDownPos e.pos) })).scene
          (QRect.normalizedOfPoints A.view.mMouseDownPos e.pos)).foldl
          (rubberSelectStep T)
          (A.view.mJustSelectedItems.foldl
            (rubberDeselectStep (X.itemsInRect A.scene
              (QRect.normalizedOfPoints A.view.mMouseDownPos e.pos)))
            (A.withView { A.view with
              mUBRubberBand := some (QRect.normalizedOfPoints A.view.mMouseDownPos e.pos) })) := by
  unfold rubberBandSelect
  rw [if_pos rfl]
  rfl

/-- An item that passes the type test is its own target, the polygon tag not
being among the tags of the test. -/
theorem rubberTarget_of_eligible (T : ItemTypes) (S : UBGraphicsScene) (i : ItemId)
    (hpoly : T.PolygonItemType ∉ T.rubberTypes) (he : rubberEligible T S i = true) :
    rubberTarget T S i = i := by
  have hne : (S.item i).type ≠ T.PolygonItemType := by
    intro h
    apply hpoly
    unfold rubberEligible at he
    rw [decide_eq_true_eq, h] at he
    simp only [ItemTypes.rubberTypes, List.mem_cons, List.mem_singleton, List.not_mem_nil,
      or_false]
    exact he
  unfold rubberTarget
  cases (S.item i).parentItem with
  | none => rfl
  | some p => dsimp only; rw [if_neg hne]

/-- One rubber-band update keeps the agreement with the start of the gesture,
and afterwards the tracked items are the targets of the rectangle, when no
target of the rectangle was selected at the start. -/
theorem rubberBandSelect_step (T : ItemTypes) (X : Collaborators) (B0 A : Board)
    (e : QMouseEvent)
    (hpoly : T.PolygonItemType ∉ T.rubberTypes)
    (hitems : ∀ S S' r, SameItemsButSelection S S' → X.itemsInRect S' r = X.itemsInRect S r)
    (hinv : RubberInv T B0 A)
    (hpre : ∀ i ∈ rubberTargets T X B0.scene
        (QRect.normalizedOfPoints B0.view.mMouseDownPos e.pos),
      (B0.scene.item i).isSelected = false) :
    RubberInv T B0 (rubberBandSelect T X UBStylusTool.Selector A e)
      ∧ ∀ i, i ∈ (rubberBandSelect T X UBStylusTool.Selector A e).view.mJustSelectedItems
          ↔ i ∈ rubberTargets T X B0.scene
              (QRect.normalizedOfPoints B0.view.mMouseDownPos e.pos) := by
  obtain ⟨hsame, hpos, hsel, hj, hnd⟩ := hinv
  rw [rubberBandSelect_eq, hpos, hitems B0.scene A.scene _ hsame]
  obtain ⟨f1, f2, f3, f4, f5⟩ := rubberDeselect_fold
    (X.itemsInRect B0.scene (QRect.normalizedOfPoints B0.view.mMouseDownPos e.pos))
    A.view.mJustSelectedItems
    (A.withView { A.view with
      mUBRubberBand := some (QRect.normalizedOfPoints B0.view.mMouseDownPos e.pos) }) hnd
  rw [hitems B0.scene _ _ (hsame.trans f1)]
  obtain ⟨g1, g2, g3, g4, g5⟩ := rubberSelect_fold T B0.scene
    (X.itemsInRect B0.scene (QRect.normalizedOfPoints B0.view.mMouseDownPos e.pos))
    _ (hsame.trans f1) f5
  simp only [Board.withView_view, Board.withView_scene] at f2 f3 f4 g2 g3 g4
  have htg : ∀ i, i ∈ ((X.itemsInRect B0.scene
      (QRect.normalizedOfPoints B0.view.mMouseDownPos e.pos)).map
        (rubberTarget T B0.scene)).filter (rubberEligible T B0.scene)
      ↔ i ∈ rubberTargets T X B0.scene
          (QRect.normalizedOfPoints B0.view.mMouseDownPos e.pos) := fun i => Iff.rfl
  have hkeep : ∀ i, i ∈ A.view.mJustSelectedItems →
      i ∈ X.itemsInRect B0.scene (QRect.normalizedOfPoints B0.view.mMouseDownPos e.pos) →
      i ∈ rubberTargets T X B0.scene
          (QRect.normalizedOfPoints B0.view.mMouseDownPos e.pos) := by
    intro i hiJ hiR
    unfold rubberTargets
    rw [List.mem_filter, List.mem_map]
    exact ⟨⟨i, hiR, rubberTarget_of_eligible T B0.scene i hpoly (hj i hiJ).2⟩, (hj i hiJ).2⟩
  refine ⟨⟨g1, ?_, ?_, ?_, g5⟩, ?_⟩
  · rw [g2, f2]; exact hpos
  · intro i
    rw [g3 i, g4 i, f3 i, f4 i]
    by_cases hiJ : i ∈ A.view.mJustSelectedItems
    · have hpre0 : (B0.scene.item i).isSelected = false := (hj i hiJ).1
      have hA : (A.scene.item i).isSelected = true := (hsel i).mpr (Or.inr hiJ)
      by_cases hiR : i ∈ X.itemsInRect B0.scene
          (QRect.normalizedOfPoints B0.view.mMouseDownPos e.pos)
      · simp [hiJ, hiR, hA, hpre0]
      · simp [hiJ, hiR, hpre0]
    · have hA : (A.scene.item i).isSelected = true ↔ (B0.scene.item i).isSelected = true := by
        rw [hsel i]; simp [hiJ]
      simp [hiJ, hA]
  · intro i hi
    rw [g4 i, f4 i] at hi
    rcases hi with ⟨hiJ, _⟩ | hiT
    · exact hj i hiJ
    · refine ⟨hpre i ((htg i).mp hiT), ?_⟩
      rw [List.mem_filter] at hiT
      exact hiT.2
  · intro i
    rw [g4 i, f4 i]
    constructor
    · rintro (⟨hiJ, hnot⟩ | hiT)
      · have hiR : i ∈ X.itemsInRect B0.scene
            (QRect.normalizedOfPoints B0.view.mMouseDownPos e.pos) := by
          by_contra hiR; exact hnot ⟨hiJ, hiR⟩
        exact hkeep i hiJ hiR
      · exact (htg i).mp hiT
    · intro hiT
      exact Or.inr ((htg i).mpr hiT)


/-- The updates over a list of events extended by one: the updates over the
list, then one more. -/
theorem rubberSteps_append (T : ItemTypes) (X : Collaborators) :
    ∀ (es : List QMouseEvent) (A : Board) (e : QMouseEvent),
      rubberSteps T X A (es ++ [e])
        = rubberBandSelect T X UBStylusTool.Selector (rubberSteps T X A es) e := by
  intro es
  induction es with
  | nil => intro A e; rfl
  | cons a rest ih =>
    intro A e
    simp only [List.cons_append, rubberSteps]
    exact ih _ e

/-- A sequence of rubber-band updates keeps the agreement with the start of the
gesture, when no target of its rectangles was selected at the start. -/
theorem rubberSteps_inv (T : ItemTypes) (X : Collaborators) (B0 : Board)
    (hpoly : T.PolygonItemType ∉ T.rubberTypes)
    (hitems : ∀ S S' r, SameItemsButSelection S S' → X.itemsInRect S' r = X.itemsInRect S r) :
    ∀ (es : List QMouseEvent) (A : Board), RubberInv T B0 A →
      (∀ e ∈ es, ∀ i ∈ rubberTargets T X B0.scene
          (QRect.normalizedOfPoints B0.view.mMouseDownPos e.pos),
        (B0.scene.item i).isSelected = false) →
      RubberInv T B0 (rubberSteps T X A es) := by
  intro es
  induction es with
  | nil => intro A hinv _; exact hinv
  | cons a rest ih =>
    intro A hinv hpre
    simp only [rubberSteps]
    exact ih _
      (rubberBandSelect_step T X B0 A a hpoly hitems hinv
        (hpre a (List.mem_cons_self a rest))).1
      (fun e he => hpre e (List.mem_cons_of_mem a he))

/-- The hit test of the sample collaborators reads the positions only. -/
theorem sampleCollaborators_itemsInRect (handles : List ItemId) (S S' : UBGraphicsScene)
    (r : QRect) (h : SameItemsButSelection S S') :
    (sampleCollaborators handles).itemsInRect S' r
      = (sampleCollaborators handles).itemsInRect S r := by
  simp only [sampleCollaborators]
  congr 1
  funext i
  rw [(h.2 i).2.2.1]

/-- No item of `sceneDesk` is selected. -/
theorem sceneDesk_unselected (i : ItemId) : (sceneDesk.item i).isSelected = false := by
  simp only [sceneDesk, plainItem]
  split_ifs <;> rfl

/-! ## Lemmas on the mouse handlers while the stylus is pressed -/

/-- A board adds no call to itself. -/
theorem Board.addsNone_refl (p : Effect → Bool) (B : Board) : B.addsNone p B :=
  ⟨[], (List.append_nil _).symm, fun _ h => absurd h (List.not_mem_nil _)⟩

/-- Adding no call of a kind composes. -/
theorem Board.addsNone_trans {p : Effect → Bool} {B1 B2 B3 : Board} (h12 : B1.addsNone p B2)
    (h23 : B2.addsNone p B3) : B1.addsNone p B3 := by
  obtain ⟨l1, e1, p1⟩ := h12
  obtain ⟨l2, e2, p2⟩ := h23
  refine ⟨l1 ++ l2, by rw [e2, e1, List.append_assoc], ?_⟩
  intro e he
  rcases List.mem_append.mp he with h | h
  · exact p1 e h
  · exact p2 e h

/-- Recording one call that is not of the kind adds none of the kind. -/
theorem Board.addsNone_of_log {p : Effect → Bool} {B B' : Board} (e : Effect)
    (h : B'.effects = B.effects ++ [e]) (he : p e = false) : B.addsNone p B' :=
  ⟨[e], h, fun e' h' => by rw [List.mem_singleton.mp h']; exact he⟩

/-- A board is framed by itself. -/
theorem MouseFrame.self (B : Board) : MouseFrame B B :=
  ⟨rfl, rfl, Board.addsNone_refl _ B⟩

/-- A board with the same pressed flags and the same record is framed. -/
theorem MouseFrame.of_eq {B B' : Board}
    (h1 : B'.view.mMouseButtonIsPressed = B.view.mMouseButtonIsPressed)
    (h2 : B'.view.mTabletStylusIsPressed = B.view.mTabletStylusIsPressed)
    (h3 : B'.effects = B.effects) : MouseFrame B B' :=
  ⟨h1, h2, [], by rw [h3, List.append_nil], fun _ h => absurd h (List.not_mem_nil _)⟩

/-- A board with the same pressed flags and one more recorded call, no device
call, is framed. -/
theorem MouseFrame.of_log {B B' : Board} {e : Effect}
    (h1 : B'.view.mMouseButtonIsPressed = B.view.mMouseButtonIsPressed)
    (h2 : B'.view.mTabletStylusIsPressed = B.view.mTabletStylusIsPressed)
    (h3 : B'.effects = B.effects ++ [e]) (he : e.isInputDevicePressOrMove = false) :
    MouseFrame B B' :=
  ⟨h1, h2, Board.addsNone_of_log e h3 he⟩

/-- Frames compose. -/
theorem MouseFrame.comp {B1 B2 B3 : Board} (h12 : MouseFrame B1 B2) (h23 : MouseFrame B2 B3) :
    MouseFrame B1 B3 :=
  ⟨h23.1.trans h12.1, h23.2.1.trans h12.2.1, Board.addsNone_trans h12.2.2 h23.2.2⟩

/-- Recording a call that is no device call keeps the frame. -/
theorem MouseFrame.log {B B' : Board} (h : MouseFrame B B') (e : Effect)
    (he : e.isInputDevicePressOrMove = false) : MouseFrame B (B'.log e) :=
  h.comp (MouseFrame.of_log rfl rfl rfl he)

/-- Replacing the scene keeps the frame. -/
theorem MouseFrame.withScene {B B' : Board} (h : MouseFrame B B') (S : UBGraphicsScene) :
    MouseFrame B (B'.withScene S) := h

/-- Replacing the view by one with the same pressed flags keeps the frame. -/
theorem MouseFrame.withView {B B' : Board} (h : MouseFrame B B') (V : UBBoardView)
    (h1 : V.mMouseButtonIsPressed = B'.view.mMouseButtonIsPressed)
    (h2 : V.mTabletStylusIsPressed = B'.view.mTabletStylusIsPressed) :
    MouseFrame B (B'.withView V) :=
  ⟨h1.trans h.1, h2.trans h.2.1, h.2.2⟩

/-- `handleItemMousePress` is the resolution of the moving item followed by the
part after the selection step. -/
theorem handleItemMousePress_eq (T : ItemTypes) (X : Collaborators) (fuel : Nat) (B : Board)
    (event : QMouseEvent) :
    handleItemMousePress T X fuel B event
      = match determineItemToPress T B.scene B.stylusTool fuel B.view.movingItem with
        | none => none
        | some target =>
          pressAfterSelection T X fuel (pressDecisionBoard T X B event target) event := by
  unfold handleItemMousePress pressAfterSelection pressDecisionBoard
  rfl

/-- The view that `itemShouldReceiveMousePressEvent` returns has the pressed
flags of the view it was given. -/
theorem press_policy_flags (T : ItemTypes) (S : UBGraphicsScene) (tool : UBStylusTool)
    (V : UBBoardView) (x : Option ItemId) :
    (itemShouldReceiveMousePressEvent T S tool V x).2.mMouseButtonIsPressed
        = V.mMouseButtonIsPressed
      ∧ (itemShouldReceiveMousePressEvent T S tool V x).2.mTabletStylusIsPressed
        = V.mTabletStylusIsPressed := by
  cases x with
  | none => exact ⟨rfl, rfl⟩
  | some item =>
    exact press_cases T S tool V item
      (fun r => r.2.mMouseButtonIsPressed = V.mMouseButtonIsPressed
        ∧ r.2.mTabletStylusIsPressed = V.mTabletStylusIsPressed)
      (fun _ => ⟨rfl, rfl⟩) (fun _ _ => ⟨rfl, rfl⟩)


/-- The part of `handleItemMousePress` after the selection step returns, with
the pressed flags and the device calls as they were, when the base-class press
handler is inert. -/
theorem pressAfterSelection_frame (T : ItemTypes) (X : Collaborators) (fuel : Nat) (D : Board)
    (event : QMouseEvent) (hbase : ∀ B0 e, X.viewMousePressEvent B0 e = B0)
    (hterm : ∃ r, determineItemToPress T D.scene D.stylusTool fuel
        (X.itemAt D.scene (X.mapToScene event.pos)) = some r) :
    ∃ B', pressAfterSelection T X fuel D event = some B' ∧ MouseFrame D B' := by
  unfold pressAfterSelection
  by_cases hm : D.view.mMultipleSelectionIsEnabled = true
  · rw [if_pos hm]; exact ⟨D, rfl, MouseFrame.self D⟩
  · rw [if_neg hm]
    have hf := press_policy_flags T D.scene D.stylusTool D.view D.view.movingItem
    generalize itemShouldReceiveMousePressEvent T D.scene D.stylusTool D.view
      D.view.movingItem = r at hf ⊢
    obtain ⟨b, V⟩ := r
    obtain ⟨hf1, hf2⟩ := hf
    have h4 : MouseFrame D (D.withView V) := (MouseFrame.self D).withView V hf1 hf2
    cases b
    · have h5 : ∀ B4 : Board, MouseFrame D B4 →
          MouseFrame D (match B4.view.movingItem with
            | none => B4
            | some m =>
              (if X.isUBGraphicsItem B4.scene m = true then B4.log (Effect.startUndoStep m)
                else B4).log (Effect.clearFocus m)) := by
        intro B4 hB4
        cases B4.view.movingItem with
        | none => exact hB4
        | some m =>
          dsimp only
          by_cases hu : X.isUBGraphicsItem B4.scene m = true
          · rw [if_pos hu]; exact (hB4.log _ (by rfl)).log _ (by rfl)
          · rw [if_neg hu]; exact hB4.log _ (by rfl)
      have h6 : ∀ B5 : Board, MouseFrame D B5 →
          ∃ B', (if itemShouldReceiveSuspendedMousePressEvent T
                (B5.withView { B5.view with suspendedMousePressEvent := none }).scene
                (B5.withView { B5.view with suspendedMousePressEvent := none }).stylusTool
                (B5.withView { B5.view with suspendedMousePressEvent := none }).view.movingItem
                  = true then
              some ((B5.withView { B5.view with suspendedMousePressEvent := none }).withView
                { (B5.withView { B5.view with suspendedMousePressEvent := none }).view with
                  suspendedMousePressEvent := some event })
            else some (B5.withView { B5.view with suspendedMousePressEvent := none })) = some B'
            ∧ MouseFrame D B' := by
        intro B5 hB5
        split
        · exact ⟨_, rfl, (hB5.withView _ rfl rfl).withView _ rfl rfl⟩
        · exact ⟨_, rfl, hB5.withView _ rfl rfl⟩
      exact h6 _ (h5 _ h4)
    · obtain ⟨r, hr⟩ := hterm
      have h5 : (D.withView V).callViewMousePressEvent X event
          = (D.withView V).log (Effect.viewMousePressEvent event) := by
        rw [Board.callViewMousePressEvent, hbase]
      dsimp only
      rw [if_pos rfl, h5]
      have hr2 : determineItemToPress T ((D.withView V).log (Effect.viewMousePressEvent event)).scene
          ((D.withView V).log (Effect.viewMousePressEvent event)).stylusTool fuel
          (X.itemAt ((D.withView V).log (Effect.viewMousePressEvent event)).scene
            (X.mapToScene event.pos)) = some r := hr
      rw [hr2]
      exact ⟨_, rfl, (h4.log _ (by rfl)).withScene _⟩


/-- The length test on parent chains reads only the parent links. -/
theorem parentChainWithin_congr (S S' : UBGraphicsScene)
    (h : ∀ i, (S'.item i).parentItem = (S.item i).parentItem) :
    ∀ (n : Nat) (item : ItemId), parentChainWithin S' n item = parentChainWithin S n item := by
  intro n
  induction n with
  | zero => intro item; simp only [parentChainWithin, h]
  | succ n ih =>
    intro item
    simp only [parentChainWithin, h]
    cases (S.item item).parentItem with
    | none => rfl
    | some p => exact ih p

/-- The selection step of a press keeps the pressed flags, the device calls,
the tool, the parent links and the positions. -/
theorem handleItemsSelection_frame (T : ItemTypes) (B : Board) (x : Option ItemId) :
    MouseFrame B (handleItemsSelection T B x)
      ∧ (handleItemsSelection T B x).stylusTool = B.stylusTool
      ∧ (∀ i, ((handleItemsSelection T B x).scene.item i).parentItem
          = (B.scene.item i).parentItem)
      ∧ (∀ i, ((handleItemsSelection T B x).scene.item i).pos = (B.scene.item i).pos) := by
  cases x with
  | none => exact ⟨MouseFrame.self B, rfl, fun _ => rfl, fun _ => rfl⟩
  | some item =>
    rcases handleItemsSelection_cases T B item with h | h
    · rw [h]; exact ⟨MouseFrame.self B, rfl, fun _ => rfl, fun _ => rfl⟩
    · rw [h]
      refine ⟨((MouseFrame.self B).withScene _).log _ (by rfl), rfl, ?_, ?_⟩
      · intro i
        simp only [Board.log_scene, Board.withScene_scene, deselectAllItemsExcept]
        split <;> rfl
      · intro i
        simp only [Board.log_scene, Board.withScene_scene, deselectAllItemsExcept]
        split <;> rfl

/-- With an inert base-class press handler and finite parent chains,
`handleItemMousePress` returns with the pressed flags and the device calls as
they were. -/
theorem handleItemMousePress_frame (T : ItemTypes) (X : Collaborators) (n fuel : Nat)
    (B : Board) (event : QMouseEvent) (hbase : ∀ B0 e, X.viewMousePressEvent B0 e = B0)
    (hchain : ∀ item, parentChainWithin B.scene n item = true) (hfuel : n < fuel) :
    ∃ B', handleItemMousePress T X fuel B event = some B' ∧ MouseFrame B B' := by
  rw [handleItemMousePress_eq]
  obtain ⟨target, ht⟩ := determineItemToPress_returns T B.scene B.stylusTool n fuel
    B.view.movingItem (fun item _ => hchain item) hfuel
  rw [ht]
  dsimp only
  obtain ⟨k1, k2, k3, -⟩ := handleItemsSelection_frame T
    ((B.withView { B.view with mLastPressedMousePos := X.mapToScene event.pos }).setMovingItem
      target) target
  have hD : MouseFrame B (pressDecisionBoard T X B event target) := k1
  have hterm : ∃ r, determineItemToPress T (pressDecisionBoard T X B event target).scene
      (pressDecisionBoard T X B event target).stylusTool fuel
      (X.itemAt (pressDecisionBoard T X B event target).scene (X.mapToScene event.pos))
        = some r := by
    refine determineItemToPress_returns T _ _ n fuel _ (fun item _ => ?_) hfuel
    exact (parentChainWithin_congr B.scene _ k3 n item).trans (hchain item)
  obtain ⟨B', hB', hf⟩ := pressAfterSelection_frame T X fuel _ event hbase hterm
  exact ⟨B', hB', hD.comp hf⟩

/-- With an inert base-class press handler and finite parent chains, the case
`Selector` / `Play` of a press returns with the pressed flags and the device
calls as they were. -/
theorem pressSelectorOrPlay_frame (T : ItemTypes) (X : Collaborators) (n fuel : Nat)
    (B : Board) (event : QMouseEvent) (hbase : ∀ B0 e, X.viewMousePressEvent B0 e = B0)
    (hchain : ∀ item, parentChainWithin B.scene n item = true) (hfuel : n < fuel) :
    ∃ B', pressSelectorOrPlay T X fuel B event = some B' ∧ MouseFrame B B' := by
  unfold pressSelectorOrPlay
  by_cases hd : B.view.bIsDesktop = true
  · rw [if_pos hd]; exact ⟨_, rfl, (MouseFrame.self B).log _ (by rfl)⟩
  · rw [if_neg hd]
    have hstep : ∀ B7 : Board, MouseFrame B B7 → B7.scene = B.scene →
        ∃ B', (match handleItemMousePress T X fuel B7 event with
          | none => none
          | some B8 => some (B8.log Effect.eventAccept)) = some B' ∧ MouseFrame B B' := by
      intro B7 h7 hs
      obtain ⟨B8, h8, hf⟩ := handleItemMousePress_frame T X n fuel B7 event hbase
        (by rw [hs]; exact hchain) hfuel
      rw [h8]
      exact ⟨_, rfl, (h7.comp hf).log _ (by rfl)⟩
    refine hstep _ ?_ ?_
    · dsimp only
      split <;> split <;> exact MouseFrame.of_eq rfl rfl rfl
    · dsimp only
      split <;> split <;> rfl


/-- `mousePressEvent` is its guards followed by the branch of the button. -/
theorem mousePressEvent_eq (T : ItemTypes) (X : Collaborators) (fuel : Nat) (B : Board)
    (event : QMouseEvent) :
    mousePressEvent T X fuel B event
      = if (!B.view.bIsControl && !B.view.bIsDesktop) = true then some (B.log Effect.eventIgnore)
        else if X.isAbsurdPoint event.pos = true then
          some ((B.withView { B.view with mIsDragInProgress := false }).log Effect.eventAccept)
        else if event.button = MouseButton.LeftButton
            ∧ (pressStartBoard X B event).view.interactive = true then
          pressLeftButton T X fuel (pressStartBoard X B event) event
        else if event.button = MouseButton.RightButton
            ∧ (pressStartBoard X B event).view.interactive = true then
          pressRightButton T X fuel (pressStartBoard X B event) event
        else some (pressStartBoard X B event) := by
  rfl

/-- `mouseMoveEvent` is its guards followed by the `switch` on the tool. -/
theorem mouseMoveEvent_eq (T : ItemTypes) (X : Collaborators) (fuel : Nat) (B : Board)
    (event : QMouseEvent) :
    mouseMoveEvent T X fuel B event
      = if B.view.mIsDragInProgress = false
            ∧ (X.mapToScene event.pos - B.view.mLastPressedMousePos).manhattanLength
                < X.startDragDistance then some B
        else if X.isAbsurdPoint event.pos = true then
          some ((B.withView { B.view with
            mIsDragInProgress := true
            mWidgetMoved := true
            longPressTimerActive := false }).log Effect.eventAccept)
        else moveToolSwitch T X fuel (moveStartBoard X B event) event := by
  rfl


/-- With the stylus pressed, the left-button branch of a press returns with the
pressed flags and the device calls as they were, and under a tool other than
Selector and Play with every item where it was. -/
theorem pressLeftButton_frame (T : ItemTypes) (X : Collaborators) (n fuel : Nat)
    (B3 : Board) (event : QMouseEvent)
    (hlatched : B3.view.mTabletStylusIsPressed = true)
    (hbase : ∀ B0 e, X.viewMousePressEvent B0 e = B0)
    (hchain : ∀ item, parentChainWithin B3.scene n item = true) (hfuel : n < fuel) :
    ∃ B', pressLeftButton T X fuel B3 event = some B' ∧ MouseFrame B3 B'
      ∧ (B3.stylusTool ≠ UBStylusTool.Selector → B3.stylusTool ≠ UBStylusTool.Play →
          ∀ i, (B'.scene.item i).pos = (B3.scene.item i).pos) := by
  have h4 : (if B3.view.mTabletStylusIsPressed = false then
      B3.withView { B3.view with mMouseButtonIsPressed := true } else B3) = B3 := by
    rw [hlatched]; rfl
  unfold pressLeftButton
  dsimp only
  rw [h4]
  have hdef : ∀ B5 : Board, MouseFrame B3 B5 → B5.scene = B3.scene →
      ∃ B', some (B5.log Effect.eventAccept) = some B' ∧ MouseFrame B3 B'
        ∧ ∀ i, (B'.scene.item i).pos = (B3.scene.item i).pos :=
    fun B5 h5 hs => ⟨_, rfl, h5.log _ (by rfl), fun i => by rw [Board.log_scene, hs]⟩
  have hruler : MouseFrame B3 (if X.activeRulerIsNull = true then B3.log Effect.setCursor
        else B3)
      ∧ (if X.activeRulerIsNull = true then B3.log Effect.setCursor else B3).scene = B3.scene
      ∧ (if X.activeRulerIsNull = true then B3.log Effect.setCursor
          else B3).view.mTabletStylusIsPressed = true := by
    split
    · exact ⟨(MouseFrame.self B3).log _ (by rfl), rfl, hlatched⟩
    · exact ⟨MouseFrame.self B3, rfl, hlatched⟩
  obtain ⟨hr1, hr2, hr3⟩ := hruler
  cases htool : B3.stylusTool
  case Selector =>
    obtain ⟨B', hB', hf⟩ := pressSelectorOrPlay_frame T X n fuel B3 event hbase hchain hfuel
    exact ⟨B', hB', hf, fun h => absurd rfl h⟩
  case Play =>
    obtain ⟨B', hB', hf⟩ := pressSelectorOrPlay_frame T X n fuel B3 event hbase hchain hfuel
    exact ⟨B', hB', hf, fun _ h => absurd rfl h⟩
  case ZoomIn =>
    exact ⟨_, rfl, ((MouseFrame.self B3).log _ (by rfl)).log _ (by rfl), fun _ _ _ => rfl⟩
  case ZoomOut =>
    exact ⟨_, rfl, ((MouseFrame.self B3).log _ (by rfl)).log _ (by rfl), fun _ _ _ => rfl⟩
  case Hand =>
    exact ⟨_, rfl, (((MouseFrame.self B3).log _ (by rfl)).withView _ rfl rfl).log _ (by rfl),
      fun _ _ _ => rfl⟩
  case Capture =>
    exact ⟨_, rfl, (((MouseFrame.self B3).withScene _).withView _ rfl rfl).log _ (by rfl),
      fun _ _ _ => rfl⟩
  case Text =>
    dsimp only
    split
    · rw [Board.callViewMousePressEvent, hbase]
      exact ⟨_, rfl, MouseFrame.of_log rfl rfl rfl (by rfl), fun _ _ _ => rfl⟩
    · exact ⟨_, rfl, (((MouseFrame.self B3).withScene _).withView _ rfl rfl).log _ (by rfl),
        fun _ _ _ => rfl⟩
  all_goals
    dsimp only
    rw [if_neg (by rw [hr3]; decide)]
    obtain ⟨B', hB', hf, hp⟩ := hdef _ hr1 hr2
    exact ⟨B', hB', hf, fun _ _ => hp⟩

/-- The right-button branch of a press returns with the pressed flags and the
device calls as they were, and under a tool other than Selector and Play with
every item where it was. -/
theorem pressRightButton_frame (T : ItemTypes) (X : Collaborators) (n fuel : Nat)
    (B3 : Board) (event : QMouseEvent)
    (hbase : ∀ B0 e, X.viewMousePressEvent B0 e = B0)
    (hchain : ∀ item, parentChainWithin B3.scene n item = true) (hfuel : n < fuel) :
    ∃ B', pressRightButton T X fuel B3 event = some B' ∧ MouseFrame B3 B'
      ∧ (B3.stylusTool ≠ UBStylusTool.Selector → B3.stylusTool ≠ UBStylusTool.Play →
          ∀ i, (B'.scene.item i).pos = (B3.scene.item i).pos) := by
  have hsel : ∃ B', (if B3.view.bIsDesktop = true then some (B3.log Effect.eventIgnore)
      else if (match B3.view.movingItem with
          | none => false
          | some m => X.isTextItem B3.scene m) = true then some B3
      else
        match handleItemMousePress T X fuel B3 event with
        | none => none
        | some B4 => some (B4.log Effect.eventAccept)) = some B' ∧ MouseFrame B3 B' := by
    split
    · exact ⟨_, rfl, (MouseFrame.self B3).log _ (by rfl)⟩
    · split
      · exact ⟨_, rfl, MouseFrame.self B3⟩
      · obtain ⟨B8, h8, hf⟩ := handleItemMousePress_frame T X n fuel B3 event hbase hchain hfuel
        rw [h8]
        exact ⟨_, rfl, hf.log _ (by rfl)⟩
  unfold pressRightButton
  cases htool : B3.stylusTool
  case Selector =>
    obtain ⟨B', hB', hf⟩ := hsel
    exact ⟨B', hB', hf, fun h => absurd rfl h⟩
  case Play =>
    obtain ⟨B', hB', hf⟩ := hsel
    exact ⟨B', hB', hf, fun _ h => absurd rfl h⟩
  all_goals exact ⟨_, rfl, MouseFrame.self B3, fun _ _ _ => rfl⟩

/-- With the stylus pressed, an inert base-class press handler and finite
parent chains, `mousePressEvent` returns with the pressed flags and the device
calls as they were, and under a tool other than Selector and Play with every
item where it was. -/
theorem mousePressEvent_frame (T : ItemTypes) (X : Collaborators) (n fuel : Nat)
    (B : Board) (event : QMouseEvent)
    (hlatched : B.view.mTabletStylusIsPressed = true)
    (hbase : ∀ B0 e, X.viewMousePressEvent B0 e = B0)
    (hchain : ∀ item, parentChainWithin B.scene n item = true) (hfuel : n < fuel) :
    ∃ B', mousePressEvent T X fuel B event = some B' ∧ MouseFrame B B'
      ∧ (B.stylusTool ≠ UBStylusTool.Selector → B.stylusTool ≠ UBStylusTool.Play →
          ∀ i, (B'.scene.item i).pos = (B.scene.item i).pos) := by
  have h3 : MouseFrame B (pressStartBoard X B event) := MouseFrame.of_eq rfl rfl rfl
  rw [mousePressEvent_eq]
  split
  · exact ⟨_, rfl, (MouseFrame.self B).log _ (by rfl), fun _ _ _ => rfl⟩
  · split
    · exact ⟨_, rfl, ((MouseFrame.self B).withView _ rfl rfl).log _ (by rfl), fun _ _ _ => rfl⟩
    · split
      · obtain ⟨B', hB', hf, hp⟩ := pressLeftButton_frame T X n fuel (pressStartBoard X B event)
          event hlatched hbase hchain hfuel
        exact ⟨B', hB', h3.comp hf, hp⟩
      · split
        · obtain ⟨B', hB', hf, hp⟩ := pressRightButton_frame T X n fuel
            (pressStartBoard X B event) event hbase hchain hfuel
          exact ⟨B', hB', h3.comp hf, hp⟩
        · exact ⟨_, rfl, h3, fun _ _ _ => rfl⟩


/-- A property kept by every step of a left fold holds at its end. -/
theorem foldl_keeps {α β : Type} (P : β → Prop) (f : β → α → β)
    (h : ∀ b a, P b → P (f b a)) : ∀ (l : List α) (b : β), P b → P (l.foldl f b) := by
  intro l
  induction l with
  | nil => intro b hb; exact hb
  | cons a l ih => intro b hb; exact ih (f b a) (h b a hb)

/-- The rubber-band update keeps the pressed flags, the device calls, the
moving item, the tool and the positions. -/
theorem rubberBandSelect_frame (T : ItemTypes) (X : Collaborators) (tool : UBStylusTool)
    (B : Board) (event : QMouseEvent) :
    MouseFrame B (rubberBandSelect T X tool B event)
      ∧ (rubberBandSelect T X tool B event).view.movingItem = B.view.movingItem
      ∧ (rubberBandSelect T X tool B event).stylusTool = B.stylusTool := by
  unfold rubberBandSelect
  dsimp only
  have h2 : ∀ (f : Board → ItemId → Board) (l : List ItemId) (A : Board),
      (∀ acc item, (MouseFrame B acc ∧ acc.view.movingItem = B.view.movingItem
          ∧ acc.stylusTool = B.stylusTool) →
        (MouseFrame B (f acc item) ∧ (f acc item).view.movingItem = B.view.movingItem
          ∧ (f acc item).stylusTool = B.stylusTool)) →
      (MouseFrame B A ∧ A.view.movingItem = B.view.movingItem ∧ A.stylusTool = B.stylusTool) →
      (MouseFrame B (l.foldl f A) ∧ (l.foldl f A).view.movingItem = B.view.movingItem
          ∧ (l.foldl f A).stylusTool = B.stylusTool) :=
    fun f l A hf hA => foldl_keeps
      (fun acc : Board => MouseFrame B acc ∧ acc.view.movingItem = B.view.movingItem
        ∧ acc.stylusTool = B.stylusTool) f hf l A hA
  split
  · refine h2 _ _ _ ?_ (h2 _ _ _ ?_ ⟨(MouseFrame.self B).withView _ rfl rfl, rfl, rfl⟩)
    · intro acc item k
      split_ifs <;> exact k
    · intro acc item k
      split_ifs <;> exact k
  · refine h2 _ _ _ ?_ ⟨(MouseFrame.self B).withView _ rfl rfl, rfl, rfl⟩
    intro acc item k
    split_ifs <;> exact k

/-- The move resolution of an optional item returns once the call bound exceeds
the length of the item's parent chain. -/
theorem determineItemToMove_returns (T : ItemTypes) (S : UBGraphicsScene)
    (tool : UBStylusTool) (n fuel : Nat) (x : Option ItemId)
    (hchain : ∀ item, x = some item → parentChainWithin S n item = true) (hfuel : n < fuel) :
    ∃ r, determineItemToMove T S tool fuel x = some r := by
  cases x with
  | none => exact ⟨none, by cases fuel <;> rfl⟩
  | some item =>
    obtain ⟨r, hr⟩ := determineItemToMove_chain T S tool n item (hchain item rfl)
    exact ⟨r, hr fuel hfuel⟩

/-- With an inert base-class move handler, `handleItemMouseMove` returns once
the move resolution does, with the pressed flags and the device calls as they
were. -/
theorem handleItemMouseMove_frame (T : ItemTypes) (X : Collaborators) (fuel : Nat)
    (B : Board) (event : QMouseEvent) (hbase : ∀ B0 e, X.viewMouseMoveEvent B0 e = B0)
    (hret : ∃ r, determineItemToMove T B.scene B.stylusTool fuel B.view.movingItem = some r) :
    ∃ B', handleItemMouseMove T X fuel B event = some B' ∧ MouseFrame B B' := by
  obtain ⟨mover, hr⟩ := hret
  unfold handleItemMouseMove
  rw [hr]
  dsimp only
  have hc : ∀ A : Board, A.callViewMouseMoveEvent X event
      = A.log (Effect.viewMouseMoveEvent event) := by
    intro A; rw [Board.callViewMouseMoveEvent, hbase]
  cases mover with
  | none =>
    dsimp only [Board.setMovingItem_view]
    refine ⟨_, rfl, ?_⟩
    split
    · rw [hc]
      exact MouseFrame.of_log rfl rfl rfl (by rfl)
    · exact MouseFrame.of_eq rfl rfl rfl
  | some m =>
    dsimp only [Board.setMovingItem_view]
    split
    · refine ⟨_, rfl, ?_⟩
      split
      · exact MouseFrame.of_log rfl rfl rfl (by rfl)
      · exact MouseFrame.of_log rfl rfl rfl (by rfl)
    · rw [hc]
      dsimp only [Board.log_view, Board.withView_view, Board.setMovingItem_view]
      split
      · exact ⟨_, rfl, MouseFrame.of_log rfl rfl rfl (by rfl)⟩
      · exact ⟨_, rfl, MouseFrame.of_log rfl rfl rfl (by rfl)⟩


/-- With an inert base-class move handler, the board before the `switch` on
the tool of a move has the pressed flags, the device calls, the scene and the
tool of the board the move came to. -/
theorem moveStartBoard_frame (X : Collaborators) (B : Board) (event : QMouseEvent)
    (hbase : ∀ B0 e, X.viewMouseMoveEvent B0 e = B0) :
    MouseFrame B (moveStartBoard X B event)
      ∧ (moveStartBoard X B event).scene = B.scene
      ∧ (moveStartBoard X B event).stylusTool = B.stylusTool := by
  unfold moveStartBoard
  dsimp only
  split
  · rw [Board.callViewMouseMoveEvent, hbase]
    exact ⟨MouseFrame.of_log rfl rfl rfl (by rfl), rfl, rfl⟩
  · exact ⟨MouseFrame.of_eq rfl rfl rfl, rfl, rfl⟩

/-- With the stylus pressed, the `switch` on the tool of a move returns with
the pressed flags and the device calls as they were, and under a tool other
than Selector and Play with every item where it was. -/
theorem moveToolSwitch_frame (T : ItemTypes) (X : Collaborators) (n fuel : Nat)
    (B2 : Board) (event : QMouseEvent)
    (hlatched : B2.view.mTabletStylusIsPressed = true)
    (hbase : ∀ B0 e, X.viewMouseMoveEvent B0 e = B0)
    (hchain : ∀ item, parentChainWithin B2.scene n item = true) (hfuel : n < fuel) :
    ∃ B', moveToolSwitch T X fuel B2 event = some B' ∧ MouseFrame B2 B'
      ∧ (B2.stylusTool ≠ UBStylusTool.Selector → B2.stylusTool ≠ UBStylusTool.Play →
          ∀ i, (B'.scene.item i).pos = (B2.scene.item i).pos) := by
  have hsel : ∀ tool : UBStylusTool, B2.stylusTool = tool →
      ∃ B', (if B2.view.bIsDesktop = true then some (B2.log Effect.eventIgnore)
        else
          handleItemMouseMove T X fuel
            (if (decide (tool ≠ UBStylusTool.Play)
                && B2.view.pointerIsPressed && B2.view.movingItem.isNone) = true then
              rubberBandSelect T X tool B2 event else B2) event) = some B'
        ∧ MouseFrame B2 B' := by
    intro tool htool
    split
    · exact ⟨_, rfl, (MouseFrame.self B2).log _ (by rfl)⟩
    · split
      · rename_i hrub
        obtain ⟨k1, k2, k3⟩ := rubberBandSelect_frame T X tool B2 event
        have hnone : B2.view.movingItem = none := by
          simp only [Bool.and_eq_true, Option.isNone_iff_eq_none] at hrub
          exact hrub.2
        obtain ⟨B', hB', hf⟩ := handleItemMouseMove_frame T X fuel
          (rubberBandSelect T X tool B2 event) event hbase
          ⟨none, by rw [k2, hnone]; cases fuel <;> rfl⟩
        exact ⟨B', hB', k1.comp hf⟩
      · exact handleItemMouseMove_frame T X fuel B2 event hbase
          (determineItemToMove_returns T B2.scene B2.stylusTool n fuel B2.view.movingItem
            (fun item _ => hchain item) hfuel)
  have hdef : ∃ B', some ((if B2.view.mTabletStylusIsPressed = false then
          B2.log (Effect.inputDeviceMove
            (X.mapToScene (X.pointConstrainedInRect event.pos)) B2.view.mMouseButtonIsPressed)
        else B2).log Effect.eventAccept) = some B' ∧ MouseFrame B2 B'
      ∧ ∀ i, (B'.scene.item i).pos = (B2.scene.item i).pos := by
    rw [if_neg (by rw [hlatched]; decide)]
    exact ⟨_, rfl, (MouseFrame.self B2).log _ (by rfl), fun _ => rfl⟩
  have htext : ∃ B', (if B2.view.mRubberBand.isSome = true
        ∧ (B2.view.mIsCreatingTextZone || B2.view.mIsCreatingSceneGrabZone) = true then
      some ((B2.withView { B2.view with
        mRubberBand := some (QRect.normalizedOfPoints B2.view.mMouseDownPos event.pos) }).log
        Effect.eventAccept)
    else some (B2.callViewMouseMoveEvent X event)) = some B' ∧ MouseFrame B2 B'
      ∧ ∀ i, (B'.scene.item i).pos = (B2.scene.item i).pos := by
    split
    · exact ⟨_, rfl, ((MouseFrame.self B2).withView _ rfl rfl).log _ (by rfl), fun _ => rfl⟩
    · rw [Board.callViewMouseMoveEvent, hbase]
      exact ⟨_, rfl, (MouseFrame.self B2).log _ (by rfl), fun _ => rfl⟩
  unfold moveToolSwitch
  dsimp only
  cases htool : B2.stylusTool
  case Selector =>
    obtain ⟨B', hB', hf⟩ := hsel UBStylusTool.Selector htool
    exact ⟨B', hB', hf, fun h => absurd rfl h⟩
  case Play =>
    obtain ⟨B', hB', hf⟩ := hsel UBStylusTool.Play htool
    exact ⟨B', hB', hf, fun _ h => absurd rfl h⟩
  case Hand =>
    dsimp only
    split
    · exact ⟨_, rfl, MouseFrame.self B2, fun _ _ _ => rfl⟩
    · exact ⟨_, rfl, (((MouseFrame.self B2).log _ (by rfl)).withView _ rfl rfl).log _ (by rfl),
        fun _ _ _ => rfl⟩
  case Text =>
    obtain ⟨B', hB', hf, hp⟩ := htext
    exact ⟨B', hB', hf, fun _ _ => hp⟩
  case Capture =>
    obtain ⟨B', hB', hf, hp⟩ := htext
    exact ⟨B', hB', hf, fun _ _ => hp⟩
  all_goals
    obtain ⟨B', hB', hf, hp⟩ := hdef
    exact ⟨B', hB', hf, fun _ _ => hp⟩

/-- With the stylus pressed, an inert base-class move handler and finite parent
chains, `mouseMoveEvent` returns with the pressed flags and the device calls as
they were, and under a tool other than Selector and Play with every item where
it was. -/
theorem mouseMoveEvent_frame (T : ItemTypes) (X : Collaborators) (n fuel : Nat)
    (B : Board) (event : QMouseEvent)
    (hlatched : B.view.mTabletStylusIsPressed = true)
    (hbase : ∀ B0 e, X.viewMouseMoveEvent B0 e = B0)
    (hchain : ∀ item, parentChainWithin B.scene n item = true) (hfuel : n < fuel) :
    ∃ B', mouseMoveEvent T X fuel B event = some B' ∧ MouseFrame B B'
      ∧ (B.stylusTool ≠ UBStylusTool.Selector → B.stylusTool ≠ UBStylusTool.Play →
          ∀ i, (B'.scene.item i).pos = (B.scene.item i).pos) := by
  obtain ⟨k1, k2, k3⟩ := moveStartBoard_frame X B event hbase
  rw [mouseMoveEvent_eq]
  split
  · exact ⟨_, rfl, MouseFrame.self B, fun _ _ _ => rfl⟩
  · split
    · exact ⟨_, rfl, ((MouseFrame.self B).withView _ rfl rfl).log _ (by rfl), fun _ _ _ => rfl⟩
    · obtain ⟨B', hB', hf, hp⟩ := moveToolSwitch_frame T X n fuel (moveStartBoard X B event)
        event (k1.2.1.trans hlatched) hbase (by rw [k2]; exact hchain) hfuel
      refine ⟨B', hB', k1.comp hf, ?_⟩
      intro h1 h2 i
      rw [hp (by rw [k3]; exact h1) (by rw [k3]; exact h2) i, k2]


/-- No item of `sceneDesk` has a parent. -/
theorem sceneDesk_chain (item : ItemId) : parentChainWithin sceneDesk 0 item = true := by
  simp only [parentChainWithin, sceneDesk]
  split_ifs <;> rfl

/-- The selection step of a press adds no call of a kind other than the update
of the selection frame. -/
theorem handleItemsSelection_addsNone (p : Effect → Bool) (T : ItemTypes) (B : Board)
    (x : Option ItemId) (hp : p Effect.updateSelectionFrame = false) :
    B.addsNone p (handleItemsSelection T B x) := by
  cases x with
  | none => exact Board.addsNone_refl p B
  | some item =>
    rcases handleItemsSelection_cases T B item with h | h
    · rw [h]; exact Board.addsNone_refl p B
    · rw [h]; exact Board.addsNone_of_log _ rfl hp

/-- The commit of the undo step adds no call of a kind other than that commit. -/
theorem commitUndoStepOfMovingItem_addsNone (p : Effect → Bool) (X : Collaborators) (B : Board)
    (hp : ∀ m, p (Effect.commitUndoStep m) = false) :
    B.addsNone p (commitUndoStepOfMovingItem X B) := by
  unfold commitUndoStepOfMovingItem
  cases B.view.movingItem with
  | none => exact Board.addsNone_refl p B
  | some m =>
    dsimp only
    split
    · exact Board.addsNone_of_log _ rfl (hp m)
    · exact Board.addsNone_refl p B

/-- A record grown by no call of `QGraphicsView::mousePressEvent` is the old
record followed by calls none of which is one. -/
theorem Board.addsNone_viewMousePressEvent {B B' : Board}
    (h : B.addsNone Effect.isViewMousePressEvent B') :
    ∃ l, B'.effects = B.effects ++ l ∧ ∀ e, Effect.viewMousePressEvent e ∉ l := by
  obtain ⟨l, hl, hp⟩ := h
  exact ⟨l, hl, fun e he => Bool.noConfusion (hp _ he)⟩

/-! ## Lemmas on the mover across move events -/

/-- Setting the moving item twice is setting it to the second value. -/
theorem Board.setMovingItem_twice (B : Board) (a b : Option ItemId) :
    (B.setMovingItem a).setMovingItem b = B.setMovingItem b := rfl

/-- When the move resolution of the moving item is `r` and `r` resolves to
itself, `handleItemMouseMove` acts as on the board whose moving item is `r`. -/
theorem handleItemMouseMove_resolved (T : ItemTypes) (X : Collaborators) (fuel : Nat)
    (B : Board) (e : QMouseEvent) (r : Option ItemId)
    (h1 : determineItemToMove T B.scene B.stylusTool fuel B.view.movingItem = some r)
    (h2 : determineItemToMove T B.scene B.stylusTool fuel r = some r) :
    handleItemMouseMove T X fuel B e = handleItemMouseMove T X fuel (B.setMovingItem r) e := by
  unfold handleItemMouseMove
  simp only [Board.setMovingItem_view, Board.setMovingItem_scene, Board.setMovingItem_stylusTool,
    h1, h2, Board.setMovingItem_twice]

/-- A call of `handleItemMouseMove` returns once the move resolution `r` does.
When the handler moves the item itself the moving item on return is `r`;
otherwise the move goes to the base class, unless there is no moving item and
the mouse button is pressed, and the moving item on return is the one that the
base class left. -/
theorem handleItemMouseMove_mover_after (T : ItemTypes) (X : Collaborators) (fuel : Nat)
    (B : Board) (e : QMouseEvent) (r : Option ItemId)
    (hdet : determineItemToMove T B.scene B.stylusTool fuel B.view.movingItem = some r) :
    ∃ B1, handleItemMouseMove T X fuel B e = some B1
      ∧ B1.view.movingItem
        = (if (itemShouldBeMoved T B.scene B.stylusTool (B.setMovingItem r).view r
              && B.view.pointerIsPressed) = true then r
          else if r.isSome = true ∨ B.view.mMouseButtonIsPressed = false then
            ((B.setMovingItem r).callViewMouseMoveEvent X e).view.movingItem
          else r) := by
  unfold handleItemMouseMove
  rw [hdet]
  cases r with
  | none =>
    have h0 : ¬ ((itemShouldBeMoved T B.scene B.stylusTool (B.setMovingItem none).view none
        && B.view.pointerIsPressed) = true) := by
      simp [itemShouldBeMoved]
    rw [if_neg h0]
    refine ⟨_, rfl, ?_⟩
    by_cases hp : B.view.mMouseButtonIsPressed = false
    · rw [if_pos (Or.inr hp)]
      have hp2 : (B.setMovingItem none).view.mMouseButtonIsPressed = false := hp
      dsimp only
      rw [if_pos hp2]
      rfl
    · have hp3 : ¬ (Option.isSome (none : Option ItemId) = true
          ∨ B.view.mMouseButtonIsPressed = false) := by
        simp [hp]
      rw [if_neg hp3]
      have hp2 : ¬ ((B.setMovingItem none).view.mMouseButtonIsPressed = false) := hp
      dsimp only
      rw [if_neg hp2]
      rfl
  | some m =>
    by_cases hc : (itemShouldBeMoved T B.scene B.stylusTool (B.setMovingItem (some m)).view
        (some m) && B.view.pointerIsPressed) = true
    · rw [if_pos hc]
      dsimp only [Board.setMovingItem_view, Board.setMovingItem_scene,
        Board.setMovingItem_stylusTool]
      split
      · refine ⟨_, rfl, ?_⟩
        split <;> rfl
      · rename_i h
        exact absurd hc h
    · have hs : (Option.isSome (some m) = true ∨ B.view.mMouseButtonIsPressed = false) :=
        Or.inl rfl
      rw [if_neg hc, if_pos hs]
      dsimp only [Board.setMovingItem_view, Board.setMovingItem_scene,
        Board.setMovingItem_stylusTool]
      split
      · rename_i h
        exact absurd h hc
      · split
        · split
          · exact ⟨_, rfl, rfl⟩
          · exact ⟨_, rfl, rfl⟩
        · exact ⟨_, rfl, rfl⟩

/-- A sequence of move events starts, like its first event, with the move
resolution of the moving item. -/
theorem dragSteps_resolved (T : ItemTypes) (X : Collaborators) (fuel : Nat)
    (B : Board) (e : QMouseEvent) (es : List QMouseEvent) (r : Option ItemId)
    (h1 : determineItemToMove T B.scene B.stylusTool fuel B.view.movingItem = some r)
    (h2 : determineItemToMove T B.scene B.stylusTool fuel r = some r) :
    dragSteps T X fuel B (e :: es) = dragSteps T X fuel (B.setMovingItem r) (e :: es) := by
  simp only [dragSteps, handleItemMouseMove_resolved T X fuel B e r h1 h2]

/-! ## Lemmas on a press delivered at once, for a base class that acts on the scene -/

/-- The clean-up of the children of a proxy widget keeps every parent link. -/
theorem cleanUpProxyChildren_parentItem (T : ItemTypes) (X : Collaborators)
    (S : UBGraphicsScene) (x : Option ItemId) (i : ItemId) :
    ((cleanUpProxyChildren T X S x).item i).parentItem = (S.item i).parentItem := by
  cases x with
  | none => rfl
  | some item =>
    unfold cleanUpProxyChildren
    dsimp only
    split
    · exact foldl_keeps
        (fun acc : UBGraphicsScene => ∀ j, (acc.item j).parentItem = (S.item j).parentItem)
        _ (fun acc c h j => by
          split
          · rw [setPos_parentItem]; exact h j
          · exact h j) _ S (fun _ => rfl) i
    · rfl

/-- In single selection, when the policy delivers the press at once and leaves
the view as it is, the part of `handleItemMousePress` after the selection step
returns with the view and the tool unchanged and the call of the base class as
the only new call, for a base class that acts on the scene only. -/
theorem pressAfterSelection_delivered (T : ItemTypes) (X : Collaborators) (n fuel : Nat)
    (D : Board) (event : QMouseEvent)
    (hmulti : D.view.mMultipleSelectionIsEnabled = false)
    (hpolicy : itemShouldReceiveMousePressEvent T D.scene D.stylusTool D.view D.view.movingItem
      = (true, D.view))
    (hframe : X.pressActsOnScene)
    (hchain : ∀ item, parentChainWithin D.scene n item = true) (hfuel : n < fuel) :
    ∃ B', pressAfterSelection T X fuel D event = some B'
      ∧ B'.view = D.view ∧ B'.stylusTool = D.stylusTool
      ∧ B'.effects = D.effects ++ [Effect.viewMousePressEvent event]
      ∧ ∀ i, (B'.scene.item i).parentItem = (D.scene.item i).parentItem := by
  obtain ⟨f1, f2, f3, f4⟩ := hframe ((D.withView D.view).log (Effect.viewMousePressEvent event))
    event
  have hterm : ∃ r, determineItemToPress T
      (X.viewMousePressEvent ((D.withView D.view).log (Effect.viewMousePressEvent event))
        event).scene
      (X.viewMousePressEvent ((D.withView D.view).log (Effect.viewMousePressEvent event))
        event).stylusTool fuel
      (X.itemAt (X.viewMousePressEvent ((D.withView D.view).log
        (Effect.viewMousePressEvent event)) event).scene (X.mapToScene event.pos)) = some r := by
    refine determineItemToPress_returns T _ _ n fuel _ (fun item _ => ?_) hfuel
    exact (parentChainWithin_congr D.scene _ f4 n item).trans (hchain item)
  obtain ⟨r, hr⟩ := hterm
  unfold pressAfterSelection
  rw [if_neg (by rw [hmulti]; decide)]
  dsimp only
  rw [hpolicy]
  dsimp only
  rw [if_pos rfl, Board.callViewMousePressEvent, hr]
  refine ⟨_, rfl, ?_, ?_, ?_, ?_⟩
  · exact f1
  · exact f2
  · exact f3
  · intro i
    exact (cleanUpProxyChildren_parentItem T X _ r i).trans (f4 i)


/-- A press handled on a moving item `t` that is pressed itself, sits in a
group container and receives the press at once, in single selection: the press
goes to the base class, and the handler returns with the tool, the suspended
press and the kind of the view as they were, for a base class that acts on the
scene only. -/
theorem handleItemMousePress_delivered (T : ItemTypes) (X : Collaborators) (n fuel : Nat)
    (B : Board) (event : QMouseEvent) (t : ItemId)
    (hmover : B.view.movingItem = some t)
    (hdet : determineItemToPress T B.scene B.stylusTool fuel (some t) = some (some t))
    (hgroup : ((B.scene.item t).parentItem.isSome
      && parentHasType B.scene t T.GroupContainer) = true)
    (hmulti : B.view.mMultipleSelectionIsEnabled = false)
    (hpolicy : ∀ V, itemShouldReceiveMousePressEvent T B.scene B.stylusTool V (some t)
      = (true, V))
    (hframe : X.pressActsOnScene)
    (hchain : ∀ item, parentChainWithin B.scene n item = true) (hfuel : n < fuel) :
    ∃ B', handleItemMousePress T X fuel B event = some B'
      ∧ B'.stylusTool = B.stylusTool
      ∧ B'.effects = B.effects ++ [Effect.viewMousePressEvent event]
      ∧ B'.view.suspendedMousePressEvent = B.view.suspendedMousePressEvent
      ∧ B'.view.bIsDesktop = B.view.bIsDesktop
      ∧ ∀ i, (B'.scene.item i).parentItem = (B.scene.item i).parentItem := by
  have hD : pressDecisionBoard T X B event (some t)
      = (B.withView { B.view with mLastPressedMousePos := X.mapToScene event.pos }).setMovingItem
          (some t) := by
    unfold pressDecisionBoard handleItemsSelection
    simp only [Board.setMovingItem_view, Board.setMovingItem_scene, Board.withView_scene, hgroup,
      if_true]
  rw [handleItemMousePress_eq, hmover, hdet]
  dsimp only
  rw [hD]
  obtain ⟨B', h, k1, k2, k3, k4⟩ := pressAfterSelection_delivered T X n fuel
    ((B.withView { B.view with mLastPressedMousePos := X.mapToScene event.pos }).setMovingItem
      (some t)) event hmulti (hpolicy _) hframe hchain hfuel
  refine ⟨B', h, k2, k3, ?_, ?_, k4⟩
  · rw [k1]; rfl
  · rw [k1]; rfl

/-- The Selector / Play case of a press under the conditions of
`handleItemMousePress_delivered`, in a view that is not of the desktop kind,
the moving item not being the background: the press goes to the base class and
is accepted. -/
theorem pressSelectorOrPlay_delivered (T : ItemTypes) (X : Collaborators) (n fuel : Nat)
    (B : Board) (event : QMouseEvent) (t : ItemId)
    (hdesk : B.view.bIsDesktop = false)
    (hbg : B.scene.backgroundObject ≠ some t)
    (hmover : B.view.movingItem = some t)
    (hdet : determineItemToPress T B.scene B.stylusTool fuel (some t) = some (some t))
    (hgroup : ((B.scene.item t).parentItem.isSome
      && parentHasType B.scene t T.GroupContainer) = true)
    (hmulti : B.view.mMultipleSelectionIsEnabled = false)
    (hpolicy : ∀ V, itemShouldReceiveMousePressEvent T B.scene B.stylusTool V (some t)
      = (true, V))
    (hframe : X.pressActsOnScene)
    (hchain : ∀ item, parentChainWithin B.scene n item = true) (hfuel : n < fuel) :
    ∃ B', pressSelectorOrPlay T X fuel B event = some B'
      ∧ B'.stylusTool = B.stylusTool
      ∧ B'.effects = B.effects ++ [Effect.viewMousePressEvent event, Effect.eventAccept]
      ∧ B'.view.suspendedMousePressEvent = B.view.suspendedMousePressEvent
      ∧ B'.view.bIsDesktop = false
      ∧ ∀ i, (B'.scene.item i).parentItem = (B.scene.item i).parentItem := by
  have hstep : ∀ B7 : Board, B7.view.movingItem = some t → B7.scene = B.scene →
      B7.stylusTool = B.stylusTool → B7.effects = B.effects →
      B7.view.mMultipleSelectionIsEnabled = false →
      B7.view.suspendedMousePressEvent = B.view.suspendedMousePressEvent →
      B7.view.bIsDesktop = false →
      ∃ B', (match handleItemMousePress T X fuel B7 event with
        | none => none
        | some B8 => some (B8.log Effect.eventAccept)) = some B'
        ∧ B'.stylusTool = B.stylusTool
        ∧ B'.effects = B.effects ++ [Effect.viewMousePressEvent event, Effect.eventAccept]
        ∧ B'.view.suspendedMousePressEvent = B.view.suspendedMousePressEvent
        ∧ B'.view.bIsDesktop = false
        ∧ ∀ i, (B'.scene.item i).parentItem = (B.scene.item i).parentItem := by
    intro B7 h1 h2 h3 h4 h5 h6 h8
    obtain ⟨B8, h, k2, k3, k5, k7, k9⟩ :=
      handleItemMousePress_delivered T X n fuel B7 event t h1 (by rw [h2, h3]; exact hdet)
        (by rw [h2]; exact hgroup) h5 (by rw [h2, h3]; exact hpolicy) hframe
        (by rw [h2]; exact hchain) hfuel
    rw [h]
    refine ⟨_, rfl, ?_, ?_, ?_, ?_, ?_⟩
    · rw [Board.log_stylusTool, k2, h3]
    · rw [Board.log_effects, k3, h4, List.append_assoc]; rfl
    · rw [Board.log_view, k5, h6]
    · rw [Board.log_view, k7, h8]
    · intro i; rw [Board.log_scene, k9, h2]
  have hbg2 : ¬ (B.scene.backgroundObject = B.view.movingItem) := by
    rw [hmover]; exact hbg
  unfold pressSelectorOrPlay
  rw [if_neg (by rw [hdesk]; decide)]
  simp only []
  rw [if_neg hbg2, if_neg (by rw [Board.withView_view]; simp [hmover])]
  exact hstep _ hmover rfl rfl rfl hmulti rfl hdesk

/-- A left-button press without the Control key under the Selector tool, in an
interactive view of the control kind, on a text item `t` whose parent `g` is a
selected group container: the handler returns, the press has gone to the
base class at once and was accepted, and the tool, the suspended press and the
parent links are as before, for a base class that acts on the scene only. -/
theorem mousePressEvent_delivered_in_selected_group (T : ItemTypes) (X : Collaborators)
    (n fuel : Nat) (B : Board) (event : QMouseEvent) (t g : ItemId)
    (hlabels : T.pressCaseLabels.Nodup) (hne : T.GroupContainer ≠ T.StrokesGroup)
    (htool : B.stylusTool = UBStylusTool.Selector)
    (hcontrol : B.view.bIsControl = true) (hdesk : B.view.bIsDesktop = false)
    (hinteractive : B.view.interactive = true)
    (hleft : event.button = MouseButton.LeftButton)
    (hctrl : event.modifiers.control = false)
    (hpoint : X.isAbsurdPoint event.pos = false)
    (hhit : X.itemAt B.scene (X.mapToScene event.pos) = some t)
    (hframe : X.pressActsOnScene)
    (hbg : B.scene.backgroundObject ≠ some t)
    (htype : (B.scene.item t).type = T.Text)
    (hparent : (B.scene.item t).parentItem = some g)
    (hgtype : (B.scene.item g).type = T.GroupContainer)
    (hgsel : (B.scene.item g).isSelected = true)
    (hchain : ∀ item, parentChainWithin B.scene n item = true) (hfuel : n < fuel) :
    ∃ B', mousePressEvent T X fuel B event = some B'
      ∧ B'.stylusTool = UBStylusTool.Selector
      ∧ B'.effects = B.effects ++ [Effect.viewMousePressEvent event, Effect.eventAccept]
      ∧ B'.view.suspendedMousePressEvent = B.view.suspendedMousePressEvent
      ∧ B'.view.bIsDesktop = false
      ∧ ∀ i, (B'.scene.item i).parentItem = (B.scene.item i).parentItem := by
  have hpsel : parentIsSelected B.scene t = true :=
    (parentIsSelected_of_parent B.scene t g hparent).trans hgsel
  have hdet := determineItemToPress_in_selected_group T B.scene B.stylusTool fuel t g hparent
    hgtype hgsel hne (by omega)
  have hgroup : ((B.scene.item t).parentItem.isSome
      && parentHasType B.scene t T.GroupContainer) = true := by
    rw [parentHasType_of_parent B.scene t g T.GroupContainer hparent, hparent, hgtype]
    simp
  have hpolicy : ∀ V, itemShouldReceiveMousePressEvent T B.scene B.stylusTool V (some t)
      = (true, V) := by
    intro V
    rw [htool]
    exact press_text_parent_selected T B.scene V t hlabels hbg htype hpsel
  have hstep : ∀ B4 : Board, B4.view.bIsDesktop = false → B4.view.movingItem = some t →
      B4.scene = B.scene → B4.stylusTool = B.stylusTool → B4.effects = B.effects →
      B4.view.mMultipleSelectionIsEnabled = false →
      B4.view.suspendedMousePressEvent = B.view.suspendedMousePressEvent →
      ∃ B', pressSelectorOrPlay T X fuel B4 event = some B'
        ∧ B'.stylusTool = UBStylusTool.Selector
        ∧ B'.effects = B.effects ++ [Effect.viewMousePressEvent event, Effect.eventAccept]
        ∧ B'.view.suspendedMousePressEvent = B.view.suspendedMousePressEvent
        ∧ B'.view.bIsDesktop = false
        ∧ ∀ i, (B'.scene.item i).parentItem = (B.scene.item i).parentItem := by
    intro B4 h1 h2 h3 h4 h5 h6 h7
    obtain ⟨B', h, k2, k3, k5, k7, k9⟩ :=
      pressSelectorOrPlay_delivered T X n fuel B4 event t h1 (by rw [h3]; exact hbg) h2
        (by rw [h3, h4]; exact hdet) (by rw [h3]; exact hgroup) h6
        (by rw [h3, h4]; exact hpolicy) hframe (by rw [h3]; exact hchain) hfuel
    refine ⟨B', h, ?_, ?_, ?_, k7, ?_⟩
    · rw [k2, h4, htool]
    · rw [k3, h5]
    · rw [k5, h7]
    · intro i; rw [k9, h3]
  unfold mousePressEvent
  simp only [hcontrol, hpoint, hleft, hinteractive, Board.withView_view, Board.withView_scene,
    Board.withView_stylusTool, Board.setMovingItem_view, Board.setMovingItem_scene,
    Board.setMovingItem_stylusTool, Bool.not_true, Bool.false_and, Bool.false_eq_true,
    if_false, and_self, if_true, htool]
  by_cases htab : B.view.mTabletStylusIsPressed = false
  · rw [if_pos htab]
    exact hstep _ hdesk hhit rfl rfl rfl hctrl rfl
  · rw [if_neg htab]
    exact hstep _ hdesk hhit rfl rfl rfl hctrl rfl


/-- The Selector branch of `mouseReleaseEvent` is its guard, the commit of the
undo step and the comparison with the item under the pointer, followed by
`releaseSelectorOutcome` and the call of the base class. -/
theorem releaseSelector_eq (T : ItemTypes) (X : Collaborators) (fuel : Nat) (B : Board)
    (event : QMouseEvent) :
    releaseSelector T X fuel B event
      = if B.view.bIsDesktop = true then some (B.log Effect.eventIgnore, false)
        else
          match determineItemToPress T (commitUndoStepOfMovingItem X B).scene
              (commitUndoStepOfMovingItem X B).stylusTool fuel
              (X.itemAt (commitUndoStepOfMovingItem X B).scene (X.mapToScene event.pos)) with
          | none => none
          | some underPointer =>
            some (if (releaseSelectorOutcome T X
                  (if decide ((commitUndoStepOfMovingItem X B).view.movingItem ≠ underPointer)
                      = true then (commitUndoStepOfMovingItem X B).setMovingItem none
                    else commitUndoStepOfMovingItem X B)
                  (!decide ((commitUndoStepOfMovingItem X B).view.movingItem
                    ≠ underPointer))).2 = true then
                (releaseSelectorOutcome T X
                  (if decide ((commitUndoStepOfMovingItem X B).view.movingItem ≠ underPointer)
                      = true then (commitUndoStepOfMovingItem X B).setMovingItem none
                    else commitUndoStepOfMovingItem X B)
                  (!decide ((commitUndoStepOfMovingItem X B).view.movingItem
                    ≠ underPointer))).1.callViewMouseReleaseEvent X event
              else (releaseSelectorOutcome T X
                  (if decide ((commitUndoStepOfMovingItem X B).view.movingItem ≠ underPointer)
                      = true then (commitUndoStepOfMovingItem X B).setMovingItem none
                    else commitUndoStepOfMovingItem X B)
                  (!decide ((commitUndoStepOfMovingItem X B).view.movingItem
                    ≠ underPointer))).1, true) := by
  rfl

/-- With no suspended press buffered, the outcome of the Selector branch of a
release records no call of the press handler of the base class. -/
theorem releaseSelectorOutcome_replays_nothing (T : ItemTypes) (X : Collaborators)
    (B2 : Board) (b : Bool) (hsusp : B2.view.suspendedMousePressEvent = none) :
    B2.addsNone Effect.isViewMousePressEvent (releaseSelectorOutcome T X B2 b).1 := by
  unfold releaseSelectorOutcome
  split
  · dsimp only
    split
    · split
      · exact Board.addsNone_of_log _ rfl (by rfl)
      · exact Board.addsNone_refl _ B2
    · exact Board.addsNone_refl _ B2
  · split
    · split
      · rw [hsusp]
        dsimp only
        split
        · exact ⟨[], by rw [(releaseToggleSelection_rest B2 _).2.2, List.append_nil],
            fun _ h => absurd h (List.not_mem_nil _)⟩
        · exact Board.addsNone_refl _ B2
      · exact Board.addsNone_refl _ B2
    · exact Board.addsNone_refl _ B2


/-- With no suspended press buffered, the Selector branch of a release returns
once the resolution of the item under the pointer does, and records no call of
the press handler of the base class, for a base class whose release handler
makes none. -/
theorem releaseSelector_replays_nothing (T : ItemTypes) (X : Collaborators) (fuel : Nat)
    (B : Board) (event : QMouseEvent)
    (hsusp : B.view.suspendedMousePressEvent = none)
    (hrel : X.releasePassesNoPress)
    (hterm : ∃ r, determineItemToPress T B.scene B.stylusTool fuel
      (X.itemAt B.scene (X.mapToScene event.pos)) = some r) :
    ∃ R, releaseSelector T X fuel B event = some R
      ∧ B.addsNone Effect.isViewMousePressEvent R.1 := by
  obtain ⟨u, hu⟩ := hterm
  have hcall : ∀ A : Board, B.addsNone Effect.isViewMousePressEvent A →
      B.addsNone Effect.isViewMousePressEvent (A.callViewMouseReleaseEvent X event) := by
    intro A hA
    exact Board.addsNone_trans (Board.addsNone_trans hA
      (Board.addsNone_of_log (Effect.viewMouseReleaseEvent event)
        (Board.log_effects A (Effect.viewMouseReleaseEvent event)) (by rfl))) (hrel _ _)
  have hc := commitUndoStepOfMovingItem_addsNone Effect.isViewMousePressEvent X B (fun _ => rfl)
  have hv : (commitUndoStepOfMovingItem X B).view = B.view := commitUndoStepOfMovingItem_view X B
  have hout : ∀ (B2 : Board) (b : Bool), B.addsNone Effect.isViewMousePressEvent B2 →
      B2.view.suspendedMousePressEvent = none →
      ∃ R, some ((if (releaseSelectorOutcome T X B2 b).2 = true then
            (releaseSelectorOutcome T X B2 b).1.callViewMouseReleaseEvent X event
          else (releaseSelectorOutcome T X B2 b).1, true) : Board × Bool) = some R
        ∧ B.addsNone Effect.isViewMousePressEvent R.1 := by
    intro B2 b h2 hs
    have ho := Board.addsNone_trans h2 (releaseSelectorOutcome_replays_nothing T X B2 b hs)
    refine ⟨_, rfl, ?_⟩
    dsimp only
    split
    · exact hcall _ ho
    · exact ho
  rw [releaseSelector_eq]
  split
  · exact ⟨_, rfl, Board.addsNone_of_log Effect.eventIgnore rfl (by rfl)⟩
  · rw [commitUndoStepOfMovingItem_scene, commitUndoStepOfMovingItem_stylusTool, hu]
    dsimp only
    apply hout
    · split
      · exact hc
      · exact hc
    · split
      · rw [Board.setMovingItem_view]
        dsimp only
        rw [hv]; exact hsusp
      · rw [hv]; exact hsusp

/-- Under the Selector tool, with no suspended press buffered, a release returns
once the resolution of the item under the pointer does, and records no call of
the press handler of the base class, for a base class whose release handler
makes none. -/
theorem mouseReleaseEvent_replays_nothing (T : ItemTypes) (X : Collaborators) (fuel : Nat)
    (B : Board) (event : QMouseEvent)
    (htool : B.stylusTool = UBStylusTool.Selector)
    (hsusp : B.view.suspendedMousePressEvent = none)
    (hrel : X.releasePassesNoPress)
    (hterm : ∃ r, determineItemToPress T B.scene B.stylusTool fuel
      (X.itemAt B.scene (X.mapToScene event.pos)) = some r) :
    ∃ B2, mouseReleaseEvent T X fuel B event = some B2
      ∧ B.addsNone Effect.isViewMousePressEvent B2 := by
  have h0 : B.addsNone Effect.isViewMousePressEvent
      ((B.log (Effect.setToolCursor B.stylusTool)).log Effect.inputDeviceRelease) :=
    Board.addsNone_trans
      (Board.addsNone_of_log (Effect.setToolCursor B.stylusTool)
        (Board.log_effects B (Effect.setToolCursor B.stylusTool)) (by rfl))
      (Board.addsNone_of_log Effect.inputDeviceRelease
        (Board.log_effects _ Effect.inputDeviceRelease) (by rfl))
  obtain ⟨R, hR, hadd⟩ := releaseSelector_replays_nothing T X fuel
    ((B.log (Effect.setToolCursor B.stylusTool)).log Effect.inputDeviceRelease) event
    hsusp hrel hterm
  have h1 := Board.addsNone_trans h0 hadd
  unfold mouseReleaseEvent
  dsimp only
  rw [htool] at hR ⊢
  dsimp only
  rw [hR]
  obtain ⟨R1, R2⟩ := R
  dsimp only
  refine ⟨_, rfl, ?_⟩
  split
  · exact Board.addsNone_trans h1 (Board.addsNone_of_log Effect.updateSelectionFrame rfl (by rfl))
  · exact h1


/-- Every item of `sceneSelectedGroup` reaches an item without parent after at
most two links. -/
theorem sceneSelectedGroup_chain (item : ItemId) :
    parentChainWithin sceneSelectedGroup 2 item = true := by
  by_cases h1 : item = 1
  · subst h1; decide
  by_cases h2 : item = 2
  · subst h2; decide
  by_cases h3 : item = 3
  · subst h3; decide
  by_cases h4 : item = 4
  · subst h4; decide
  by_cases h5 : item = 5
  · subst h5; decide
  simp [parentChainWithin, sceneSelectedGroup, h1, h2, h3, h4, h5, plainItem]

/-! ## Gesture state machine: the claims -/

/-- C11 (the code at the failing input): the pixmap 2 of `sceneDesk` is locked
and sits at (200, 0); `rubberItems` lists it among the items under the band and
`moveRubberedItems` by (5, 0) puts it at (205, 0), whereas a drag step of
`handleItemMouseMove` with the same item as moving item leaves it in place. -/
theorem moveRubberedItems_moves_locked_item :
    (sceneDesk.item 2).locked = true
      ∧ (sceneDesk.item 2).pos = ⟨200, 0⟩
      ∧ (rubberItems sampleTypes deskCollaborators rubberBandBoard).view.mRubberedItems
          = [1, 2, 3]
      ∧ ((moveRubberedItems sampleTypes
            (rubberItems sampleTypes deskCollaborators rubberBandBoard) ⟨5, 0⟩).scene.item 2).pos
          = ⟨205, 0⟩
      ∧ (handleItemMouseMove sampleTypes deskCollaborators 3 lockedDragBoard
            (moveTo ⟨300, 50⟩)).map (fun B => (B.scene.item 2).pos) = some ⟨200, 0⟩ := by
  decide

/-- C20: `longPressEvent` turns the Selector tool into Play and Play into
Selector and keeps every other tool; under the Eraser tool it requests the
erase palette and under no other tool it makes a call to a collaborator; it
never touches the scene, and of the view it changes nothing but the connection
of the timer, which it removes; two consecutive long presses restore the tool. -/
theorem longPressEvent_spec (B : Board) :
    (longPressEvent B).stylusTool
        = (match B.stylusTool with
          | UBStylusTool.Selector => UBStylusTool.Play
          | UBStylusTool.Play => UBStylusTool.Selector
          | tool => tool)
      ∧ (longPressEvent B).effects
        = (if B.stylusTool = UBStylusTool.Eraser then
            B.effects ++ [Effect.toggleErasePalette true]
          else B.effects)
      ∧ (longPressEvent B).scene = B.scene
      ∧ (longPressEvent B).view = { B.view with longPressConnections := 0 }
      ∧ (longPressEvent (longPressEvent B)).stylusTool = B.stylusTool := by
  cases htool : B.stylusTool <;> simp [longPressEvent, htool, Board.withView, Board.log]

/-- C13 (as stated, refuted): under the Play tool the question put to
`itemShouldReceiveMousePressEvent` about the group container 2, then the moving
item, clears the moving item; and `itemShouldBeMoved` answers differently for
the same curtain 3, tool and selection state once the mouse button is no
longer pressed. -/
theorem policy_clears_mover_and_reads_pressed_flag :
    ((sceneSelectedGroup.item 2).type = sampleTypes.GroupContainer
        ∧ (pressedView (some 2)).movingItem = some 2
        ∧ (itemShouldReceiveMousePressEvent sampleTypes sceneSelectedGroup UBStylusTool.Play
            (pressedView (some 2)) (some 2)).2.movingItem = none)
      ∧ (itemShouldBeMoved sampleTypes sceneFlat UBStylusTool.Selector
            (pressedView (some 3)) (some 3) = true
        ∧ itemShouldBeMoved sampleTypes sceneFlat UBStylusTool.Selector
            { pressedView (some 3) with mMouseButtonIsPressed := false } (some 3) = false) := by
  decide

/-- C13 (amended): none of the three policy functions changes an item (the
scene is not among their results); `itemShouldReceiveSuspendedMousePressEvent`
and `itemShouldBeMoved` leave the session unchanged, and so does
`itemShouldReceiveMousePressEvent` except for a group container under the Play
tool, where it clears the moving item.  The answers of the first two depend
only on the tool, on whether the item is the background, and on the item's
type, selection state and parent; the answer of `itemShouldBeMoved` depends in
addition on the pressed flags and on the guard on the moving item. -/
theorem tool_policy_effects_and_dependencies (T : ItemTypes) (S S' : UBGraphicsScene)
    (tool : UBStylusTool) (V V' : UBBoardView) (item item' : ItemId)
    (hbg : some item = S.backgroundObject ↔ some item' = S'.backgroundObject)
    (htype : (S.item item).type = (S'.item item').type)
    (hsel : (S.item item).isSelected = (S'.item item').isSelected)
    (hparent : (S.item item).parentItem.isSome = (S'.item item').parentItem.isSome)
    (hparentSel : parentIsSelected S item = parentIsSelected S' item')
    (hpressed : V.pointerIsPressed = V'.pointerIsPressed)
    (hguard : movingItemGuard T S V = movingItemGuard T S' V') :
    ((itemShouldReceiveMousePressEvent T S tool V (some item)).2 = V
        ∨ (tool = UBStylusTool.Play ∧ (S.item item).type = T.GroupContainer
          ∧ (itemShouldReceiveMousePressEvent T S tool V (some item)).2
              = { V with movingItem := none }))
      ∧ (itemShouldReceiveMousePressEvent T S tool V (some item)).1
          = (itemShouldReceiveMousePressEvent T S' tool V' (some item')).1
      ∧ itemShouldReceiveSuspendedMousePressEvent T S tool (some item)
          = itemShouldReceiveSuspendedMousePressEvent T S' tool (some item')
      ∧ itemShouldBeMoved T S tool V (some item)
          = itemShouldBeMoved T S' tool V' (some item') := by
  have hub : isUBItem T S item = isUBItem T S' item' := by simp [isUBItem, htype]
  simp only [UBBoardView.pointerIsPressed] at hpressed
  refine ⟨?_, ?_, ?_, ?_⟩
  · exact press_cases T S tool V item
      (fun r => r.2 = V ∨ (tool = UBStylusTool.Play ∧ (S.item item).type = T.GroupContainer
        ∧ r.2 = { V with movingItem := none }))
      (fun _ => Or.inl rfl) (fun h1 h2 => Or.inr ⟨h1, h2, rfl⟩)
  · simp only [itemShouldReceiveMousePressEvent, htype, hsel, hparentSel, hub, hbg,
      apply_ite Prod.fst]
  · simp only [itemShouldReceiveSuspendedMousePressEvent, htype, hsel, hparent, hbg]
  · simp only [itemShouldBeMoved, htype, hsel, hbg, hpressed, hguard]

/-- Witness of C13 (amended): two plain pixmaps of `sceneFlat` under the
Selector tool, for a pressed and an idle view. -/
theorem tool_policy_effects_and_dependencies_witness :
    ((itemShouldReceiveMousePressEvent sampleTypes sceneFlat UBStylusTool.Selector
          (pressedView none) (some 10)).2 = pressedView none
        ∨ (UBStylusTool.Selector = UBStylusTool.Play
          ∧ (sceneFlat.item 10).type = sampleTypes.GroupContainer
          ∧ (itemShouldReceiveMousePressEvent sampleTypes sceneFlat UBStylusTool.Selector
              (pressedView none) (some 10)).2 = { pressedView none with movingItem := none }))
      ∧ (itemShouldReceiveMousePressEvent sampleTypes sceneFlat UBStylusTool.Selector
            (pressedView none) (some 10)).1
          = (itemShouldReceiveMousePressEvent sampleTypes sceneFlat UBStylusTool.Selector
            (pressedView (some 11)) (some 11)).1
      ∧ itemShouldReceiveSuspendedMousePressEvent sampleTypes sceneFlat UBStylusTool.Selector
            (some 10)
          = itemShouldReceiveSuspendedMousePressEvent sampleTypes sceneFlat
            UBStylusTool.Selector (some 11)
      ∧ itemShouldBeMoved sampleTypes sceneFlat UBStylusTool.Selector (pressedView none)
            (some 10)
          = itemShouldBeMoved sampleTypes sceneFlat UBStylusTool.Selector
            (pressedView (some 11)) (some 11) :=
  tool_policy_effects_and_dependencies sampleTypes sceneFlat sceneFlat UBStylusTool.Selector
    (pressedView none) (pressedView (some 11)) 10 11
    (by decide) (by decide) (by decide) (by decide) (by decide) (by decide) (by decide)

/-- C12 (as stated, refuted): in a view of the desktop kind a left-button press
under the Selector tool whose hit is the background object 0 returns with the
background object as moving item; so does a right-button press in the control
view. -/
theorem press_on_background_keeps_mover :
    (deskCollaborators.itemAt sceneDesk ⟨1000, 1000⟩ = sceneDesk.backgroundObject
        ∧ sceneDesk.backgroundObject = some 0)
      ∧ (mousePressEvent sampleTypes deskCollaborators 3
            (desktopIdleBoard UBStylusTool.Selector) (leftPressAt ⟨1000, 1000⟩)).map
          (fun B => B.view.movingItem) = some (some 0)
      ∧ (mousePressEvent sampleTypes deskCollaborators 3 (deskBoard UBStylusTool.Selector)
            (rightPressAt ⟨1000, 1000⟩)).map
          (fun B => B.view.movingItem) = some (some 0) := by
  decide

/-- C12 (amended): for every tool and state, `itemShouldReceiveMousePressEvent`,
`itemShouldReceiveSuspendedMousePressEvent` and `itemShouldBeMoved` all return
false for the scene's background object; and a left-button press under the
Selector or Play tool in an interactive view of the control kind (not the
desktop kind), at a point on the screen, whose hit is the background object
returns with no moving item.  The base class is taken to leave the board as it
is when the press is passed on to it. -/
theorem background_not_interactable (T : ItemTypes) (X : Collaborators) (fuel n : Nat)
    (B : Board) (event : QMouseEvent) (b : ItemId)
    (hbackground : B.scene.backgroundObject = some b)
    (htool : B.stylusTool = UBStylusTool.Selector ∨ B.stylusTool = UBStylusTool.Play)
    (hcontrol : B.view.bIsControl = true) (hdesk : B.view.bIsDesktop = false)
    (hinteractive : B.view.interactive = true)
    (hleft : event.button = MouseButton.LeftButton)
    (hpoint : X.isAbsurdPoint event.pos = false)
    (hhit : X.itemAt B.scene (X.mapToScene event.pos) = some b)
    (hbase : ∀ B' e, X.viewMousePressEvent B' e = B')
    (hchain : parentChainWithin B.scene n b = true) (hfuel : n < fuel) :
    (∀ tool V, (itemShouldReceiveMousePressEvent T B.scene tool V (some b)).1 = false
        ∧ itemShouldReceiveSuspendedMousePressEvent T B.scene tool (some b) = false
        ∧ itemShouldBeMoved T B.scene tool V (some b) = false)
      ∧ ∃ B', mousePressEvent T X fuel B event = some B' ∧ B'.view.movingItem = none := by
  constructor
  · intro tool V
    refine ⟨?_, ?_, ?_⟩
    · rw [itemShouldReceiveMousePressEvent, if_pos hbackground.symm]
    · rw [itemShouldReceiveSuspendedMousePressEvent, if_pos hbackground.symm]
    · rw [itemShouldBeMoved, if_pos hbackground.symm]
  · have hterm := determineItemToPress_returns T B.scene B.stylusTool n fuel
      (X.itemAt B.scene (X.mapToScene event.pos))
      (fun item h => by rw [hhit] at h; cases h; exact hchain) hfuel
    have hstep : ∀ B4 : Board, B4.view.bIsDesktop = false →
        B4.view.movingItem = some b → B4.scene = B.scene → B4.stylusTool = B.stylusTool →
        ∃ B', pressSelectorOrPlay T X fuel B4 event = some B' ∧ B'.view.movingItem = none := by
      intro B4 h1 h2 h3 h4
      exact pressSelectorOrPlay_background T X fuel B4 event h1
        (by rw [h2, h3]; exact hbackground) hbase (by rw [h3, h4]; exact hterm)
    unfold mousePressEvent
    simp only [hcontrol, hpoint, hleft, hinteractive, Board.withView_view, Board.withView_scene,
      Board.withView_stylusTool, Board.setMovingItem_view, Board.setMovingItem_scene,
      Board.setMovingItem_stylusTool, Bool.not_true, Bool.false_and, Bool.false_eq_true,
      if_false, and_self, if_true]
    rcases htool with ht | ht
    · simp only [ht]
      by_cases htab : B.view.mTabletStylusIsPressed = false
      · rw [if_pos htab]
        exact hstep _ hdesk hhit rfl rfl
      · rw [if_neg htab]
        exact hstep _ hdesk hhit rfl rfl
    · simp only [ht]
      by_cases htab : B.view.mTabletStylusIsPressed = false
      · rw [if_pos htab]
        exact hstep _ hdesk hhit rfl rfl
      · rw [if_neg htab]
        exact hstep _ hdesk hhit rfl rfl

/-- Witness of C12 (amended): a left-button press on the empty page of
`sceneDesk` under the Selector tool. -/
theorem background_not_interactable_witness :
    (∀ tool V, (itemShouldReceiveMousePressEvent sampleTypes sceneDesk tool V (some 0)).1 = false
        ∧ itemShouldReceiveSuspendedMousePressEvent sampleTypes sceneDesk tool (some 0) = false
        ∧ itemShouldBeMoved sampleTypes sceneDesk tool V (some 0) = false)
      ∧ ∃ B', mousePressEvent sampleTypes deskCollaborators 1 (deskBoard UBStylusTool.Selector)
          (leftPressAt ⟨1000, 1000⟩) = some B' ∧ B'.view.movingItem = none :=
  background_not_interactable sampleTypes deskCollaborators 1 0
    (deskBoard UBStylusTool.Selector) (leftPressAt ⟨1000, 1000⟩) 0
    (by decide) (by decide) (by decide) (by decide) (by decide) (by decide) (by decide)
    (by decide) (fun _ _ => rfl) (by decide) (by decide)

/-- C19 (as stated, refuted): in a view of the desktop kind a release under the
Selector tool, and likewise under the Play tool, returns with the mouse button
still marked pressed, the moving item and the multi-selection band still set,
the long-press timer still running, and `event->ignore()` as its last call. -/
theorem release_in_desktop_view_skips_teardown :
    (desktopPressedBoard UBStylusTool.Selector).view.bIsDesktop = true
      ∧ (mouseReleaseEvent sampleTypes deskCollaborators 3
            (desktopPressedBoard UBStylusTool.Selector) (releaseAt ⟨450, 50⟩)).map
          (fun B => B.view.mMouseButtonIsPressed) = some true
      ∧ (mouseReleaseEvent sampleTypes deskCollaborators 3
            (desktopPressedBoard UBStylusTool.Selector) (releaseAt ⟨450, 50⟩)).map
          (fun B => B.view.movingItem) = some (some 3)
      ∧ (mouseReleaseEvent sampleTypes deskCollaborators 3
            (desktopPressedBoard UBStylusTool.Selector) (releaseAt ⟨450, 50⟩)).map
          (fun B => B.view.mUBRubberBand) = some (some ⟨0, 0, 10, 10⟩)
      ∧ (mouseReleaseEvent sampleTypes deskCollaborators 3
            (desktopPressedBoard UBStylusTool.Selector) (releaseAt ⟨450, 50⟩)).map
          (fun B => B.view.longPressTimerActive) = some true
      ∧ (mouseReleaseEvent sampleTypes deskCollaborators 3
            (desktopPressedBoard UBStylusTool.Selector) (releaseAt ⟨450, 50⟩)).map
          (fun B => B.effects.getLast?) = some (some Effect.eventIgnore)
      ∧ (mouseReleaseEvent sampleTypes deskCollaborators 3
            (desktopPressedBoard UBStylusTool.Play) (releaseAt ⟨450, 50⟩)).map
          (fun B => B.view.mMouseButtonIsPressed) = some true
      ∧ (mouseReleaseEvent sampleTypes deskCollaborators 3
            (desktopPressedBoard UBStylusTool.Play) (releaseAt ⟨450, 50⟩)).map
          (fun B => B.view.movingItem) = some (some 3) := by
  decide

/-- C19 (amended): for every tool and every branch taken, except under the
Selector or Play tool in a view of the desktop kind (where the handler returns
early), `mouseReleaseEvent` returns, and on return both rubber bands are
deleted, the moving item is null, the mouse-pressed and stylus-pressed flags
are false, the long-press timer is stopped and the last call made is the
request to update the selection frame. -/
theorem mouseReleaseEvent_teardown (T : ItemTypes) (X : Collaborators) (fuel n : Nat)
    (B : Board) (event : QMouseEvent)
    (hview : B.view.bIsDesktop = false
      ∨ (B.stylusTool ≠ UBStylusTool.Selector ∧ B.stylusTool ≠ UBStylusTool.Play))
    (hchain : ∀ item, X.itemAt B.scene (X.mapToScene event.pos) = some item →
      parentChainWithin B.scene n item = true)
    (hfuel : n < fuel) :
    ∃ B', mouseReleaseEvent T X fuel B event = some B'
      ∧ B'.view.mUBRubberBand = none
      ∧ B'.view.mRubberBand = none
      ∧ B'.view.movingItem = none
      ∧ B'.view.mMouseButtonIsPressed = false
      ∧ B'.view.mTabletStylusIsPressed = false
      ∧ B'.view.longPressTimerActive = false
      ∧ B'.effects.getLast? = some Effect.updateSelectionFrame := by
  have key : ∃ B1, mouseReleaseEvent T X fuel B event = some (releaseTeardown B1) := by
    cases htool : B.stylusTool
    case Selector =>
      have hdesk : B.view.bIsDesktop = false := by
        rcases hview with h | h
        · exact h
        · exact absurd htool h.1
      obtain ⟨B1, hB1⟩ := releaseSelector_reaches T X fuel n
        ((B.log (Effect.setToolCursor B.stylusTool)).log Effect.inputDeviceRelease) event
        hdesk hchain hfuel
      refine ⟨B1, ?_⟩
      unfold mouseReleaseEvent
      simp only [htool] at hB1 ⊢
      rw [hB1]
      rfl
    case Text =>
      obtain ⟨B1, hB1⟩ := releaseText_returns T X fuel n
        ((B.log (Effect.setToolCursor B.stylusTool)).log Effect.inputDeviceRelease) event
        hchain hfuel
      refine ⟨B1, ?_⟩
      unfold mouseReleaseEvent
      simp only [htool] at hB1 ⊢
      rw [hB1]
    case Play =>
      have hdesk : B.view.bIsDesktop = false := by
        rcases hview with h | h
        · exact h
        · exact absurd htool h.2
      have hr := releasePlay_reaches X
        ((B.log (Effect.setToolCursor B.stylusTool)).log Effect.inputDeviceRelease) event hdesk
      unfold mouseReleaseEvent
      simp only [htool] at hr ⊢
      rw [if_pos hr]
      exact ⟨_, rfl⟩
    all_goals
      unfold mouseReleaseEvent
      simp only [htool]
      exact ⟨_, rfl⟩
  obtain ⟨B1, hB1⟩ := key
  exact ⟨_, hB1, releaseTeardown_spec B1⟩

/-- Witness of C19 (amended): a release at (250, 50) in the drag of the locked
pixmap 2 of `sceneDesk`, control view, Selector tool. -/
theorem mouseReleaseEvent_teardown_witness :
    ∃ B', mouseReleaseEvent sampleTypes deskCollaborators 1 lockedDragBoard
        (releaseAt ⟨250, 50⟩) = some B'
      ∧ B'.view.mUBRubberBand = none
      ∧ B'.view.mRubberBand = none
      ∧ B'.view.movingItem = none
      ∧ B'.view.mMouseButtonIsPressed = false
      ∧ B'.view.mTabletStylusIsPressed = false
      ∧ B'.view.longPressTimerActive = false
      ∧ B'.effects.getLast? = some Effect.updateSelectionFrame :=
  mouseReleaseEvent_teardown sampleTypes deskCollaborators 1 0 lockedDragBoard
    (releaseAt ⟨250, 50⟩) (Or.inl (by decide))
    (fun item h => by
      have h2 : deskCollaborators.itemAt lockedDragBoard.scene
          (deskCollaborators.mapToScene (releaseAt ⟨250, 50⟩).pos) = some 2 := by decide
      cases h2.symm.trans h
      decide)
    (by decide)

/-- C14 (the code at the failing input): after a session in which the media
item 1 was pressed, dragged and released, the press of that session is still
buffered; a new press with the Control key held on the pixmap 3, and likewise a
plain press on the empty page, return with that stale press still buffered, and
the release of the new session on the pixmap 3 replays it. -/
theorem stale_suspended_press_survives_press :
    mediaDragRun.map (fun B => B.view.suspendedMousePressEvent)
        = some (some (leftPressAt ⟨50, 50⟩))
      ∧ mediaDragRun.map (fun B => B.view.movingItem) = some none
      ∧ mediaDragThenCtrlPress.map (fun B => B.view.suspendedMousePressEvent)
        = some (some (leftPressAt ⟨50, 50⟩))
      ∧ mediaDragThenCtrlPress.map (fun B => B.view.movingItem) = some (some 3)
      ∧ mediaDragThenPagePress.map (fun B => B.view.suspendedMousePressEvent)
        = some (some (leftPressAt ⟨50, 50⟩))
      ∧ (mediaDragThenCtrlPress.bind (deskRelease (releaseAt ⟨450, 50⟩))).map
          (fun B => B.effects.getLast? ) = some (some Effect.updateSelectionFrame)
      ∧ (mediaDragThenCtrlPress.bind (deskRelease (releaseAt ⟨450, 50⟩))).map
          (fun B => (B.effects.filter
            (fun e => decide (e = Effect.viewMousePressEvent (leftPressAt ⟨50, 50⟩)))).length)
        = some 1
      ∧ mediaDragThenCtrlPress.map
          (fun B => (B.effects.filter
            (fun e => decide (e = Effect.viewMousePressEvent (leftPressAt ⟨50, 50⟩)))).length)
        = some 0 := by
  decide

/-- C18 (the code at the failing input): after a stroke of the Pen tool the
flag `mWidgetMoved` is still set; the press on the pixmap 3 under the Selector
tool is accepted (the pixmap is the moving item, no drag is in progress) and
does not clear the flag, so the release at the press point, with no move in
between, takes the branch of a completed drag and leaves the pixmap unselected,
whereas the same click from the idle board selects it.  No item is translated
in either run. -/
theorem click_after_pen_stroke_taken_as_drag :
    penStrokeThenSelectorPress.map (fun B => B.view.movingItem) = some (some 3)
      ∧ penStrokeThenSelectorPress.map (fun B => B.view.mIsDragInProgress) = some false
      ∧ penStrokeThenSelectorPress.map (fun B => B.view.mWidgetMoved) = some true
      ∧ (penStrokeThenSelectorPress.bind (deskRelease (releaseAt ⟨450, 50⟩))).map
          (fun B => (B.scene.item 3).isSelected) = some false
      ∧ (penStrokeThenSelectorPress.bind (deskRelease (releaseAt ⟨450, 50⟩))).map
          (fun B => (B.scene.item 3).pos) = some ⟨400, 0⟩
      ∧ plainClickRun.map (fun B => (B.scene.item 3).isSelected) = some true
      ∧ plainClickRun.map (fun B => (B.scene.item 3).pos) = some ⟨400, 0⟩ := by
  decide

/-- C17: drag translation with snap folding. On a board whose moving item `m`
is its own mover, is movable and has the pointer pressed, every sequence of
drag steps of `handleItemMouseMove` returns and keeps the difference between
the item position and the reference point `mLastPressedMousePos`, both before
and after a further step; after the steps `es` followed by `e` the item is at
its starting position plus the pointer scene position of `e` minus the starting
reference point (the press scene position) plus the snap offset of that last
step only, which is zero when snapping is off. -/
theorem drag_translation_folds_snap (T : ItemTypes) (X : Collaborators) (fuel : Nat)
    (B : Board) (m : ItemId) (es : List QMouseEvent) (e : QMouseEvent)
    (hm : B.view.movingItem = some m)
    (hstable : determineItemToMove T B.scene B.stylusTool fuel (some m) = some (some m))
    (hmove : itemShouldBeMoved T B.scene B.stylusTool B.view (some m) = true)
    (hpressed : B.view.pointerIsPressed = true) :
    ∃ Bmid B1, dragSteps T X fuel B es = some Bmid
      ∧ dragSteps T X fuel B (es ++ [e]) = some B1
      ∧ (Bmid.scene.item m).pos - Bmid.view.mLastPressedMousePos
          = (B.scene.item m).pos - B.view.mLastPressedMousePos
      ∧ (B1.scene.item m).pos - B1.view.mLastPressedMousePos
          = (B.scene.item m).pos - B.view.mLastPressedMousePos
      ∧ (B1.scene.item m).pos
          = (B.scene.item m).pos + (X.mapToScene e.pos - B.view.mLastPressedMousePos)
            + dragSnapOffset X Bmid m e
      ∧ ((∀ S, X.isSnapping S = false) →
          (B1.scene.item m).pos
            = (B.scene.item m).pos + (X.mapToScene e.pos - B.view.mLastPressedMousePos)) := by
  obtain ⟨Bmid, h1, hm1, hstable1, hmove1, hpressed1, hinv⟩ :=
    dragSteps_invariant T X fuel m es B hm hstable hmove hpressed
  obtain ⟨B1, h2, hpos, href, _, _, _, _, _⟩ :=
    handleItemMouseMove_drag_step T X fuel Bmid m e hm1 hstable1 hmove1 hpressed1
  rw [QPointF.eq_iff] at hinv
  simp only [QPointF.sub_x, QPointF.sub_y] at hinv
  have hfinal : (B1.scene.item m).pos
      = (B.scene.item m).pos + (X.mapToScene e.pos - B.view.mLastPressedMousePos)
        + dragSnapOffset X Bmid m e := by
    rw [hpos, QPointF.eq_iff]
    simp only [QPointF.add_x, QPointF.add_y, QPointF.sub_x, QPointF.sub_y]
    constructor <;> omega
  refine ⟨Bmid, B1, h1, ?_, ?_, ?_, hfinal, ?_⟩
  · rw [dragSteps_append_singleton, h1]
    exact h2
  · rw [QPointF.eq_iff]
    simp only [QPointF.sub_x, QPointF.sub_y]
    exact hinv
  · rw [hpos, href, QPointF.eq_iff]
    simp only [QPointF.add_x, QPointF.add_y, QPointF.sub_x, QPointF.sub_y]
    constructor <;> omega
  · intro hoff
    have hzero : dragSnapOffset X Bmid m e = ⟨0, 0⟩ := by
      unfold dragSnapOffset
      simp only [hoff, Bool.false_eq_true, if_false]
    rw [hfinal, hzero, QPointF.eq_iff]
    simp only [QPointF.add_x, QPointF.add_y, QPointF.sub_x, QPointF.sub_y]
    constructor <;> omega

/-- Witness for C17: the image scenario. The unselected, unlocked image at the
origin is pressed at (50, 50) and dragged to (70, 50), then to (100, 50); the
press stores (50, 50) as the reference point, the image ends at (50, 0) through
the drag steps and through the three handlers, where no suspended press
remains; with snapping to the grid of 10, drags to (63, 50) and (77, 50) end at
(20, 0), the offset of the first step not being counted. -/
theorem drag_translation_folds_snap_witness :
    (∃ Bmid B1, dragSteps sampleTypes imageCollaborators 3 imagePressed [moveTo ⟨70, 50⟩]
        = some Bmid
      ∧ dragSteps sampleTypes imageCollaborators 3 imagePressed
          ([moveTo ⟨70, 50⟩] ++ [moveTo ⟨100, 50⟩]) = some B1
      ∧ (Bmid.scene.item 1).pos - Bmid.view.mLastPressedMousePos
          = (imagePressed.scene.item 1).pos - imagePressed.view.mLastPressedMousePos
      ∧ (B1.scene.item 1).pos - B1.view.mLastPressedMousePos
          = (imagePressed.scene.item 1).pos - imagePressed.view.mLastPressedMousePos
      ∧ (B1.scene.item 1).pos
          = (imagePressed.scene.item 1).pos
            + (imageCollaborators.mapToScene (moveTo ⟨100, 50⟩).pos
                - imagePressed.view.mLastPressedMousePos)
            + dragSnapOffset imageCollaborators Bmid 1 (moveTo ⟨100, 50⟩)
      ∧ ((∀ S, imageCollaborators.isSnapping S = false) →
          (B1.scene.item 1).pos
            = (imagePressed.scene.item 1).pos
              + (imageCollaborators.mapToScene (moveTo ⟨100, 50⟩).pos
                  - imagePressed.view.mLastPressedMousePos)))
    ∧ imagePressed.view.mLastPressedMousePos = ⟨50, 50⟩
    ∧ (imagePressed.scene.item 1).pos = ⟨0, 0⟩
    ∧ (dragSteps sampleTypes imageCollaborators 3 imagePressed
          [moveTo ⟨70, 50⟩, moveTo ⟨100, 50⟩]).map (fun B => (B.scene.item 1).pos)
        = some ⟨50, 0⟩
    ∧ (runHandlers imageBoard
          [fun B => mousePressEvent sampleTypes imageCollaborators 3 B (leftPressAt ⟨50, 50⟩),
           fun B => mouseMoveEvent sampleTypes imageCollaborators 3 B (moveTo ⟨100, 50⟩),
           fun B => mouseReleaseEvent sampleTypes imageCollaborators 3 B
             (releaseAt ⟨100, 50⟩)]).map
          (fun B => ((B.scene.item 1).pos, B.view.suspendedMousePressEvent))
        = some (⟨50, 0⟩, none)
    ∧ (dragSteps sampleTypes (snappingCollaborators [1]) 3 imagePressedSnapping
          [moveTo ⟨63, 50⟩, moveTo ⟨77, 50⟩]).map (fun B => (B.scene.item 1).pos)
        = some ⟨20, 0⟩ :=
  ⟨drag_translation_folds_snap sampleTypes imageCollaborators 3 imagePressed 1
      [moveTo ⟨70, 50⟩] (moveTo ⟨100, 50⟩) (by decide) (by decide) (by decide) (by decide),
    by decide, by decide, by decide, by decide, by decide⟩

/-- C16 (as stated, refuted): in the scenario of `groupBoard`, the press at
(50, 50) on the text item 1 inside the selected group 2 is passed to the
base class at press time and accepted, and no suspended press is buffered; the
release at the same point then calls the base class with no press. -/
theorem press_on_text_in_selected_group_not_suspended :
    (itemShouldReceiveMousePressEvent sampleTypes sceneSelectedGroup UBStylusTool.Selector
        idleView (some 1)).1 = true
      ∧ (mousePressEvent sampleTypes groupCollaborators 1 groupBoard
          (leftPressAt ⟨50, 50⟩)).map (fun B => B.view.suspendedMousePressEvent) = some none
      ∧ (mousePressEvent sampleTypes groupCollaborators 1 groupBoard
          (leftPressAt ⟨50, 50⟩)).map (fun B => B.effects)
        = some [Effect.viewMousePressEvent (leftPressAt ⟨50, 50⟩), Effect.eventAccept]
      ∧ (runHandlers groupBoard
          [fun B => mousePressEvent sampleTypes groupCollaborators 1 B (leftPressAt ⟨50, 50⟩),
           fun B => mouseReleaseEvent sampleTypes groupCollaborators 1 B
             (releaseAt ⟨50, 50⟩)]).map (fun B => B.effects)
        = some [Effect.viewMousePressEvent (leftPressAt ⟨50, 50⟩), Effect.eventAccept,
            Effect.setToolCursor UBStylusTool.Selector, Effect.inputDeviceRelease,
            Effect.commitUndoStep 1, Effect.updateSelectionFrame] := by
  decide

/-- C16 (amended): in the same scenario the press on `t` is delivered at once:
`itemShouldReceiveMousePressEvent` answers true because the parent of `t` is
selected, so the press handler passes the press to the base class at press time
and buffers no suspended press, although
`itemShouldReceiveSuspendedMousePressEvent` would answer true for `t`; the
release, at any point, replays no press.  The base class is taken to act on
the scene only at a press (it may change the selection, not the fields of the
view, the tool, the record of calls or the parent links) and to pass no press
on at a release. -/
theorem text_in_selected_group_press_is_immediate (T : ItemTypes) (X : Collaborators)
    (n fuel : Nat) (B : Board) (press release : QMouseEvent) (t g : ItemId)
    (hlabels : T.pressCaseLabels.Nodup) (hne : T.GroupContainer ≠ T.StrokesGroup)
    (htool : B.stylusTool = UBStylusTool.Selector)
    (hcontrol : B.view.bIsControl = true) (hdesk : B.view.bIsDesktop = false)
    (hinteractive : B.view.interactive = true)
    (hsuspended : B.view.suspendedMousePressEvent = none)
    (hleft : press.button = MouseButton.LeftButton)
    (hctrl : press.modifiers.control = false)
    (hpoint : X.isAbsurdPoint press.pos = false)
    (hhit : X.itemAt B.scene (X.mapToScene press.pos) = some t)
    (hpressBase : X.pressActsOnScene)
    (hreleaseBase : X.releasePassesNoPress)
    (hbg : B.scene.backgroundObject ≠ some t)
    (htype : (B.scene.item t).type = T.Text)
    (hunsel : (B.scene.item t).isSelected = false)
    (hparent : (B.scene.item t).parentItem = some g)
    (hgtype : (B.scene.item g).type = T.GroupContainer)
    (hgsel : (B.scene.item g).isSelected = true)
    (hchain : ∀ item, parentChainWithin B.scene n item = true) (hfuel : n < fuel) :
    (∀ V, itemShouldReceiveMousePressEvent T B.scene UBStylusTool.Selector V (some t)
        = (true, V))
      ∧ itemShouldReceiveSuspendedMousePressEvent T B.scene UBStylusTool.Selector (some t)
          = true
      ∧ ∃ B1 B2, mousePressEvent T X fuel B press = some B1
        ∧ B1.view.suspendedMousePressEvent = none
        ∧ B1.effects = B.effects ++ [Effect.viewMousePressEvent press, Effect.eventAccept]
        ∧ mouseReleaseEvent T X fuel B1 release = some B2
        ∧ ∃ l, B2.effects = B1.effects ++ l ∧ ∀ e, Effect.viewMousePressEvent e ∉ l := by
  have hpsel : parentIsSelected B.scene t = true :=
    (parentIsSelected_of_parent B.scene t g hparent).trans hgsel
  obtain ⟨B1, h1, k1, k2, k3, _, k5⟩ :=
    mousePressEvent_delivered_in_selected_group T X n fuel B press t g hlabels hne htool
      hcontrol hdesk hinteractive hleft hctrl hpoint hhit hpressBase hbg htype hparent hgtype
      hgsel hchain hfuel
  have hs1 : B1.view.suspendedMousePressEvent = none := k3.trans hsuspended
  obtain ⟨B2, h2, hadd⟩ := mouseReleaseEvent_replays_nothing T X fuel B1 release k1 hs1
    hreleaseBase
    (determineItemToPress_returns T B1.scene B1.stylusTool n fuel _
      (fun item _ => (parentChainWithin_congr B.scene B1.scene k5 n item).trans (hchain item))
      hfuel)
  refine ⟨fun V => press_text_parent_selected T B.scene V t hlabels hbg htype hpsel, ?_,
    B1, B2, h1, hs1, k2, h2, Board.addsNone_viewMousePressEvent hadd⟩
  rw [itemShouldReceiveSuspendedMousePressEvent, if_neg (some_ne_background B.scene t hbg)]
  simp only [htype, hunsel, hparent, or_true, true_or, if_true, Option.isSome_some, and_self]

/-- Witness of C16 (amended): the text item 1 inside the selected group 2 of
`sceneSelectedGroup`, pressed and released at (50, 50), with the base class of
`clearingCollaborators`, which clears the selection at the press. -/
theorem text_in_selected_group_press_is_immediate_witness :
    (∀ V, itemShouldReceiveMousePressEvent sampleTypes groupBoard.scene UBStylusTool.Selector V
        (some 1) = (true, V))
      ∧ itemShouldReceiveSuspendedMousePressEvent sampleTypes groupBoard.scene
          UBStylusTool.Selector (some 1) = true
      ∧ ∃ B1 B2, mousePressEvent sampleTypes clearingCollaborators 3 groupBoard
          (leftPressAt ⟨50, 50⟩) = some B1
        ∧ B1.view.suspendedMousePressEvent = none
        ∧ B1.effects = groupBoard.effects
            ++ [Effect.viewMousePressEvent (leftPressAt ⟨50, 50⟩), Effect.eventAccept]
        ∧ mouseReleaseEvent sampleTypes clearingCollaborators 3 B1 (releaseAt ⟨50, 50⟩)
            = some B2
        ∧ ∃ l, B2.effects = B1.effects ++ l ∧ ∀ e, Effect.viewMousePressEvent e ∉ l :=
  text_in_selected_group_press_is_immediate sampleTypes clearingCollaborators 2 3 groupBoard
    (leftPressAt ⟨50, 50⟩) (releaseAt ⟨50, 50⟩) 1 2 (by decide) (by decide) (by decide)
    (by decide) (by decide) (by decide) (by decide) (by decide) (by decide) (by decide)
    (by decide) (fun _ _ => ⟨rfl, rfl, rfl, fun _ => rfl⟩)
    (fun B0 _ => Board.addsNone_refl _ B0) (by decide) (by decide)
    (by decide) (by decide) (by decide) (by decide) sceneSelectedGroup_chain (by decide)

/-- C26 (as stated, refuted): in single selection `handleItemsSelection` on the
text item 1, a whiteboard-domain item that is no delegate button, delegate
frame or svg item, makes no call and leaves the other selected item 2
selected, because the moving item sits in a group container. -/
theorem handleItemsSelection_group_child_keeps_selection :
    groupPressedBoard.view.mMultipleSelectionIsEnabled = false
      ∧ isUBItem sampleTypes groupPressedBoard.scene 1 = true
      ∧ (groupPressedBoard.scene.item 1).type ≠ sampleTypes.DelegateButton
      ∧ (groupPressedBoard.scene.item 1).type ≠ sampleTypes.DelegateFrame
      ∧ (groupPressedBoard.scene.item 1).type ≠ sampleTypes.QGraphicsSvgItem
      ∧ (groupPressedBoard.scene.item 1).type ≠ sampleTypes.Svg
      ∧ (groupPressedBoard.scene.item 2).isSelected = true
      ∧ ((handleItemsSelection sampleTypes groupPressedBoard (some 1)).scene.item 2).isSelected
          = true
      ∧ (handleItemsSelection sampleTypes groupPressedBoard (some 1)).effects = [] := by
  decide

/-- C26 (amended): `handleItemsSelection(item)` calls
`deselectAllItemsExcept(item)` and the update of the selection frame exactly
when multiple selection is disabled, the item is a whiteboard-domain item that
is no delegate button, delegate frame or svg item of the graphics framework,
and it is not the case that the item has a parent while the moving item sits in
a group container; otherwise, and for no item, it changes nothing. -/
theorem handleItemsSelection_spec (T : ItemTypes) (B : Board) (item : ItemId) :
    handleItemsSelection T B (some item)
        = (if B.view.mMultipleSelectionIsEnabled = false
              ∧ isUBItem T B.scene item = true
              ∧ (B.scene.item item).type ≠ T.DelegateButton
              ∧ (B.scene.item item).type ≠ T.DelegateFrame
              ∧ (B.scene.item item).type ≠ T.QGraphicsSvgItem
              ∧ ¬ ((B.scene.item item).parentItem.isSome = true
                  ∧ ∃ m, B.view.movingItem = some m
                    ∧ parentHasType B.scene m T.GroupContainer = true) then
            (B.withScene (deselectAllItemsExcept B.scene item)).log Effect.updateSelectionFrame
          else B)
      ∧ handleItemsSelection T B none = B := by
  refine ⟨?_, rfl⟩
  have hub : (T.UserTypesCount > (B.scene.item item).type
      ∧ (B.scene.item item).type > T.UserType) ↔ isUBItem T B.scene item = true := by
    simp [isUBItem]
  have htail : ¬ ((B.scene.item item).parentItem.isSome = true
        ∧ ∃ m, B.view.movingItem = some m
          ∧ parentHasType B.scene m T.GroupContainer = true) →
      (if (B.scene.item item).type = T.DelegateButton then B
        else if (B.scene.item item).type = T.QGraphicsSvgItem then B
        else if (B.scene.item item).type = T.DelegateFrame then B
        else if B.view.mMultipleSelectionIsEnabled = false then
          if T.UserTypesCount > (B.scene.item item).type
              ∧ (B.scene.item item).type > T.UserType then
            ((B.withScene (deselectAllItemsExcept B.scene item)).log
              Effect.updateSelectionFrame)
          else B
        else B)
      = (if B.view.mMultipleSelectionIsEnabled = false
              ∧ isUBItem T B.scene item = true
              ∧ (B.scene.item item).type ≠ T.DelegateButton
              ∧ (B.scene.item item).type ≠ T.DelegateFrame
              ∧ (B.scene.item item).type ≠ T.QGraphicsSvgItem
              ∧ ¬ ((B.scene.item item).parentItem.isSome = true
                  ∧ ∃ m, B.view.movingItem = some m
                    ∧ parentHasType B.scene m T.GroupContainer = true) then
            (B.withScene (deselectAllItemsExcept B.scene item)).log Effect.updateSelectionFrame
          else B) := by
    intro c0
    by_cases c1 : (B.scene.item item).type = T.DelegateButton
    · rw [if_pos c1, if_neg (fun h => h.2.2.1 c1)]
    rw [if_neg c1]
    by_cases c2 : (B.scene.item item).type = T.QGraphicsSvgItem
    · rw [if_pos c2, if_neg (fun h => h.2.2.2.2.1 c2)]
    rw [if_neg c2]
    by_cases c3 : (B.scene.item item).type = T.DelegateFrame
    · rw [if_pos c3, if_neg (fun h => h.2.2.2.1 c3)]
    rw [if_neg c3]
    by_cases c4 : B.view.mMultipleSelectionIsEnabled = false
    · rw [if_pos c4]
      by_cases c5 : T.UserTypesCount > (B.scene.item item).type
          ∧ (B.scene.item item).type > T.UserType
      · rw [if_pos c5, if_pos ⟨c4, hub.mp c5, c1, c3, c2, c0⟩]
      · rw [if_neg c5, if_neg (fun h => c5 (hub.mpr h.2.1))]
    · rw [if_neg c4, if_neg (fun h => c4 h.1)]
  unfold handleItemsSelection
  dsimp only
  cases hm : B.view.movingItem with
  | none =>
    dsimp only
    rw [if_neg Bool.false_ne_true]
    rw [hm] at htail
    exact htail (fun h => by obtain ⟨_, m, h1, _⟩ := h; cases h1)
  | some m =>
    dsimp only
    rw [hm] at htail
    by_cases c0 : ((B.scene.item item).parentItem.isSome
        && parentHasType B.scene m T.GroupContainer) = true
    · rw [if_pos c0]
      rw [Bool.and_eq_true] at c0
      rw [if_neg (fun h => h.2.2.2.2.2 ⟨c0.1, m, rfl, c0.2⟩)]
    · rw [if_neg c0]
      refine htail (fun h => c0 ?_)
      obtain ⟨h1, m2, h2, h3⟩ := h
      cases h2
      rw [Bool.and_eq_true]
      exact ⟨h1, h3⟩

/-- C30 (as stated, refuted): in the drag of the selected pixmap 3 of
`sceneDesk` under the Selector tool (mouse button pressed, the pixmap without
parent and its own move resolution) the handler does not move the item itself
but passes the move to the base class; when the base class ends a drag and drop
there (`dropEvent` clears the moving item), `handleItemMouseMove` returns with
no moving item: the mover has changed between two successive move events. -/
theorem base_class_move_clears_the_mover :
    selectedPixmapDragBoard.view.movingItem = some 3
      ∧ selectedPixmapDragBoard.view.mMouseButtonIsPressed = true
      ∧ (selectedPixmapDragBoard.scene.item 3).parentItem = none
      ∧ determineItemToMove sampleTypes selectedPixmapDragBoard.scene
          selectedPixmapDragBoard.stylusTool 3 (some 3) = some (some 3)
      ∧ itemShouldBeMoved sampleTypes selectedPixmapDragBoard.scene
          selectedPixmapDragBoard.stylusTool selectedPixmapDragBoard.view (some 3) = false
      ∧ (handleItemMouseMove sampleTypes droppingCollaborators 3 selectedPixmapDragBoard
          (moveTo ⟨460, 50⟩)).map (fun B => B.view.movingItem) = some none
      ∧ (dragSteps sampleTypes droppingCollaborators 3 selectedPixmapDragBoard
          [moveTo ⟨460, 50⟩, moveTo ⟨470, 50⟩]).map (fun B => B.view.movingItem)
        = some none := by
  decide

/-- C30 (amended): `handleItemMouseMove` starts by replacing the moving item
with its move resolution; for every tool, scene and base class, if the parent
chain of the item is finite and every group container on it has no parent,
`determineItemToMove` returns a result `r` whose own move resolution is `r`, so
the handler acts as on the board whose moving item is `r`; it returns, with `r`
as moving item when it moves the item itself (`itemShouldBeMoved` holds for `r`
with a pointer pressed), and otherwise with the moving item the base class left
when the move was passed on to it (it is not passed on when there is no moving
item and the mouse button is pressed); and in a drag in which the handler moves
the item itself every sequence of successive move events returns with `r` as
moving item. -/
theorem mover_stable_under_reresolution (T : ItemTypes) (X : Collaborators) (fuel n : Nat)
    (B : Board) (item : ItemId)
    (hmover : B.view.movingItem = some item)
    (hchain : parentChainWithin B.scene n item = true) (hfuel : n < fuel)
    (htop : ∀ a, IsAncestor B.scene a item → (B.scene.item a).type = T.GroupContainer →
      (B.scene.item a).parentItem = none) :
    ∃ r, determineItemToMove T B.scene B.stylusTool fuel (some item) = some r
      ∧ determineItemToMove T B.scene B.stylusTool fuel r = some r
      ∧ (∀ e, handleItemMouseMove T X fuel B e
          = handleItemMouseMove T X fuel (B.setMovingItem r) e)
      ∧ (∀ e, ∃ B1, handleItemMouseMove T X fuel B e = some B1
          ∧ B1.view.movingItem
            = (if (itemShouldBeMoved T B.scene B.stylusTool (B.setMovingItem r).view r
                  && B.view.pointerIsPressed) = true then r
              else if r.isSome = true ∨ B.view.mMouseButtonIsPressed = false then
                ((B.setMovingItem r).callViewMouseMoveEvent X e).view.movingItem
              else r))
      ∧ ((itemShouldBeMoved T B.scene B.stylusTool (B.setMovingItem r).view r
            && B.view.pointerIsPressed) = true →
          ∀ e es, ∃ B1, dragSteps T X fuel B (e :: es) = some B1
            ∧ B1.view.movingItem = r) := by
  obtain ⟨r, hr1, hr2⟩ := determineItemToMove_idem_chain T B.scene B.stylusTool n item hchain
    htop
  have h1 : determineItemToMove T B.scene B.stylusTool fuel B.view.movingItem = some r := by
    rw [hmover]; exact hr1 fuel hfuel
  have h2 := hr2 fuel hfuel
  refine ⟨r, hr1 fuel hfuel, h2, fun e => handleItemMouseMove_resolved T X fuel B e r h1 h2,
    fun e => handleItemMouseMove_mover_after T X fuel B e r h1, ?_⟩
  intro hdrag e es
  cases r with
  | none => exact absurd hdrag (by simp [itemShouldBeMoved])
  | some m =>
    rw [Bool.and_eq_true] at hdrag
    obtain ⟨B1, k1, k2, -⟩ := dragSteps_invariant T X fuel m (e :: es) (B.setMovingItem (some m))
      rfl h2 hdrag.1 hdrag.2
    exact ⟨B1, (dragSteps_resolved T X fuel B e es (some m) h1 h2).trans k1, k2⟩

/-- Witness of C30 (amended): the polygon 3 of `sceneSelectedGroup`, inside the
strokes group 4 of the top-level group container 2, as moving item. -/
theorem mover_stable_under_reresolution_witness :
    ∃ r, determineItemToMove sampleTypes polygonDragBoard.scene polygonDragBoard.stylusTool 3
          (some 3) = some r
      ∧ determineItemToMove sampleTypes polygonDragBoard.scene polygonDragBoard.stylusTool 3 r
          = some r
      ∧ (∀ e, handleItemMouseMove sampleTypes groupCollaborators 3 polygonDragBoard e
          = handleItemMouseMove sampleTypes groupCollaborators 3
              (polygonDragBoard.setMovingItem r) e)
      ∧ (∀ e, ∃ B1, handleItemMouseMove sampleTypes groupCollaborators 3 polygonDragBoard e
            = some B1
          ∧ B1.view.movingItem
            = (if (itemShouldBeMoved sampleTypes polygonDragBoard.scene
                    polygonDragBoard.stylusTool (polygonDragBoard.setMovingItem r).view r
                  && polygonDragBoard.view.pointerIsPressed) = true then r
              else if r.isSome = true ∨ polygonDragBoard.view.mMouseButtonIsPressed = false then
                ((polygonDragBoard.setMovingItem r).callViewMouseMoveEvent groupCollaborators
                  e).view.movingItem
              else r))
      ∧ ((itemShouldBeMoved sampleTypes polygonDragBoard.scene polygonDragBoard.stylusTool
              (polygonDragBoard.setMovingItem r).view r
            && polygonDragBoard.view.pointerIsPressed) = true →
          ∀ e es, ∃ B1, dragSteps sampleTypes groupCollaborators 3 polygonDragBoard (e :: es)
              = some B1
            ∧ B1.view.movingItem = r) :=
  mover_stable_under_reresolution sampleTypes groupCollaborators 3 2 polygonDragBoard 3
    (by decide) (by decide) (by decide)
    (fun a _ h => by
      have h2 : a = 2 := by
        simp only [polygonDragBoard, groupBoard, sceneSelectedGroup, plainItem, sampleTypes] at h
        split_ifs at h <;> first | assumption | (exfalso; revert h; decide)
      subst h2
      decide)

/-- C27 (as stated, refuted): with the Control key held (multiple selection)
the press on the media item 1 of `sceneDesk` under the Selector tool is not
delivered to the base class, the item is eligible for a suspended press, and
yet `handleItemMousePress` returns with no suspended press buffered; so does
the whole press handler. -/
theorem ctrl_press_on_eligible_media_buffers_nothing :
    mediaCtrlPressedBoard.view.mMultipleSelectionIsEnabled = true
      ∧ determineItemToPress sampleTypes mediaCtrlPressedBoard.scene UBStylusTool.Selector 3
          mediaCtrlPressedBoard.view.movingItem = some (some 1)
      ∧ itemShouldReceiveSuspendedMousePressEvent sampleTypes mediaCtrlPressedBoard.scene
          UBStylusTool.Selector (some 1) = true
      ∧ (handleItemMousePress sampleTypes deskCollaborators 3 mediaCtrlPressedBoard
          (ctrlPressAt ⟨50, 50⟩)).map (fun B => B.effects) = some []
      ∧ (handleItemMousePress sampleTypes deskCollaborators 3 mediaCtrlPressedBoard
          (ctrlPressAt ⟨50, 50⟩)).map (fun B => B.view.suspendedMousePressEvent) = some none
      ∧ (deskPress (ctrlPressAt ⟨50, 50⟩) (deskBoard UBStylusTool.Selector)).map
          (fun B => B.view.movingItem) = some (some 1)
      ∧ (deskPress (ctrlPressAt ⟨50, 50⟩) (deskBoard UBStylusTool.Selector)).map
          (fun B => B.effects) = some [Effect.eventAccept]
      ∧ (deskPress (ctrlPressAt ⟨50, 50⟩) (deskBoard UBStylusTool.Selector)).map
          (fun B => B.view.suspendedMousePressEvent) = some none := by
  decide

/-- C27 (amended): suspended-press capture in single selection. When
`handleItemMousePress` reaches its question about immediate delivery (multiple
selection disabled) and `itemShouldReceiveMousePressEvent` refuses the
press-resolved target, the handler returns with that target as moving item; a
suspended press is buffered
exactly when `itemShouldReceiveSuspendedMousePressEvent` accepts the target,
the buffered event has the type, position, button, buttons and modifiers of the
press, and the handler has recorded no call of the press handler of the
base class. -/
theorem suspended_press_capture (T : ItemTypes) (X : Collaborators) (fuel : Nat)
    (B : Board) (event : QMouseEvent) (target : Option ItemId)
    (hdet : determineItemToPress T B.scene B.stylusTool fuel B.view.movingItem = some target)
    (hmulti : B.view.mMultipleSelectionIsEnabled = false)
    (hrefused : (itemShouldReceiveMousePressEvent T
        (pressDecisionBoard T X B event target).scene B.stylusTool
        (pressDecisionBoard T X B event target).view target).1 = false) :
    ∃ B', handleItemMousePress T X fuel B event = some B'
      ∧ B'.view.movingItem = target
      ∧ B'.view.suspendedMousePressEvent.isSome
          = itemShouldReceiveSuspendedMousePressEvent T B.scene B.stylusTool target
      ∧ (∀ s, B'.view.suspendedMousePressEvent = some s →
          s.type = event.type ∧ s.pos = event.pos ∧ s.button = event.button
            ∧ s.buttons = event.buttons ∧ s.modifiers = event.modifiers)
      ∧ (∃ l, B'.effects = B.effects ++ l ∧ ∀ e, Effect.viewMousePressEvent e ∉ l) := by
  have hstep : ∀ D : Board, D.view.mMultipleSelectionIsEnabled = false →
      D.view.movingItem = target → D.stylusTool = B.stylusTool →
      B.addsNone Effect.isViewMousePressEvent D →
      itemShouldReceiveSuspendedMousePressEvent T D.scene B.stylusTool target
        = itemShouldReceiveSuspendedMousePressEvent T B.scene B.stylusTool target →
      (itemShouldReceiveMousePressEvent T D.scene B.stylusTool D.view target).1 = false →
      ∃ B', (if D.view.mMultipleSelectionIsEnabled = true then some D
        else
          let r := itemShouldReceiveMousePressEvent T D.scene D.stylusTool D.view
            D.view.movingItem
          let B4 := D.withView r.2
          if r.1 = true then
            let B5 := B4.callViewMousePressEvent X event
            match determineItemToPress T B5.scene B5.stylusTool fuel
                (X.itemAt B5.scene (X.mapToScene event.pos)) with
            | none => none
            | some item => some (B5.withScene (cleanUpProxyChildren T X B5.scene item))
          else
            let B5 :=
              match B4.view.movingItem with
              | none => B4
              | some m =>
                (if X.isUBGraphicsItem B4.scene m = true then B4.log (Effect.startUndoStep m)
                  else B4).log (Effect.clearFocus m)
            let B6 := B5.withView { B5.view with suspendedMousePressEvent := none }
            if itemShouldReceiveSuspendedMousePressEvent T B6.scene B6.stylusTool
                B6.view.movingItem = true then
              some (B6.withView { B6.view with suspendedMousePressEvent := some event })
            else some B6) = some B'
        ∧ B'.view.movingItem = target
        ∧ B'.view.suspendedMousePressEvent.isSome
            = itemShouldReceiveSuspendedMousePressEvent T B.scene B.stylusTool target
        ∧ (∀ s, B'.view.suspendedMousePressEvent = some s →
            s.type = event.type ∧ s.pos = event.pos ∧ s.button = event.button
              ∧ s.buttons = event.buttons ∧ s.modifiers = event.modifiers)
        ∧ (∃ l, B'.effects = B.effects ++ l ∧ ∀ e, Effect.viewMousePressEvent e ∉ l) := by
    intro D d1 d2 d3 d4 d5 d6
    have hv := press_refused_keeps_view T D.scene B.stylusTool D.view target d6
    rw [if_neg (by rw [d1]; decide)]
    cases target with
    | none => exact absurd d6 (by simp [itemShouldReceiveMousePressEvent])
    | some m =>
      simp only [d2, d3, d6, hv, Bool.false_eq_true, if_false, Board.withView_view,
        Board.withView_scene, Board.withView_stylusTool, Board.log_scene, Board.log_view,
        Board.log_stylusTool]
      have hscene : ∀ (C : Board), C.scene = D.scene →
          itemShouldReceiveSuspendedMousePressEvent T C.scene B.stylusTool (some m)
            = itemShouldReceiveSuspendedMousePressEvent T B.scene B.stylusTool (some m) := by
        intro C hC; rw [hC]; exact d5
      have heff : ∀ (C : Board), C.effects = D.effects ++ [Effect.clearFocus m]
            ∨ C.effects = D.effects ++ [Effect.startUndoStep m] ++ [Effect.clearFocus m] →
          ∃ l, C.effects = B.effects ++ l ∧ ∀ e, Effect.viewMousePressEvent e ∉ l := by
        intro C hC
        apply Board.addsNone_viewMousePressEvent
        rcases hC with hC | hC
        · exact Board.addsNone_trans d4 (Board.addsNone_of_log _ hC rfl)
        · refine Board.addsNone_trans d4 ⟨[Effect.startUndoStep m, Effect.clearFocus m], ?_, ?_⟩
          · rw [hC, List.append_assoc]; rfl
          · intro e he
            rcases List.mem_cons.mp he with h | h
            · rw [h]; rfl
            · rw [List.mem_singleton.mp h]; rfl
      by_cases hu : X.isUBGraphicsItem D.scene m = true
      · simp only [hu, if_true, Board.log_scene, Board.log_view, Board.log_stylusTool,
          Board.withView_view, Board.withView_scene, Board.withView_stylusTool, d2, d3]
        rw [d5]
        by_cases hel : itemShouldReceiveSuspendedMousePressEvent T B.scene B.stylusTool (some m)
            = true
        · rw [if_pos hel]
          refine ⟨_, rfl, rfl, ?_, ?_, ?_⟩
          · rw [hel]; rfl
          · intro s hs
            simp only [Board.withView_view, Option.some.injEq] at hs
            subst hs
            exact ⟨rfl, rfl, rfl, rfl, rfl⟩
          · exact heff _ (Or.inr rfl)
        · rw [if_neg hel]
          refine ⟨_, rfl, rfl, ?_, ?_, ?_⟩
          · rw [Bool.not_eq_true] at hel
            rw [hel]; rfl
          · intro s hs
            simp only [Board.withView_view, reduceCtorEq] at hs
          · exact heff _ (Or.inr rfl)
      · simp only [hu, Bool.false_eq_true, if_false, Board.log_scene, Board.log_view,
          Board.log_stylusTool, Board.withView_view, Board.withView_scene,
          Board.withView_stylusTool, d2, d3]
        rw [d5]
        by_cases hel : itemShouldReceiveSuspendedMousePressEvent T B.scene B.stylusTool (some m)
            = true
        · rw [if_pos hel]
          refine ⟨_, rfl, rfl, ?_, ?_, ?_⟩
          · rw [hel]; rfl
          · intro s hs
            simp only [Board.withView_view, Option.some.injEq] at hs
            subst hs
            exact ⟨rfl, rfl, rfl, rfl, rfl⟩
          · exact heff _ (Or.inl rfl)
        · rw [if_neg hel]
          refine ⟨_, rfl, rfl, ?_, ?_, ?_⟩
          · rw [Bool.not_eq_true] at hel
            rw [hel]; rfl
          · intro s hs
            simp only [Board.withView_view, reduceCtorEq] at hs
          · exact heff _ (Or.inl rfl)
  have k4 := handleItemsSelection_addsNone Effect.isViewMousePressEvent T
    ((B.withView { B.view with mLastPressedMousePos := X.mapToScene event.pos }).setMovingItem
      target) target rfl
  obtain ⟨k1, k2, k3, -⟩ := handleItemsSelection_keeps T
    ((B.withView { B.view with mLastPressedMousePos := X.mapToScene event.pos }).setMovingItem
      target) target
  unfold pressDecisionBoard at hrefused
  unfold handleItemMousePress
  simp only [Board.withView_view, Board.withView_scene, Board.withView_stylusTool, hdet,
    Board.setMovingItem_view] at hrefused ⊢
  refine hstep _ ?_ ?_ ?_ ?_ ?_ hrefused
  · rw [k1]; exact hmulti
  · rw [k1]; rfl
  · rw [k2]; rfl
  · exact k4
  · exact k3

/-- Witness of C27 (amended): the press at (50, 50) on the media item 1 of
`sceneDesk` under the Selector tool, which is refused and buffered. -/
theorem suspended_press_capture_witness :
    ∃ B', handleItemMousePress sampleTypes deskCollaborators 3 mediaPressedBoard
          (leftPressAt ⟨50, 50⟩) = some B'
      ∧ B'.view.movingItem = some 1
      ∧ B'.view.suspendedMousePressEvent.isSome
          = itemShouldReceiveSuspendedMousePressEvent sampleTypes mediaPressedBoard.scene
              mediaPressedBoard.stylusTool (some 1)
      ∧ (∀ s, B'.view.suspendedMousePressEvent = some s →
          s.type = (leftPressAt ⟨50, 50⟩).type ∧ s.pos = (leftPressAt ⟨50, 50⟩).pos
            ∧ s.button = (leftPressAt ⟨50, 50⟩).button
            ∧ s.buttons = (leftPressAt ⟨50, 50⟩).buttons
            ∧ s.modifiers = (leftPressAt ⟨50, 50⟩).modifiers)
      ∧ (∃ l, B'.effects = mediaPressedBoard.effects ++ l
          ∧ ∀ e, Effect.viewMousePressEvent e ∉ l) :=
  suspended_press_capture sampleTypes deskCollaborators 3 mediaPressedBoard
    (leftPressAt ⟨50, 50⟩) (some 1) (by decide) (by decide) (by decide)

/-- C21 (as stated, refuted): under the Selector tool in single selection, the
release over the pressed widget 5 (inside a group container) and the release
over the pressed ruler 4 (a geometry tool), both whiteboard-domain items that
are no delegate button, delegate frame or cache, with no drag and no suspended
press, leave the item unselected: the selection toggle is not reached. -/
theorem selector_release_skips_toggle :
    (widgetInGroupPressedBoard.view.movingItem = some 5
        ∧ widgetInGroupPressedBoard.view.suspendedMousePressEvent = none
        ∧ widgetInGroupPressedBoard.view.mWidgetMoved = false
        ∧ widgetInGroupPressedBoard.view.mMultipleSelectionIsEnabled = false
        ∧ isUBItem sampleTypes widgetInGroupPressedBoard.scene 5 = true
        ∧ (widgetInGroupPressedBoard.scene.item 5).type = sampleTypes.Widget
        ∧ (widgetInGroupPressedBoard.scene.item 5).isSelected = false
        ∧ (mouseReleaseEvent sampleTypes (sampleCollaborators [5]) 3 widgetInGroupPressedBoard
            (releaseAt ⟨50, 50⟩)).map (fun B => (B.scene.item 5).isSelected) = some false)
      ∧ (rulerPressedBoard.view.movingItem = some 4
        ∧ rulerPressedBoard.view.suspendedMousePressEvent = none
        ∧ rulerPressedBoard.view.mWidgetMoved = false
        ∧ rulerPressedBoard.view.mMultipleSelectionIsEnabled = false
        ∧ isUBItem sampleTypes rulerPressedBoard.scene 4 = true
        ∧ (rulerPressedBoard.scene.item 4).type = sampleTypes.Ruler
        ∧ (rulerPressedBoard.scene.item 4).isSelected = false
        ∧ (mouseReleaseEvent sampleTypes (sampleCollaborators [4]) 3 rulerPressedBoard
            (releaseAt ⟨50, 50⟩)).map (fun B => (B.scene.item 4).isSelected) = some false) := by
  decide

/-- C21 (amended): under the Selector tool in a view that is not of the desktop
kind, on a release with no completed drag and no suspended press over the same
press-resolved moving item `m`, where `m` is a whiteboard-domain item that is
no delegate button, delegate frame or cache, no geometry tool other than the
curtain, and no widget inside a group container in single selection: with
multiple selection and `m` selected, `m` is deselected; otherwise with multiple
selection and the parent of `m` selected, the parent is deselected and `m`
stays unselected; otherwise `m` is selected afterwards.  The base class is
taken to leave the board as it is when the release is passed on to it. -/
theorem selector_release_toggle (T : ItemTypes) (X : Collaborators) (fuel : Nat)
    (B : Board) (event : QMouseEvent) (m : ItemId)
    (hsel : B.stylusTool = UBStylusTool.Selector)
    (hdesk : B.view.bIsDesktop = false)
    (hmover : B.view.movingItem = some m)
    (hsuspended : B.view.suspendedMousePressEvent = none)
    (hmoved : B.view.mWidgetMoved = false)
    (hdet : determineItemToPress T B.scene B.stylusTool fuel
      (X.itemAt B.scene (X.mapToScene event.pos)) = some (some m))
    (htool : (!isCppTool T B.scene m || decide ((B.scene.item m).type = T.Curtain)) = true)
    (htests : (isUBItem T B.scene m
      && decide ((B.scene.item m).type ≠ T.DelegateButton)
      && decide ((B.scene.item m).type ≠ T.DelegateFrame)
      && decide ((B.scene.item m).type ≠ T.Cache)
      && notWidgetInGroupSingleSelection T B m) = true)
    (hbase : ∀ B' e, X.viewMouseReleaseEvent B' e = B') :
    ∃ B', mouseReleaseEvent T X fuel B event = some B'
      ∧ (B.view.mMultipleSelectionIsEnabled = true → (B.scene.item m).isSelected = true →
          B'.scene = setSelected B.scene m false ∧ (B'.scene.item m).isSelected = false)
      ∧ (B.view.mMultipleSelectionIsEnabled = true → (B.scene.item m).isSelected = false →
          ∀ p, (B.scene.item m).parentItem = some p → (B.scene.item p).isSelected = true →
            B'.scene = setSelected B.scene p false ∧ (B'.scene.item p).isSelected = false
              ∧ (B'.scene.item m).isSelected = false)
      ∧ (B.view.mMultipleSelectionIsEnabled = false
            ∨ ((B.scene.item m).isSelected = false ∧ parentIsSelected B.scene m = false) →
          B'.scene = setSelected B.scene m true ∧ (B'.scene.item m).isSelected = true) := by
  obtain ⟨B', h, hscene, _⟩ := mouseReleaseEvent_toggle_scene T X fuel B event m hsel hdesk
    hmover hsuspended hmoved hdet htool htests hbase
  refine ⟨B', h, ?_, ?_, ?_⟩
  · intro hmulti hselected
    rw [hscene, if_pos ⟨hselected, hmulti⟩]
    exact ⟨rfl, by simp [setSelected]⟩
  · intro hmulti hunsel p hp hpsel
    have hps : parentIsSelected B.scene m = true :=
      (parentIsSelected_of_parent B.scene m p hp).trans hpsel
    have hne : m ≠ p := by
      intro h; rw [h, hpsel] at hunsel; cases hunsel
    rw [hscene, if_neg (fun h => by rw [hunsel] at h; cases h.1), if_pos ⟨hps, hmulti⟩, hp]
    refine ⟨rfl, by simp [setSelected], ?_⟩
    simp only [setSelected, if_neg hne]
    exact hunsel
  · intro hcase
    have h1 : ¬ ((B.scene.item m).isSelected = true
        ∧ B.view.mMultipleSelectionIsEnabled = true) := by
      rintro ⟨a, b⟩
      rcases hcase with c | ⟨c, _⟩
      · rw [c] at b; cases b
      · rw [c] at a; cases a
    have h2 : ¬ (parentIsSelected B.scene m = true
        ∧ B.view.mMultipleSelectionIsEnabled = true) := by
      rintro ⟨a, b⟩
      rcases hcase with c | ⟨_, c⟩
      · rw [c] at b; cases b
      · rw [c] at a; cases a
    rw [hscene, if_neg h1, if_neg h2]
    exact ⟨rfl, by simp [setSelected]⟩

/-- Witness of C21 (amended): the release at (450, 50) over the pressed pixmap 3
of `sceneDesk`, in single selection. -/
theorem selector_release_toggle_witness :
    ∃ B', mouseReleaseEvent sampleTypes deskCollaborators 3 pixmapPressedBoard
          (releaseAt ⟨450, 50⟩) = some B'
      ∧ (pixmapPressedBoard.view.mMultipleSelectionIsEnabled = true →
          (pixmapPressedBoard.scene.item 3).isSelected = true →
          B'.scene = setSelected pixmapPressedBoard.scene 3 false
            ∧ (B'.scene.item 3).isSelected = false)
      ∧ (pixmapPressedBoard.view.mMultipleSelectionIsEnabled = true →
          (pixmapPressedBoard.scene.item 3).isSelected = false →
          ∀ p, (pixmapPressedBoard.scene.item 3).parentItem = some p →
            (pixmapPressedBoard.scene.item p).isSelected = true →
            B'.scene = setSelected pixmapPressedBoard.scene p false
              ∧ (B'.scene.item p).isSelected = false
              ∧ (B'.scene.item 3).isSelected = false)
      ∧ (pixmapPressedBoard.view.mMultipleSelectionIsEnabled = false
            ∨ ((pixmapPressedBoard.scene.item 3).isSelected = false
              ∧ parentIsSelected pixmapPressedBoard.scene 3 = false) →
          B'.scene = setSelected pixmapPressedBoard.scene 3 true
            ∧ (B'.scene.item 3).isSelected = true) :=
  selector_release_toggle sampleTypes deskCollaborators 3 pixmapPressedBoard
    (releaseAt ⟨450, 50⟩) 3 (by decide) (by decide) (by decide) (by decide) (by decide)
    (by decide) (by decide) (by decide) (fun _ _ => rfl)

/-- C28 (as stated, refuted): in a view of the desktop kind under the Selector
tool, the release at (1000, 1000), where the resolved item is the background 0
and not the moving item 3, returns with the moving item still 3. -/
theorem release_elsewhere_in_desktop_view_keeps_mover :
    (desktopPressedBoard UBStylusTool.Selector).view.movingItem = some 3
      ∧ determineItemToPress sampleTypes (desktopPressedBoard UBStylusTool.Selector).scene
          UBStylusTool.Selector 3
          (deskCollaborators.itemAt (desktopPressedBoard UBStylusTool.Selector).scene
            (deskCollaborators.mapToScene (releaseAt ⟨1000, 1000⟩).pos)) = some (some 0)
      ∧ (mouseReleaseEvent sampleTypes deskCollaborators 3
            (desktopPressedBoard UBStylusTool.Selector) (releaseAt ⟨1000, 1000⟩)).map
          (fun B => B.view.movingItem) = some (some 3) := by
  decide

/-- C28 (amended): under the Selector tool in a view that is not of the desktop
kind, if the resolved item under the release point differs from the moving
item, the release returns with the moving item cleared; it records no call of
the press handler of the base class (a buffered suspended press is left as it
is, not replayed) and changes no item.  The base class is taken to leave the board as it is when the
release is passed on to it. -/
theorem release_on_other_item (T : ItemTypes) (X : Collaborators) (fuel : Nat)
    (B : Board) (event : QMouseEvent) (under : Option ItemId)
    (hsel : B.stylusTool = UBStylusTool.Selector)
    (hdesk : B.view.bIsDesktop = false)
    (hdet : determineItemToPress T B.scene B.stylusTool fuel
      (X.itemAt B.scene (X.mapToScene event.pos)) = some under)
    (hne : B.view.movingItem ≠ under)
    (hbase : ∀ B' e, X.viewMouseReleaseEvent B' e = B') :
    ∃ B', mouseReleaseEvent T X fuel B event = some B'
      ∧ B'.view.movingItem = none
      ∧ B'.view.suspendedMousePressEvent = B.view.suspendedMousePressEvent
      ∧ B'.scene = B.scene
      ∧ (∃ l, B'.effects = B.effects ++ l ∧ ∀ e, Effect.viewMousePressEvent e ∉ l) := by
  have hrel := releaseSelector_other_item T X fuel
    ((B.log (Effect.setToolCursor B.stylusTool)).log Effect.inputDeviceRelease) event under
    hdesk hdet hne
  have heff : B.addsNone Effect.isViewMousePressEvent (commitUndoStepOfMovingItem X
      ((B.log (Effect.setToolCursor B.stylusTool)).log Effect.inputDeviceRelease)) :=
    Board.addsNone_trans
      (Board.addsNone_trans
        (Board.addsNone_of_log (Effect.setToolCursor B.stylusTool)
          (Board.log_effects B (Effect.setToolCursor B.stylusTool)) (by rfl))
        (Board.addsNone_of_log Effect.inputDeviceRelease
          (Board.log_effects _ Effect.inputDeviceRelease) (by rfl)))
      (commitUndoStepOfMovingItem_addsNone _ X _ (fun _ => rfl))
  unfold mouseReleaseEvent
  simp only [hrel]
  rw [hsel]
  simp only [if_true]
  rw [hsel] at heff
  by_cases hm : B.view.mWidgetMoved = true
  · simp only [Board.log_view, hm, if_true]
    refine ⟨_, rfl, rfl, ?_, ?_, ?_⟩
    · simp only [releaseTeardown, Board.log_view, Board.withView_view,
        Board.setMovingItem_view, commitUndoStepOfMovingItem_view]
    · simp only [releaseTeardown, Board.log_scene, Board.withView_scene,
        Board.setMovingItem_scene, commitUndoStepOfMovingItem_scene]
    · exact Board.addsNone_viewMousePressEvent
        (Board.addsNone_trans heff (Board.addsNone_of_log Effect.updateSelectionFrame rfl (by rfl)))
  · simp only [Board.log_view, hm, Bool.false_eq_true, if_false,
      Board.callViewMouseReleaseEvent, hbase]
    refine ⟨_, rfl, rfl, ?_, ?_, ?_⟩
    · simp only [releaseTeardown, Board.log_view, Board.withView_view,
        Board.setMovingItem_view, commitUndoStepOfMovingItem_view]
    · simp only [releaseTeardown, Board.log_scene, Board.withView_scene,
        Board.setMovingItem_scene, commitUndoStepOfMovingItem_scene]
    · exact Board.addsNone_viewMousePressEvent
        (Board.addsNone_trans heff
          (Board.addsNone_trans
            (Board.addsNone_of_log (Effect.viewMouseReleaseEvent event)
              (Board.log_effects _ (Effect.viewMouseReleaseEvent event)) (by rfl))
            (Board.addsNone_of_log Effect.updateSelectionFrame rfl (by rfl))))

/-- Witness of C28 (amended): the pixmap 3 of `sceneDesk` was pressed, the
release comes at (1000, 1000) over the empty page. -/
theorem release_on_other_item_witness :
    ∃ B', mouseReleaseEvent sampleTypes deskCollaborators 3 pixmapPressedBoard
          (releaseAt ⟨1000, 1000⟩) = some B'
      ∧ B'.view.movingItem = none
      ∧ B'.view.suspendedMousePressEvent = pixmapPressedBoard.view.suspendedMousePressEvent
      ∧ B'.scene = pixmapPressedBoard.scene
      ∧ (∃ l, B'.effects = pixmapPressedBoard.effects ++ l
          ∧ ∀ e, Effect.viewMousePressEvent e ∉ l) :=
  release_on_other_item sampleTypes deskCollaborators 3 pixmapPressedBoard
    (releaseAt ⟨1000, 1000⟩) (some 0) (by decide) (by decide) (by decide) (by decide)
    (fun _ _ => rfl)

/-- C25 (the code at the failing input): under the Pen tool with pressure
sensitivity, a mouse press followed by a tablet press leaves both pressed flags
set, and the tablet press has been forwarded to the scene; in the other order
the mouse press leaves the mouse flag clear. -/
theorem mouse_then_tablet_press_sets_both_flags :
    (runHandlers penTabletBoard
        [deskPress (leftPressAt ⟨600, 300⟩), deskTablet (tabletPressAt ⟨600, 300⟩)]).map
        (fun B => B.view.mMouseButtonIsPressed) = some true
      ∧ (runHandlers penTabletBoard
        [deskPress (leftPressAt ⟨600, 300⟩), deskTablet (tabletPressAt ⟨600, 300⟩)]).map
        (fun B => B.view.mTabletStylusIsPressed) = some true
      ∧ (runHandlers penTabletBoard
        [deskPress (leftPressAt ⟨600, 300⟩), deskTablet (tabletPressAt ⟨600, 300⟩)]).map
        (fun B => B.effects)
        = some [Effect.setCursor, Effect.inputDevicePress ⟨600, 300⟩, Effect.eventAccept,
            Effect.inputDevicePressWithPressure ⟨600, 300⟩ 1000, Effect.eventAccept]
      ∧ (runHandlers penTabletBoard
        [deskTablet (tabletPressAt ⟨600, 300⟩), deskPress (leftPressAt ⟨600, 300⟩)]).map
        (fun B => B.view.mMouseButtonIsPressed) = some false
      ∧ (runHandlers penTabletBoard
        [deskTablet (tabletPressAt ⟨600, 300⟩), deskPress (leftPressAt ⟨600, 300⟩)]).map
        (fun B => B.view.mTabletStylusIsPressed) = some true := by
  decide

/-- C29 (the code at the failing input): a press under the Pen tool at
(600, 300) is accepted and leaves the reference point of the drag threshold at
its old value (0, 0); the move to (603, 301), at distance 4 from the press, is
then taken as a drag and forwarded to the scene, whereas after a press of the
Selector tool at the same point the reference point is (600, 300) and the same
move is ignored.  With the stale reference point (600, 300) and a press of the
Pen tool at (100, 100), the move to (603, 300), far from the press, is
ignored. -/
theorem pen_press_keeps_stale_threshold_reference :
    (deskPress (leftPressAt ⟨600, 300⟩) (deskBoard UBStylusTool.Pen)).map
        (fun B => B.view.mLastPressedMousePos) = some ⟨0, 0⟩
      ∧ (deskPress (leftPressAt ⟨600, 300⟩) (deskBoard UBStylusTool.Pen)).map
        (fun B => B.effects.getLast?) = some (some Effect.eventAccept)
      ∧ (runHandlers (deskBoard UBStylusTool.Pen)
          [deskPress (leftPressAt ⟨600, 300⟩), deskMove (moveTo ⟨603, 301⟩)]).map
        (fun B => B.view.mIsDragInProgress) = some true
      ∧ (runHandlers (deskBoard UBStylusTool.Pen)
          [deskPress (leftPressAt ⟨600, 300⟩), deskMove (moveTo ⟨603, 301⟩)]).map
        (fun B => B.effects)
        = some [Effect.setCursor, Effect.inputDevicePress ⟨600, 300⟩, Effect.eventAccept,
            Effect.inputDeviceMove ⟨603, 301⟩ true, Effect.eventAccept]
      ∧ (deskPress (leftPressAt ⟨600, 300⟩) (deskBoard UBStylusTool.Selector)).map
        (fun B => B.view.mLastPressedMousePos) = some ⟨600, 300⟩
      ∧ (runHandlers (deskBoard UBStylusTool.Selector)
          [deskPress (leftPressAt ⟨600, 300⟩), deskMove (moveTo ⟨603, 301⟩)]).map
        (fun B => B.view.mIsDragInProgress) = some false
      ∧ (runHandlers (deskBoard UBStylusTool.Selector)
          [deskPress (leftPressAt ⟨600, 300⟩), deskRelease (releaseAt ⟨600, 300⟩),
           setStylusTool UBStylusTool.Pen, deskPress (leftPressAt ⟨100, 100⟩),
           deskMove (moveTo ⟨603, 300⟩)]).map
        (fun B => B.view.mIsDragInProgress) = some false
      ∧ (runHandlers (deskBoard UBStylusTool.Selector)
          [deskPress (leftPressAt ⟨600, 300⟩), deskRelease (releaseAt ⟨600, 300⟩),
           setStylusTool UBStylusTool.Pen, deskPress (leftPressAt ⟨100, 100⟩),
           deskMove (moveTo ⟨603, 300⟩)]).map
        (fun B => B.effects.getLast?) = some (some Effect.eventAccept)
      ∧ (runHandlers (deskBoard UBStylusTool.Selector)
          [deskPress (leftPressAt ⟨600, 300⟩), deskRelease (releaseAt ⟨600, 300⟩),
           setStylusTool UBStylusTool.Pen, deskPress (leftPressAt ⟨100, 100⟩),
           deskMove (moveTo ⟨603, 300⟩)]).map
        (fun B => B.effects.filter (fun e => decide (e = Effect.inputDeviceMove ⟨603, 300⟩ true)))
        = some [] := by
  decide

/-- C22 (the code at the failing input): the pixmap 3 is selected before the
gesture; the band first takes it among the tracked items, then deselects it when
it shrinks.  And the pixmap 3 selected by an earlier band is deselected by the
first update of a later band elsewhere. -/
theorem rubber_band_deselects_earlier_selection :
    (selectedDeskBoard.scene.item 3).isSelected = true
      ∧ selectedDeskBoard.view.mJustSelectedItems = []
      ∧ (runHandlers selectedDeskBoard
          [deskPress (ctrlPressAt ⟨390, 110⟩), deskMove (moveTo ⟨510, -10⟩)]).map
        (fun B => (B.scene.item 3).isSelected) = some true
      ∧ (runHandlers selectedDeskBoard
          [deskPress (ctrlPressAt ⟨390, 110⟩), deskMove (moveTo ⟨510, -10⟩)]).map
        (fun B => B.view.mJustSelectedItems) = some [3]
      ∧ bandOverSelectedRun.map (fun B => (B.scene.item 3).isSelected) = some false
      ∧ (runHandlers (deskBoard UBStylusTool.Selector)
          [deskPress (ctrlPressAt ⟨390, 110⟩), deskMove (moveTo ⟨510, -10⟩),
           deskRelease (releaseAt ⟨510, -10⟩), deskPress (ctrlPressAt ⟨-10, 110⟩)]).map
        (fun B => (B.scene.item 3).isSelected) = some true
      ∧ (runHandlers (deskBoard UBStylusTool.Selector)
          [deskPress (ctrlPressAt ⟨390, 110⟩), deskMove (moveTo ⟨510, -10⟩),
           deskRelease (releaseAt ⟨510, -10⟩), deskPress (ctrlPressAt ⟨-10, 110⟩)]).map
        (fun B => B.view.mJustSelectedItems) = some [3]
      ∧ twoBandsRun.map (fun B => (B.scene.item 3).isSelected) = some false
      ∧ twoBandsRun.map (fun B => (B.scene.item 1).isSelected) = some false
      ∧ (twoBandsRun.map leaveEvent).map (fun B => B.view.mJustSelectedItems) = some [] := by
  decide

/-- C23 (as stated, refuted): over `sceneUnselectedGroup`, where nothing is
selected, a band that holds the polygon 3 alone selects the strokes group 4,
the parent of the polygon, which is not among the items that the hit test
returns for the rectangle. -/
theorem rubber_band_selects_parent_of_polygon :
    (sampleCollaborators [3]).itemsInRect sceneUnselectedGroup ⟨-10, -10, 110, 110⟩ = [3]
      ∧ (sceneUnselectedGroup.item 3).type = sampleTypes.PolygonItemType
      ∧ (sceneUnselectedGroup.item 3).parentItem = some 4
      ∧ (sceneUnselectedGroup.item 4).type = sampleTypes.StrokesGroup
      ∧ (sceneUnselectedGroup.item 4).isSelected = false
      ∧ bandOverPolygonRun.map (fun B => B.view.mUBRubberBand)
          = some (some ⟨-10, -10, 110, 110⟩)
      ∧ bandOverPolygonRun.map (fun B => (B.scene.item 4).isSelected) = some true
      ∧ bandOverPolygonRun.map (fun B => (B.scene.item 3).isSelected) = some false := by
  decide

/-- C23 (amended): in a rubber-band gesture under the Selector tool that starts
with no tracked item, over a fixed set of items whose hit test does not read the
selection flags, and in which no item selected at the start is a target of a
rectangle of the gesture: after every sequence of one or more updates the items
are the same up to the selection flags, and the selected items are exactly
those selected at the start together with the targets of the last rectangle,
that is, the items that `items(bandRect)` returns, a polygon with a parent
counting as its parent, which have one of the eligible types.  The polygon tag
is taken not to be among the eligible tags. -/
theorem rubber_band_selection (T : ItemTypes) (X : Collaborators) (B : Board)
    (es : List QMouseEvent) (e : QMouseEvent)
    (hpoly : T.PolygonItemType ∉ T.rubberTypes)
    (hitems : ∀ S S' r, SameItemsButSelection S S' → X.itemsInRect S' r = X.itemsInRect S r)
    (hfresh : B.view.mJustSelectedItems = [])
    (hpre : ∀ e' ∈ es ++ [e], ∀ i ∈ rubberTargets T X B.scene
        (QRect.normalizedOfPoints B.view.mMouseDownPos e'.pos),
      (B.scene.item i).isSelected = false) :
    SameItemsButSelection B.scene (rubberSteps T X B (es ++ [e])).scene
      ∧ ∀ i, ((rubberSteps T X B (es ++ [e])).scene.item i).isSelected = true
          ↔ (B.scene.item i).isSelected = true
            ∨ i ∈ rubberTargets T X B.scene
                (QRect.normalizedOfPoints B.view.mMouseDownPos e.pos) := by
  have hinv0 : RubberInv T B B := by
    refine ⟨SameItemsButSelection.refl _, rfl, fun i => ?_, fun i hi => ?_, ?_⟩
    · rw [hfresh]; simp
    · rw [hfresh] at hi; cases hi
    · rw [hfresh]; exact List.nodup_nil
  have hinv := rubberSteps_inv T X B hpoly hitems es B hinv0
    (fun e' he' => hpre e' (List.mem_append_left _ he'))
  obtain ⟨⟨k1, _, k3, _, _⟩, k6⟩ := rubberBandSelect_step T X B (rubberSteps T X B es) e hpoly
    hitems hinv (hpre e (List.mem_append_right _ (List.mem_singleton_self e)))
  rw [rubberSteps_append]
  refine ⟨k1, fun i => ?_⟩
  rw [k3 i, k6 i]

/-- Witness of C23 (amended): over `sceneDesk`, where nothing is selected, a
band from (390, 110) first to (450, 50), then to (510, -10), which holds the
pixmap 3; the same selection results from the press and the two moves through
the handlers of the view. -/
theorem rubber_band_selection_witness :
    (SameItemsButSelection bandStartBoard.scene
        (rubberSteps sampleTypes deskCollaborators bandStartBoard
          ([moveTo ⟨450, 50⟩] ++ [moveTo ⟨510, -10⟩])).scene
      ∧ ∀ i, ((rubberSteps sampleTypes deskCollaborators bandStartBoard
            ([moveTo ⟨450, 50⟩] ++ [moveTo ⟨510, -10⟩])).scene.item i).isSelected = true
          ↔ (bandStartBoard.scene.item i).isSelected = true
            ∨ i ∈ rubberTargets sampleTypes deskCollaborators bandStartBoard.scene
                (QRect.normalizedOfPoints bandStartBoard.view.mMouseDownPos
                  (moveTo ⟨510, -10⟩).pos))
      ∧ (runHandlers (deskBoard UBStylusTool.Selector)
          [deskPress (leftPressAt ⟨390, 110⟩), deskMove (moveTo ⟨450, 50⟩),
           deskMove (moveTo ⟨510, -10⟩)]).map
          (fun B => [1, 2, 3].map (fun i => (B.scene.item i).isSelected))
        = some ([1, 2, 3].map (fun i =>
            ((rubberSteps sampleTypes deskCollaborators bandStartBoard
              ([moveTo ⟨450, 50⟩] ++ [moveTo ⟨510, -10⟩])).scene.item i).isSelected))
      ∧ rubberTargets sampleTypes deskCollaborators bandStartBoard.scene
          (QRect.normalizedOfPoints bandStartBoard.view.mMouseDownPos
            (moveTo ⟨510, -10⟩).pos) = [3] :=
  ⟨rubber_band_selection sampleTypes deskCollaborators bandStartBoard [moveTo ⟨450, 50⟩]
    (moveTo ⟨510, -10⟩) (by decide)
    (fun S S' r h => sampleCollaborators_itemsInRect [1, 2, 3] S S' r h) (by decide)
    (fun _ _ i _ => sceneDesk_unselected i), by decide, by decide⟩

/-- C24 (as stated, refuted): with the stylus-pressed flag latched by a tablet
press and the Selector tool then chosen, the mouse press over the pixmap 3
leaves the mouse-pressed flag clear and the pixmap at (400, 0), and the mouse
move from (450, 50) to (500, 50) translates the pixmap to (450, 0): the drag
test of `handleItemMouseMove` accepts either pressed flag.  The same holds with
the Play tool in place of the Selector. -/
theorem mouse_move_drags_while_stylus_pressed :
    stylusThenMousePressRun.map (fun B => B.view.mTabletStylusIsPressed) = some true
      ∧ stylusThenMousePressRun.map (fun B => B.view.mMouseButtonIsPressed) = some false
      ∧ stylusThenMousePressRun.map (fun B => B.stylusTool) = some UBStylusTool.Selector
      ∧ stylusThenMousePressRun.map (fun B => B.view.movingItem) = some (some 3)
      ∧ stylusThenMousePressRun.map (fun B => (B.scene.item 3).pos) = some ⟨400, 0⟩
      ∧ stylusThenMouseMoveRun.map (fun B => B.view.mTabletStylusIsPressed) = some true
      ∧ stylusThenMouseMoveRun.map (fun B => B.view.mMouseButtonIsPressed) = some false
      ∧ stylusThenMouseMoveRun.map (fun B => (B.scene.item 3).pos) = some ⟨450, 0⟩
      ∧ stylusThenMouseMovePlayRun.map (fun B => B.view.mTabletStylusIsPressed) = some true
      ∧ stylusThenMouseMovePlayRun.map (fun B => B.view.mMouseButtonIsPressed) = some false
      ∧ stylusThenMouseMovePlayRun.map (fun B => (B.scene.item 3).pos) = some ⟨450, 0⟩ := by
  decide

/-- C24 (amended): for every tool, while the stylus-pressed flag is latched
(base-class handlers inert, parent chains finite), a mouse press returns with
the mouse-pressed flag as it was and has made no call of `inputDevicePress` or
`inputDeviceMove`, a mouse move returns and has made no such call, and under
every tool other than Selector and Play both leave every item where it was. -/
theorem mouse_events_while_stylus_pressed (T : ItemTypes) (X : Collaborators) (n fuel : Nat)
    (B : Board) (press move : QMouseEvent)
    (hlatched : B.view.mTabletStylusIsPressed = true)
    (hbasePress : ∀ B0 e, X.viewMousePressEvent B0 e = B0)
    (hbaseMove : ∀ B0 e, X.viewMouseMoveEvent B0 e = B0)
    (hchain : ∀ item, parentChainWithin B.scene n item = true) (hfuel : n < fuel) :
    (∃ B1 l, mousePressEvent T X fuel B press = some B1
        ∧ B1.view.mMouseButtonIsPressed = B.view.mMouseButtonIsPressed
        ∧ B1.effects = B.effects ++ l
        ∧ (∀ p, Effect.inputDevicePress p ∉ l) ∧ (∀ p b, Effect.inputDeviceMove p b ∉ l)
        ∧ (B.stylusTool ≠ UBStylusTool.Selector → B.stylusTool ≠ UBStylusTool.Play →
            ∀ i, (B1.scene.item i).pos = (B.scene.item i).pos))
      ∧ (∃ B2 l, mouseMoveEvent T X fuel B move = some B2
        ∧ B2.effects = B.effects ++ l
        ∧ (∀ p, Effect.inputDevicePress p ∉ l) ∧ (∀ p b, Effect.inputDeviceMove p b ∉ l)
        ∧ (B.stylusTool ≠ UBStylusTool.Selector → B.stylusTool ≠ UBStylusTool.Play →
            ∀ i, (B2.scene.item i).pos = (B.scene.item i).pos)) := by
  obtain ⟨B1, h1, ⟨f1, -, l1, e1, q1⟩, p1⟩ :=
    mousePressEvent_frame T X n fuel B press hlatched hbasePress hchain hfuel
  obtain ⟨B2, h2, ⟨-, -, l2, e2, q2⟩, p2⟩ :=
    mouseMoveEvent_frame T X n fuel B move hlatched hbaseMove hchain hfuel
  refine ⟨⟨B1, l1, h1, f1, e1, ?_, ?_, p1⟩, ⟨B2, l2, h2, e2, ?_, ?_, p2⟩⟩
  · intro p hp; exact Bool.noConfusion (q1 _ hp)
  · intro p b hp; exact Bool.noConfusion (q1 _ hp)
  · intro p hp; exact Bool.noConfusion (q2 _ hp)
  · intro p b hp; exact Bool.noConfusion (q2 _ hp)

/-- Witness of C24: on `stylusPressedBoard`, under the Pen tool with the stylus
pressed, the mouse press at (450, 50) and the mouse move to (500, 50). -/
theorem mouse_events_while_stylus_pressed_witness :
    (∃ B1 l, mousePressEvent sampleTypes deskCollaborators 3 stylusPressedBoard
          (leftPressAt ⟨450, 50⟩) = some B1
        ∧ B1.view.mMouseButtonIsPressed = stylusPressedBoard.view.mMouseButtonIsPressed
        ∧ B1.effects = stylusPressedBoard.effects ++ l
        ∧ (∀ p, Effect.inputDevicePress p ∉ l) ∧ (∀ p b, Effect.inputDeviceMove p b ∉ l)
        ∧ (stylusPressedBoard.stylusTool ≠ UBStylusTool.Selector →
            stylusPressedBoard.stylusTool ≠ UBStylusTool.Play →
            ∀ i, (B1.scene.item i).pos = (stylusPressedBoard.scene.item i).pos))
      ∧ (∃ B2 l, mouseMoveEvent sampleTypes deskCollaborators 3 stylusPressedBoard
          (moveTo ⟨500, 50⟩) = some B2
        ∧ B2.effects = stylusPressedBoard.effects ++ l
        ∧ (∀ p, Effect.inputDevicePress p ∉ l) ∧ (∀ p b, Effect.inputDeviceMove p b ∉ l)
        ∧ (stylusPressedBoard.stylusTool ≠ UBStylusTool.Selector →
            stylusPressedBoard.stylusTool ≠ UBStylusTool.Play →
            ∀ i, (B2.scene.item i).pos = (stylusPressedBoard.scene.item i).pos)) :=
  mouse_events_while_stylus_pressed sampleTypes deskCollaborators 0 3 stylusPressedBoard
    (leftPressAt ⟨450, 50⟩) (moveTo ⟨500, 50⟩) (by decide) (fun _ _ => rfl) (fun _ _ => rfl)
    sceneDesk_chain (by decide)

end OpenBoard
